import Mathlib

/-!
# go-cqhttp: the sqlite3 message store (`db/sqlite3/sqlite3.go`)

A shallow embedding of the storage gateway: `Open`, `InsertGroupMessage`,
`InsertPrivateMessage`, `GetGroupMessageByGlobalID`,
`GetPrivateMessageByGlobalID` and `GetMessageByGlobalID`.

* Go integers are `Int`/`Nat`; every conversion (`uint32(x)`, `uint64(x)`,
  `int64(x)`) is an explicit reduction modulo the width.
* Go strings and byte slices are lists of bytes (`S2B`/`B2S` are the identity).
* The receiver `s *database` is passed explicitly.  Its `RWMutex` is observed
  through an event log: every `Lock`/`Unlock`/`RLock`/`RUnlock` and every call
  into the SQL engine appends one event, in program order.
* The SQL engine (`github.com/FloatTech/sqlite`) and the YAML codec
  (`gopkg.in/yaml.v3`) are third-party libraries: the gateway is parametric
  in them (`Sqlite σ`, `Yaml`).
-/

/-- A byte. -/
abbrev Byte := Fin 256

/-- Go `string` and `[]byte`: a sequence of bytes. -/
abbrev GoString := List Byte

/-- Go `error` values are represented by their message. -/
abbrev Err := String

/-- The low eight bits of a number, `byte(n)`. -/
def byte (n : Nat) : Byte := ⟨n % 256, Nat.mod_lt _ (by decide)⟩

/-- Conversion `uint32(x)` of a signed integer: reduction modulo `2^32`. -/
def uint32 (x : Int) : Nat := (x % 4294967296).toNat

/-- Conversion `uint64(x)` of a signed integer: reduction modulo `2^64`. -/
def uint64 (x : Int) : Nat := (x % 18446744073709551616).toNat

/-- Conversion `int64(u)` of a `uint64`: the two's complement reading. -/
def int64 (u : Nat) : Int :=
  if u % 18446744073709551616 < 9223372036854775808 then ((u % 18446744073709551616 : Nat) : Int)
  else ((u % 18446744073709551616 : Nat) : Int) - 18446744073709551616

/-- Range of a Go `int64`. -/
def isInt64 (x : Int) : Prop := -9223372036854775808 ≤ x ∧ x < 9223372036854775808

/-- Range of a Go `int32`. -/
def isInt32 (x : Int) : Prop := -2147483648 ≤ x ∧ x < 2147483648

instance (x : Int) : Decidable (isInt64 x) := by unfold isInt64; infer_instance
instance (x : Int) : Decidable (isInt32 x) := by unfold isInt32; infer_instance

/-- Go `errors.Wrap(err, msg)`: the message is put in front of the cause. -/
def errorsWrap (err : Err) (msg : String) : Err := msg ++ ": " ++ err

/-- Go `utils.S2B`: the bytes of a string. -/
def S2B (s : GoString) : List Byte := s

/-- Go `utils.B2S`: the string made of a byte slice. -/
def B2S (b : List Byte) : GoString := b

/-- The Go string "null". -/
def nullString : GoString := [110, 117, 108, 108]

/-! ## hash/crc64 -/

namespace crc64

/-- The ISO polynomial, `crc64.ISO = 0xD800000000000000`. -/
def ISO : Nat := 0xD800000000000000

/-- One step of the table construction: shift right, folding in the polynomial. -/
def shiftStep (poly crc : Nat) : Nat :=
  if crc % 2 = 1 then (crc >>> 1) ^^^ poly else crc >>> 1

/-- Go `crc64.MakeTable(poly)`: entry `i` is `i` pushed through eight shift steps. -/
def MakeTable (poly : Nat) (i : Nat) : Nat :=
  shiftStep poly (shiftStep poly (shiftStep poly (shiftStep poly
    (shiftStep poly (shiftStep poly (shiftStep poly (shiftStep poly i)))))))

/-- Bitwise complement of a `uint64`. -/
def not64 (crc : Nat) : Nat := 18446744073709551615 - crc % 18446744073709551616

/-- Go `crc64.update`: the byte-at-a-time loop
`crc = tab[byte(crc)^v] ^ (crc >> 8)` between two complements. -/
def update (crc : Nat) (tab : Nat → Nat) (p : List Byte) : Nat :=
  not64 (p.foldl (fun crc v => tab ((crc % 256) ^^^ v.val) ^^^ (crc >>> 8)) (not64 crc))

/-- Go `crc64.Checksum(data, tab)`. -/
def Checksum (data : List Byte) (tab : Nat → Nat) : Nat := update 0 tab data

/-- Go `crc64.digest`: the running checksum and its table. -/
structure digest where
  crc : Nat
  tab : Nat → Nat

/-- Go `crc64.New(tab)`. -/
def New (tab : Nat → Nat) : digest := { crc := 0, tab := tab }

/-- Go `(*digest).Write(p)`. -/
def digest.Write (d : digest) (p : List Byte) : digest := { d with crc := update d.crc d.tab p }

/-- Go `(*digest).Sum64()`. -/
def digest.Sum64 (d : digest) : Nat := d.crc

/-- Go `(*digest).Reset()`. -/
def digest.Reset (d : digest) : digest := { d with crc := 0 }

end crc64

/-! ## LagrangeGo `utils/binary`: the big-endian builder -/

namespace binary

/-- Go `binary.Builder`: the bytes written so far. -/
structure Builder where
  buffer : List Byte

/-- Go `binary.NewBuilder()`. -/
def NewBuilder : Builder := { buffer := [] }

/-- Go `WriteU32(v)`: four bytes, most significant first. -/
def Builder.WriteU32 (b : Builder) (v : Nat) : Builder :=
  { buffer := b.buffer ++ [byte (v / 16777216), byte (v / 65536), byte (v / 256), byte v] }

/-- Go `WriteU64(v)`: eight bytes, most significant first. -/
def Builder.WriteU64 (b : Builder) (v : Nat) : Builder :=
  { buffer := b.buffer ++
      [byte (v / 72057594037927936), byte (v / 281474976710656), byte (v / 1099511627776),
       byte (v / 4294967296), byte (v / 16777216), byte (v / 65536), byte (v / 256), byte v] }

/-- Go `ToBytes()`. -/
def Builder.ToBytes (b : Builder) : List Byte := b.buffer

end binary

/-! ## Package `db`: the domain values handed to the gateway -/

namespace db

/-- One message element (`global.MSG`, a key/value document). -/
abbrev MSG := List (GoString × GoString)

/-- Modelled from the spec: the domain type `db.StoredMessageAttribute` (package
`db` is not under `src/`). -/
structure StoredMessageAttribute where
  MessageSeq : Int := 0
  InternalID : Int := 0
  SenderUin : Int := 0
  SenderName : GoString := []
  Timestamp : Int := 0
  deriving DecidableEq, Repr

/-- Modelled from the spec: the domain type `db.QuotedInfo` (package `db` is not
under `src/`). -/
structure QuotedInfo where
  PrevID : GoString := []
  PrevGlobalID : Int := 0
  QuotedContent : List MSG := []
  deriving DecidableEq, Repr

/-- Modelled from the spec: the domain type `db.StoredGroupMessage` (package `db`
is not under `src/`); a nil pointer is `none`. -/
structure StoredGroupMessage where
  ID : Int := 0
  GlobalID : Int := 0
  Attribute : Option StoredMessageAttribute := none
  SubType : GoString := []
  QuotedInfo : Option QuotedInfo := none
  GroupCode : Int := 0
  AnonymousID : GoString := []
  Content : List MSG := []
  deriving DecidableEq, Repr

/-- Modelled from the spec: the domain type `db.StoredPrivateMessage` (package
`db` is not under `src/`); a nil pointer is `none`. -/
structure StoredPrivateMessage where
  ID : Int := 0
  GlobalID : Int := 0
  Attribute : Option StoredMessageAttribute := none
  SubType : GoString := []
  QuotedInfo : Option QuotedInfo := none
  SessionUin : Int := 0
  TargetUin : Int := 0
  Content : List MSG := []
  deriving DecidableEq, Repr

/-- Modelled from the spec: the interface `db.StoredMessage`, implemented by both
message kinds (package `db` is not under `src/`). -/
inductive StoredMessage where
  | ofGroup (m : StoredGroupMessage)
  | ofPrivate (m : StoredPrivateMessage)
  deriving DecidableEq, Repr

/-- Every integer field of an attribute lies in the range of its Go type. -/
def StoredMessageAttribute.WF (a : StoredMessageAttribute) : Prop :=
  isInt64 a.MessageSeq ∧ isInt32 a.InternalID ∧ isInt64 a.SenderUin ∧ isInt64 a.Timestamp

instance (a : StoredMessageAttribute) : Decidable a.WF := by
  unfold StoredMessageAttribute.WF; infer_instance

end db

/-! ## Package `sqlite3`: rows, the engine interface and the gateway -/

namespace sqlite3

/-- Modelled from the spec: the row type of the UinInfo table (declared in
model.go, not under `src/`). -/
structure UinInfo where
  Uin : Int := 0
  Name : GoString := []
  deriving DecidableEq, Repr

/-- Modelled from the spec: the row type of the TinyInfo table (declared in
model.go, not under `src/`; the source only sets its `Name`). -/
structure TinyInfo where
  ID : Int := 0
  Name : GoString := []
  deriving DecidableEq, Repr

/-- Modelled from the spec: the row type of the MessageAttribute table (declared
in model.go, not under `src/`). -/
structure StoredMessageAttribute where
  ID : Int := 0
  MessageSeq : Int := 0
  InternalID : Int := 0
  SenderUin : Int := 0
  Timestamp : Int := 0
  deriving DecidableEq, Repr

/-- Modelled from the spec: the row type of the QuotedInfo table (declared in
model.go, not under `src/`). -/
structure QuotedInfo where
  ID : Int := 0
  PrevID : GoString := []
  PrevGlobalID : Int := 0
  QuotedContent : GoString := []
  deriving DecidableEq, Repr

/-- Modelled from the spec: the row type of the GroupMessage table, the envelope
of a group message (declared in model.go, not under `src/`). -/
structure StoredGroupMessage where
  GlobalID : Int := 0
  ID : Int := 0
  AttributeID : Int := 0
  SubType : GoString := []
  QuotedInfoID : Int := 0
  GroupCode : Int := 0
  AnonymousID : GoString := []
  Content : GoString := []
  deriving DecidableEq, Repr

/-- Modelled from the spec: the row type of the PrivateMessage table, the envelope
of a private message (declared in model.go, not under `src/`). -/
structure StoredPrivateMessage where
  GlobalID : Int := 0
  ID : Int := 0
  AttributeID : Int := 0
  SubType : GoString := []
  QuotedInfoID : Int := 0
  SessionUin : Int := 0
  TargetUin : Int := 0
  Content : GoString := []
  deriving DecidableEq, Repr

/-- The six tables of the store. -/
inductive Table where
  | UinInfo | TinyInfo | MessageAttribute | QuotedInfo | GroupMessage | PrivateMessage
  deriving DecidableEq, Repr

/-- Modelled from the spec: the string value of a table name constant (the
constants are declared in model.go, not under `src/`); each table goes by the
name the specification gives it. -/
def Table.name : Table → String
  | Table.UinInfo => "UinInfo"
  | Table.TinyInfo => "TinyInfo"
  | Table.MessageAttribute => "MessageAttribute"
  | Table.QuotedInfo => "QuotedInfo"
  | Table.GroupMessage => "GroupMessage"
  | Table.PrivateMessage => "PrivateMessage"

/-- The constant naming the UinInfo table. -/
def Sqlite3UinInfoTableName : Table := Table.UinInfo

/-- The constant naming the TinyInfo table. -/
def Sqlite3TinyInfoTableName : Table := Table.TinyInfo

/-- The constant naming the MessageAttribute table. -/
def Sqlite3MessageAttributeTableName : Table := Table.MessageAttribute

/-- The constant naming the QuotedInfo table. -/
def Sqlite3QuotedInfoTableName : Table := Table.QuotedInfo

/-- The constant naming the GroupMessage table. -/
def Sqlite3GroupMessageTableName : Table := Table.GroupMessage

/-- The constant naming the PrivateMessage table. -/
def Sqlite3PrivateMessageTableName : Table := Table.PrivateMessage

/-- A row instance handed to `Insert`, of any table. -/
inductive Row where
  | UinInfo (r : UinInfo)
  | TinyInfo (r : TinyInfo)
  | MessageAttribute (r : StoredMessageAttribute)
  | QuotedInfo (r : QuotedInfo)
  | GroupMessage (r : StoredGroupMessage)
  | PrivateMessage (r : StoredPrivateMessage)
  deriving DecidableEq, Repr

/-- Columns named in filters and foreign-key clauses. -/
inductive Column where
  | GlobalID | ID | Uin | SenderUin | AttributeID | QuotedInfoID
  deriving DecidableEq, Repr

/-- The filter clause `"WHERE <column>=" + <decimal value>`. -/
structure Where where
  column : Column
  value : Int
  deriving DecidableEq, Repr

/-- The clause `"FOREIGN KEY(<column>) REFERENCES <table>(<refColumn>)"`. -/
structure ForeignKey where
  column : Column
  table : Table
  refColumn : Column
  deriving DecidableEq, Repr

/-- The capability the gateway needs from the SQL engine, over an engine
state `σ`: each call returns its `error` (and, for writes, the next state). -/
structure Sqlite (σ : Type) where
  Open : σ → Nat → Option Err × σ
  Exec : σ → String → Option Err × σ
  Create : σ → Table → List ForeignKey → Option Err × σ
  Insert : σ → Table → Row → Option Err × σ
  FindUinInfo : σ → Where → Except Err UinInfo
  FindMessageAttribute : σ → Where → Except Err StoredMessageAttribute
  FindQuotedInfo : σ → Where → Except Err QuotedInfo
  FindGroupMessage : σ → Where → Except Err StoredGroupMessage
  FindPrivateMessage : σ → Where → Except Err StoredPrivateMessage

/-- The YAML codec as used by the gateway: `yaml.Marshal` on each of the three
values it serializes, and the decoding of a snapshot: whether it is the YAML
null document (`IsNull`), and the content it carries, if it decodes.
`yaml.Marshal` of a pointer to a struct that is not nil emits a mapping, never
the null document: `marshalQuotedInfo_not_null`. -/
structure Yaml where
  MarshalGroupMessage : db.StoredGroupMessage → Except Err (List Byte)
  MarshalPrivateMessage : db.StoredPrivateMessage → Except Err (List Byte)
  MarshalQuotedInfo : db.QuotedInfo → Except Err (List Byte)
  DecodeContent : List Byte → Option (List db.MSG)
  DecodeQuotedContent : List Byte → Option (List db.MSG)
  IsNull : List Byte → Bool
  marshalQuotedInfo_not_null :
    ∀ q c, MarshalQuotedInfo q = Except.ok c → IsNull c = false

/-- Modelled from the spec: the struct tags of package `db` (not under `src/`).
The snapshot only recovers "fields not captured by normalized columns":
`yaml.Unmarshal(b, &ret)` fills `Content` and leaves every other field; on a
decoding error `ret` is left as it is. -/
def Yaml.UnmarshalGroupMessage (Y : Yaml) (b : List Byte) (ret : db.StoredGroupMessage) :
    db.StoredGroupMessage :=
  match Y.DecodeContent b with
  | some c => { ret with Content := c }
  | none => ret

/-- Modelled from the spec: the struct tags of package `db` (not under `src/`);
`yaml.Unmarshal(b, &ret)` on a private message fills `Content` only. -/
def Yaml.UnmarshalPrivateMessage (Y : Yaml) (b : List Byte) (ret : db.StoredPrivateMessage) :
    db.StoredPrivateMessage :=
  match Y.DecodeContent b with
  | some c => { ret with Content := c }
  | none => ret

/-- Modelled from the spec: the struct tags of package `db` (not under `src/`).
The pointer `ret.QuotedInfo` after `yaml.Unmarshal(b, &ret.QuotedInfo)`, when it
pointed to `ret` before: the call is handed a pointer to the pointer, so a
null document sets the pointer to nil; any other document fills
`QuotedContent` only, and a decoding error leaves the quote as it is. -/
def Yaml.UnmarshalQuotedInfo (Y : Yaml) (b : List Byte) (ret : db.QuotedInfo) :
    Option db.QuotedInfo :=
  if Y.IsNull b then none
  else
    match Y.DecodeQuotedContent b with
    | some c => some { ret with QuotedContent := c }
    | none => some ret

/-- What the gateway does, in program order: lock operations and engine calls
(with the row or filter passed and whether the call returned a nil error). -/
inductive Event where
  | Lock | Unlock | RLock | RUnlock
  | Open (ok : Bool)
  | Exec (ok : Bool)
  | Create (t : Table) (ok : Bool)
  | Insert (t : Table) (row : Row) (ok : Bool)
  | Find (t : Table) (w : Where) (ok : Bool)
  deriving DecidableEq, Repr

/-- The receiver `database`: the engine handle `db`, the `ttl`, and the log of
lock and engine events standing for the embedded `sync.RWMutex`. -/
structure database (σ : Type) where
  db : σ
  ttl : Nat
  trace : List Event

variable {σ : Type}

/-- Go `s.Lock()`. -/
def database.Lock (s : database σ) : database σ := { s with trace := s.trace ++ [Event.Lock] }

/-- Go `s.Unlock()`. -/
def database.Unlock (s : database σ) : database σ := { s with trace := s.trace ++ [Event.Unlock] }

/-- Go `s.RLock()`. -/
def database.RLock (s : database σ) : database σ := { s with trace := s.trace ++ [Event.RLock] }

/-- Go `s.RUnlock()`. -/
def database.RUnlock (s : database σ) : database σ :=
  { s with trace := s.trace ++ [Event.RUnlock] }

/-- Go `s.db.Open(s.ttl)`. -/
def database.dbOpen (E : Sqlite σ) (s : database σ) : Option Err × database σ :=
  ((E.Open s.db s.ttl).1,
   { s with db := (E.Open s.db s.ttl).2,
            trace := s.trace ++ [Event.Open (E.Open s.db s.ttl).1.isNone] })

/-- Go `s.db.DB.Exec(stmt)`. -/
def database.dbExec (E : Sqlite σ) (s : database σ) (stmt : String) : Option Err × database σ :=
  ((E.Exec s.db stmt).1,
   { s with db := (E.Exec s.db stmt).2,
            trace := s.trace ++ [Event.Exec (E.Exec s.db stmt).1.isNone] })

/-- Go `s.db.Create(table, &T{}, fks...)`. -/
def database.dbCreate (E : Sqlite σ) (s : database σ) (t : Table) (fks : List ForeignKey) :
    Option Err × database σ :=
  ((E.Create s.db t fks).1,
   { s with db := (E.Create s.db t fks).2,
            trace := s.trace ++ [Event.Create t (E.Create s.db t fks).1.isNone] })

/-- Go `s.db.Insert(table, row)`. -/
def database.dbInsert (E : Sqlite σ) (s : database σ) (t : Table) (row : Row) :
    Option Err × database σ :=
  ((E.Insert s.db t row).1,
   { s with db := (E.Insert s.db t row).2,
            trace := s.trace ++ [Event.Insert t row (E.Insert s.db t row).1.isNone] })

/-- The log entry of a `s.db.Find(table, &dst, filter)` call with result `r`. -/
def database.logFind {α : Type} (s : database σ) (t : Table) (w : Where) (r : Except Err α) :
    database σ :=
  { s with trace := s.trace ++ [Event.Find t w (r.toOption.isSome)] }

/-- One statement of `Open` with its `if err != nil { return errors.Wrap(err, msg) }`:
on an error `Open` returns it wrapped, otherwise the rest `k` runs. -/
def orReturn (r : Option Err × database σ) (msg : String)
    (k : database σ → Option Err × database σ) : Option Err × database σ :=
  match r.1 with
  | some err => (some (errorsWrap err msg), r.2)
  | none => k r.2

/-- Go `(*database).Open` (sqlite3.go 49-110).  Setting `DBPath` and
`os.MkdirAll` (whose error is discarded) do not reach the engine before
`s.db.Open`, and are left out. -/
def Open (E : Sqlite σ) (s : database σ) : Option Err × database σ :=
  orReturn (s.dbOpen E) "open sqlite3 error" fun s =>
  orReturn (s.dbExec E "PRAGMA foreign_keys = ON;") "enable foreign_keys error" fun s =>
  orReturn (s.dbCreate E Sqlite3UinInfoTableName []) "create sqlite3 table error" fun s =>
  orReturn (s.dbInsert E Sqlite3UinInfoTableName (Row.UinInfo { Name := nullString }))
    ("insert into sqlite3 table " ++ Sqlite3UinInfoTableName.name ++ " error") fun s =>
  orReturn (s.dbCreate E Sqlite3TinyInfoTableName []) "create sqlite3 table error" fun s =>
  orReturn (s.dbInsert E Sqlite3TinyInfoTableName (Row.TinyInfo { Name := nullString }))
    ("insert into sqlite3 table " ++ Sqlite3TinyInfoTableName.name ++ " error") fun s =>
  orReturn (s.dbCreate E Sqlite3MessageAttributeTableName
      [{ column := Column.SenderUin, table := Sqlite3UinInfoTableName, refColumn := Column.Uin }])
    "create sqlite3 table error" fun s =>
  orReturn (s.dbInsert E Sqlite3MessageAttributeTableName (Row.MessageAttribute {}))
    ("insert into sqlite3 table " ++ Sqlite3MessageAttributeTableName.name ++ " error") fun s =>
  orReturn (s.dbCreate E Sqlite3QuotedInfoTableName []) "create sqlite3 table error" fun s =>
  orReturn (s.dbInsert E Sqlite3QuotedInfoTableName
      (Row.QuotedInfo { QuotedContent := nullString }))
    ("insert into sqlite3 table " ++ Sqlite3QuotedInfoTableName.name ++ " error") fun s =>
  orReturn (s.dbCreate E Sqlite3GroupMessageTableName
      [{ column := Column.AttributeID, table := Sqlite3MessageAttributeTableName,
         refColumn := Column.ID },
       { column := Column.QuotedInfoID, table := Sqlite3QuotedInfoTableName,
         refColumn := Column.ID }])
    "create sqlite3 table error" fun s =>
  orReturn (s.dbCreate E Sqlite3PrivateMessageTableName
      [{ column := Column.AttributeID, table := Sqlite3MessageAttributeTableName,
         refColumn := Column.ID },
       { column := Column.QuotedInfoID, table := Sqlite3QuotedInfoTableName,
         refColumn := Column.ID }])
    "create sqlite3 table error" fun s =>
  (none, s)

/-- The attribute join of both lookups (sqlite3.go 134-154 and 186-206, the
same text): with a non-zero `AttributeID`, find the attribute row, then the
sender's UinInfo row; the attribute is set only when both are found. -/
def joinAttribute (E : Sqlite σ) (s : database σ) (attributeID : Int) :
    Option db.StoredMessageAttribute × database σ :=
  if attributeID ≠ 0 then
    let s := s.RLock
    let w : Where := { column := Column.ID, value := attributeID }
    let r := E.FindMessageAttribute s.db w
    let s := s.logFind Sqlite3MessageAttributeTableName w r
    let s := s.RUnlock
    match r with
    | Except.ok attr =>
      let s := s.RLock
      let w : Where := { column := Column.Uin, value := attr.SenderUin }
      let r := E.FindUinInfo s.db w
      let s := s.logFind Sqlite3UinInfoTableName w r
      let s := s.RUnlock
      match r with
      | Except.ok uin =>
        (some { MessageSeq := attr.MessageSeq, InternalID := attr.InternalID,
                SenderUin := attr.SenderUin, SenderName := uin.Name,
                Timestamp := attr.Timestamp }, s)
      | Except.error _ => (none, s)
    | Except.error _ => (none, s)
  else (none, s)

/-- The quote join of both lookups (sqlite3.go 155-167 and 207-219, the same
text): with a non-zero `QuotedInfoID`, find the quote row and decode its
snapshot into the quote built from the row. -/
def joinQuotedInfo (E : Sqlite σ) (Y : Yaml) (s : database σ) (quotedInfoID : Int) :
    Option db.QuotedInfo × database σ :=
  if quotedInfoID ≠ 0 then
    let s := s.RLock
    let w : Where := { column := Column.ID, value := quotedInfoID }
    let r := E.FindQuotedInfo s.db w
    let s := s.logFind Sqlite3QuotedInfoTableName w r
    let s := s.RUnlock
    match r with
    | Except.ok quoinf =>
      (Y.UnmarshalQuotedInfo (S2B quoinf.QuotedContent)
        { PrevID := quoinf.PrevID, PrevGlobalID := quoinf.PrevGlobalID }, s)
    | Except.error _ => (none, s)
  else (none, s)

/-- Go `(*database).GetGroupMessageByGlobalID` (sqlite3.go 119-169). -/
def GetGroupMessageByGlobalID (E : Sqlite σ) (Y : Yaml) (s : database σ) (id : Int) :
    Except Err db.StoredGroupMessage × database σ :=
  let s := s.RLock
  let w : Where := { column := Column.GlobalID, value := id }
  let r := E.FindGroupMessage s.db w
  let s := s.logFind Sqlite3GroupMessageTableName w r
  let s := s.RUnlock
  match r with
  | Except.error err => (Except.error (errorsWrap err "query error"), s)
  | Except.ok grpmsg =>
    let ret : db.StoredGroupMessage :=
      { ID := grpmsg.ID, GlobalID := grpmsg.GlobalID, SubType := grpmsg.SubType,
        GroupCode := grpmsg.GroupCode, AnonymousID := grpmsg.AnonymousID }
    let ret := Y.UnmarshalGroupMessage (S2B grpmsg.Content) ret
    let a := joinAttribute E s grpmsg.AttributeID
    let ret := match a.1 with
      | some attr => { ret with Attribute := some attr }
      | none => ret
    let q := joinQuotedInfo E Y a.2 grpmsg.QuotedInfoID
    let ret := match q.1 with
      | some quote => { ret with QuotedInfo := some quote }
      | none => ret
    (Except.ok ret, q.2)

/-- Go `(*database).GetPrivateMessageByGlobalID` (sqlite3.go 171-221). -/
def GetPrivateMessageByGlobalID (E : Sqlite σ) (Y : Yaml) (s : database σ) (id : Int) :
    Except Err db.StoredPrivateMessage × database σ :=
  let s := s.RLock
  let w : Where := { column := Column.GlobalID, value := id }
  let r := E.FindPrivateMessage s.db w
  let s := s.logFind Sqlite3PrivateMessageTableName w r
  let s := s.RUnlock
  match r with
  | Except.error err => (Except.error (errorsWrap err "query error"), s)
  | Except.ok privmsg =>
    let ret : db.StoredPrivateMessage :=
      { ID := privmsg.ID, GlobalID := privmsg.GlobalID, SubType := privmsg.SubType,
        SessionUin := privmsg.SessionUin, TargetUin := privmsg.TargetUin }
    let ret := Y.UnmarshalPrivateMessage (S2B privmsg.Content) ret
    let a := joinAttribute E s privmsg.AttributeID
    let ret := match a.1 with
      | some attr => { ret with Attribute := some attr }
      | none => ret
    let q := joinQuotedInfo E Y a.2 privmsg.QuotedInfoID
    let ret := match q.1 with
      | some quote => { ret with QuotedInfo := some quote }
      | none => ret
    (Except.ok ret, q.2)

/-- Go `(*database).GetMessageByGlobalID` (sqlite3.go 112-117): the group lookup,
and on its error the private lookup (run on the state the group lookup left). -/
def GetMessageByGlobalID (E : Sqlite σ) (Y : Yaml) (s : database σ) (id : Int) :
    Except Err db.StoredMessage × database σ :=
  match GetGroupMessageByGlobalID E Y s id with
  | (Except.ok r, s) => (Except.ok (db.StoredMessage.ofGroup r), s)
  | (Except.error _, s) =>
    ((GetPrivateMessageByGlobalID E Y s id).1.map db.StoredMessage.ofPrivate,
     (GetPrivateMessageByGlobalID E Y s id).2)

/-- The bytes of an attribute written through the builder (sqlite3.go 233-237
and 314-318): `MessageSeq` and `InternalID` as `uint32`, `SenderUin` and
`Timestamp` as `uint64`. -/
def attributeHeader (a : db.StoredMessageAttribute) : List Byte :=
  let builder := binary.NewBuilder
  let builder := builder.WriteU32 (uint32 a.MessageSeq)
  let builder := builder.WriteU32 (uint32 a.InternalID)
  let builder := builder.WriteU64 (uint64 a.SenderUin)
  let builder := builder.WriteU64 (uint64 a.Timestamp)
  builder.ToBytes

/-- The byte string an insert feeds to the checksum for an attribute: the two
`h.Write` arguments in order, the builder's bytes and the sender name. -/
def attributeBytes (a : db.StoredMessageAttribute) : List Byte :=
  attributeHeader a ++ S2B a.SenderName

/-- The byte string an insert feeds to the checksum for a quote whose snapshot
is `content`: the three `h.Write` arguments in order. -/
def quotedInfoBytes (q : db.QuotedInfo) (content : List Byte) : List Byte :=
  S2B q.PrevID ++ (binary.NewBuilder.WriteU32 (uint32 q.PrevGlobalID)).ToBytes ++ content

/-- The surrogate key of a checksum in the specification's words (§4.1, "if
the checksum result is exactly zero, substitute 1"): `1` for a zero checksum,
otherwise the checksum reinterpreted as a signed 64-bit integer.  The inserts
compute their key inline; the theorems compare the two. -/
def surrogateKey (sum : Nat) : Int := if sum = 0 then 1 else int64 sum

/-- The specification's content-derived key of an attribute: `surrogateKey` of
the ISO checksum of its encoding. -/
def attributeKey (a : db.StoredMessageAttribute) : Int :=
  surrogateKey (crc64.Checksum (attributeBytes a) (crc64.MakeTable crc64.ISO))

/-- The specification's content-derived key of a quote with snapshot `content`. -/
def quotedInfoKey (q : db.QuotedInfo) (content : List Byte) : Int :=
  surrogateKey (crc64.Checksum (quotedInfoBytes q content) (crc64.MakeTable crc64.ISO))

/-- The events logged after state `s` up to state `s'`: what one call that took
`s` to `s'` produced. -/
def database.since (s s' : database σ) : List Event := s'.trace.drop s.trace.length

/-- The engine state reached from `st` when the inserts of a log are handed to
the engine `E` again, in order: `none` if the `ok` flag of a logged insert is
not what `E.Insert` answers at that point, or if the log holds an event that
is neither a lock operation nor an insert.  A log that replays to `some st1`
is an exact record of the inserts the engine received and of its answers. -/
def replay (E : Sqlite σ) : σ → List Event → Option σ
  | st, [] => some st
  | st, Event.Insert t row ok :: evs =>
    if (E.Insert st t row).1.isNone = ok then replay E (E.Insert st t row).2 evs else none
  | st, Event.Lock :: evs => replay E st evs
  | st, Event.Unlock :: evs => replay E st evs
  | st, Event.RLock :: evs => replay E st evs
  | st, Event.RUnlock :: evs => replay E st evs
  | _, _ :: _ => none

/-- The state `s1` was reached from `s` by steps whose log is an exact record of
the engine calls made: the events added to the log, handed to the engine again
from the engine state of `s`, lead to the engine state of `s1`. -/
def Logged (E : Sqlite σ) (s s1 : database σ) : Prop :=
  ∃ evs, s1.trace = s.trace ++ evs ∧ replay E s.db evs = some s1.db

/-- The attribute block of both inserts (sqlite3.go 232-263 and 313-344, the
same text).  Returns the `AttributeID` left in the envelope (`0`, the zero
value, unless both inserts succeeded), the digest after `h.Reset()`, and the
next state. -/
def insertAttribute (E : Sqlite σ) (s : database σ) (h : crc64.digest)
    (attr : Option db.StoredMessageAttribute) : Int × crc64.digest × database σ :=
  match attr with
  | none => (0, h, s)
  | some a =>
    let h := h.Write (attributeHeader a)
    let h := h.Write (S2B a.SenderName)
    let id := int64 h.Sum64
    let id := if id = 0 then id + 1 else id
    let s := s.Lock
    let r := s.dbInsert E Sqlite3UinInfoTableName
      (Row.UinInfo { Uin := a.SenderUin, Name := a.SenderName })
    let r := if r.1 = none then
        r.2.dbInsert E Sqlite3MessageAttributeTableName
          (Row.MessageAttribute
            { ID := id, MessageSeq := a.MessageSeq, InternalID := a.InternalID,
              SenderUin := a.SenderUin, Timestamp := a.Timestamp })
      else r
    let s := r.2.Unlock
    (if r.1 = none then id else 0, h.Reset, s)

/-- The quote block of both inserts (sqlite3.go 264-289 and 345-370, the same
text).  Returns the marshalling error, or the `QuotedInfoID` left in the
envelope (`0` unless the insert succeeded), and the next state. -/
def insertQuotedInfo (E : Sqlite σ) (Y : Yaml) (s : database σ) (h : crc64.digest)
    (quote : Option db.QuotedInfo) : Except Err Int × database σ :=
  match quote with
  | none => (Except.ok 0, s)
  | some q =>
    let h := h.Write (S2B q.PrevID)
    let builder := binary.NewBuilder
    let builder := builder.WriteU32 (uint32 q.PrevGlobalID)
    let h := h.Write builder.ToBytes
    match Y.MarshalQuotedInfo q with
    | Except.error err => (Except.error (errorsWrap err "insert marshal QuotedContent error"), s)
    | Except.ok content =>
      let h := h.Write content
      let id := int64 h.Sum64
      let id := if id = 0 then id + 1 else id
      let s := s.Lock
      let r := s.dbInsert E Sqlite3QuotedInfoTableName
        (Row.QuotedInfo
          { ID := id, PrevID := q.PrevID, PrevGlobalID := q.PrevGlobalID,
            QuotedContent := B2S content })
      let s := r.2.Unlock
      (Except.ok (if r.1 = none then id else 0), s)

/-- Go `(*database).InsertGroupMessage` (sqlite3.go 223-302). -/
def InsertGroupMessage (E : Sqlite σ) (Y : Yaml) (s : database σ)
    (msg : db.StoredGroupMessage) : Option Err × database σ :=
  let grpmsg : StoredGroupMessage :=
    { GlobalID := msg.GlobalID, ID := msg.ID, SubType := msg.SubType,
      GroupCode := msg.GroupCode, AnonymousID := msg.AnonymousID }
  let h := crc64.New (crc64.MakeTable crc64.ISO)
  let a := insertAttribute E s h msg.Attribute
  let grpmsg := { grpmsg with AttributeID := a.1 }
  let q := insertQuotedInfo E Y a.2.2 a.2.1 msg.QuotedInfo
  match q.1 with
  | Except.error err => (some err, q.2)
  | Except.ok quotedInfoID =>
    let grpmsg := { grpmsg with QuotedInfoID := quotedInfoID }
    match Y.MarshalGroupMessage msg with
    | Except.error err => (some (errorsWrap err "insert marshal Content error"), q.2)
    | Except.ok content =>
      let grpmsg := { grpmsg with Content := B2S content }
      let s := q.2.Lock
      let r := s.dbInsert E Sqlite3GroupMessageTableName (Row.GroupMessage grpmsg)
      let s := r.2.Unlock
      match r.1 with
      | some err => (some (errorsWrap err "insert error"), s)
      | none => (none, s)

/-- Go `(*database).InsertPrivateMessage` (sqlite3.go 304-383). -/
def InsertPrivateMessage (E : Sqlite σ) (Y : Yaml) (s : database σ)
    (msg : db.StoredPrivateMessage) : Option Err × database σ :=
  let privmsg : StoredPrivateMessage :=
    { GlobalID := msg.GlobalID, ID := msg.ID, SubType := msg.SubType,
      SessionUin := msg.SessionUin, TargetUin := msg.TargetUin }
  let h := crc64.New (crc64.MakeTable crc64.ISO)
  let a := insertAttribute E s h msg.Attribute
  let privmsg := { privmsg with AttributeID := a.1 }
  let q := insertQuotedInfo E Y a.2.2 a.2.1 msg.QuotedInfo
  match q.1 with
  | Except.error err => (some err, q.2)
  | Except.ok quotedInfoID =>
    let privmsg := { privmsg with QuotedInfoID := quotedInfoID }
    match Y.MarshalPrivateMessage msg with
    | Except.error err => (some (errorsWrap err "insert marshal Content error"), q.2)
    | Except.ok content =>
      let privmsg := { privmsg with Content := B2S content }
      let s := q.2.Lock
      let r := s.dbInsert E Sqlite3PrivateMessageTableName (Row.PrivateMessage privmsg)
      let s := r.2.Unlock
      match r.1 with
      | some err => (some (errorsWrap err "insert error"), s)
      | none => (none, s)

/-! ## A reference engine: tables as lists of rows

The SQL engine (`github.com/FloatTech/sqlite`) is a third-party library; the
gateway above is parametric in it.  `listEngine` models the engine the
gateway runs on: the first field of a row type is the primary key of its
table, `Insert` is `REPLACE INTO` (a row holding the same key is overwritten,
so a table holds one row per key), and `Find` returns one row matching the
filter.  It is used to run the gateway on concrete inputs. -/

/-- The state of the reference engine: the rows of each table in insertion
order, and `deny`, the tables on which every insert is refused (a forced
constraint failure). -/
structure Store where
  uinInfo : List UinInfo := []
  tinyInfo : List TinyInfo := []
  messageAttribute : List StoredMessageAttribute := []
  quotedInfo : List QuotedInfo := []
  groupMessage : List StoredGroupMessage := []
  privateMessage : List StoredPrivateMessage := []
  deny : List Table := []
  deriving DecidableEq, Repr

/-- The integer columns of a UinInfo row. -/
def UinInfo.col (r : UinInfo) : Column → Option Int
  | Column.Uin => some r.Uin
  | _ => none

/-- The integer columns of a MessageAttribute row. -/
def StoredMessageAttribute.col (r : StoredMessageAttribute) : Column → Option Int
  | Column.ID => some r.ID
  | Column.SenderUin => some r.SenderUin
  | _ => none

/-- The integer columns of a QuotedInfo row. -/
def QuotedInfo.col (r : QuotedInfo) : Column → Option Int
  | Column.ID => some r.ID
  | _ => none

/-- The integer columns of a GroupMessage row. -/
def StoredGroupMessage.col (r : StoredGroupMessage) : Column → Option Int
  | Column.GlobalID => some r.GlobalID
  | Column.ID => some r.ID
  | Column.AttributeID => some r.AttributeID
  | Column.QuotedInfoID => some r.QuotedInfoID
  | _ => none

/-- The integer columns of a PrivateMessage row. -/
def StoredPrivateMessage.col (r : StoredPrivateMessage) : Column → Option Int
  | Column.GlobalID => some r.GlobalID
  | Column.ID => some r.ID
  | Column.AttributeID => some r.AttributeID
  | Column.QuotedInfoID => some r.QuotedInfoID
  | _ => none

/-- The engine's `Find`, on the rows matching the filter: the engine returns the
one at index `pick n`, where `n` is the number of matching rows
(`pick = fun _ => 0` is "the first row matching"); no matching row is a
not-found error. -/
def selectRow {α : Type} (pick : Nat → Nat) (rows : List α) : Except Err α :=
  match rows[pick rows.length]? with
  | some r => Except.ok r
  | none => Except.error "sql: no rows in result set"

/-- The engine's `Insert`, a `REPLACE INTO` keyed on the first field of the row
type (`Uin` for UinInfo, `GlobalID` for the two envelope tables, `ID` for the
others): the row holding the same key, if any, is removed and the new row is
added at the end of its table.  An insert into a table listed in `deny`, or of
a row of another table's schema, fails and changes nothing. -/
def Store.insert (st : Store) (t : Table) (row : Row) : Option Err × Store :=
  if t ∈ st.deny then (some "constraint failed", st)
  else
    match t, row with
    | Table.UinInfo, Row.UinInfo r =>
      (none, { st with uinInfo := (st.uinInfo.filter fun x => x.Uin ≠ r.Uin) ++ [r] })
    | Table.TinyInfo, Row.TinyInfo r =>
      (none, { st with tinyInfo := (st.tinyInfo.filter fun x => x.ID ≠ r.ID) ++ [r] })
    | Table.MessageAttribute, Row.MessageAttribute r =>
      (none, { st with messageAttribute :=
        (st.messageAttribute.filter fun x => x.ID ≠ r.ID) ++ [r] })
    | Table.QuotedInfo, Row.QuotedInfo r =>
      (none, { st with quotedInfo := (st.quotedInfo.filter fun x => x.ID ≠ r.ID) ++ [r] })
    | Table.GroupMessage, Row.GroupMessage r =>
      (none, { st with groupMessage :=
        (st.groupMessage.filter fun x => x.GlobalID ≠ r.GlobalID) ++ [r] })
    | Table.PrivateMessage, Row.PrivateMessage r =>
      (none, { st with privateMessage :=
        (st.privateMessage.filter fun x => x.GlobalID ≠ r.GlobalID) ++ [r] })
    | _, _ => (some "schema mismatch", st)

/-- The reference engine: opening, pragmas and idempotent table creation always
succeed; `Insert` is `Store.insert`; a `Find` filters its table on the column
of the filter and selects with the policy `pick` of `selectRow`. -/
def listEngine (pick : Nat → Nat) : Sqlite Store where
  Open := fun st _ => (none, st)
  Exec := fun st _ => (none, st)
  Create := fun st _ _ => (none, st)
  Insert := Store.insert
  FindUinInfo := fun st w =>
    selectRow pick (st.uinInfo.filter fun r => r.col w.column = some w.value)
  FindMessageAttribute := fun st w =>
    selectRow pick (st.messageAttribute.filter fun r => r.col w.column = some w.value)
  FindQuotedInfo := fun st w =>
    selectRow pick (st.quotedInfo.filter fun r => r.col w.column = some w.value)
  FindGroupMessage := fun st w =>
    selectRow pick (st.groupMessage.filter fun r => r.col w.column = some w.value)
  FindPrivateMessage := fun st w =>
    selectRow pick (st.privateMessage.filter fun r => r.col w.column = some w.value)

/-- The selection policy "the first row matching". -/
def firstMatch : Nat → Nat := fun _ => 0

/-- A YAML codec for running the gateway on concrete inputs: every value
marshals (to the empty document), no snapshot decodes and none is null. -/
def plainYaml : Yaml where
  MarshalGroupMessage := fun _ => Except.ok []
  MarshalPrivateMessage := fun _ => Except.ok []
  MarshalQuotedInfo := fun _ => Except.ok []
  DecodeContent := fun _ => none
  DecodeQuotedContent := fun _ => none
  IsNull := fun _ => false
  marshalQuotedInfo_not_null := fun _ _ _ => rfl

/-- A YAML codec whose `Marshal` fails on every value. -/
def failingYaml : Yaml where
  MarshalGroupMessage := fun _ => Except.error "yaml: cannot marshal"
  MarshalPrivateMessage := fun _ => Except.error "yaml: cannot marshal"
  MarshalQuotedInfo := fun _ => Except.error "yaml: cannot marshal"
  DecodeContent := fun _ => none
  DecodeQuotedContent := fun _ => none
  IsNull := fun _ => false
  marshalQuotedInfo_not_null := fun _ _ _ => rfl

/-- A database value that has not been opened: no rows, no events. -/
def closedDatabase (ttl : Nat) : database Store := { db := {}, ttl := ttl, trace := [] }

/-- The freshly opened store: `Open` run on `closedDatabase`. -/
def freshDatabase (pick : Nat → Nat) (ttl : Nat) : database Store :=
  (Open (listEngine pick) (closedDatabase ttl)).2

/-! ## The shape of an insert's event log (used to state the lemmas) -/

/-- The events `A` of the attribute block and the `AttributeID` `aid` it leaves:
nothing for a nil attribute; otherwise one exclusive section holding the
UinInfo insert and, if that succeeded, the MessageAttribute insert. -/
def attributeBlock (attr : Option db.StoredMessageAttribute) (aid : Int) (A : List Event) : Prop :=
  (attr = none → aid = 0 ∧ A = []) ∧
  (∀ a, attr = some a → ∃ okU okA : Bool,
    aid = (if okU = true ∧ okA = true then attributeKey a else 0) ∧
    A = Event.Lock ::
          Event.Insert Table.UinInfo (Row.UinInfo { Uin := a.SenderUin, Name := a.SenderName }) okU ::
          ((if okU = true then
              [Event.Insert Table.MessageAttribute (Row.MessageAttribute
                { ID := attributeKey a, MessageSeq := a.MessageSeq, InternalID := a.InternalID,
                  SenderUin := a.SenderUin, Timestamp := a.Timestamp }) okA]
            else []) ++ [Event.Unlock]))

/-- The events `Q` of the quote block and its result `qres`: nothing for a nil
quote or a quote that does not marshal (then the wrapped error); otherwise one
exclusive section holding the QuotedInfo insert. -/
def quotedInfoBlock (Y : Yaml) (quote : Option db.QuotedInfo) (qres : Except Err Int)
    (Q : List Event) : Prop :=
  (quote = none → qres = Except.ok 0 ∧ Q = []) ∧
  (∀ q err, quote = some q → Y.MarshalQuotedInfo q = Except.error err →
    qres = Except.error (errorsWrap err "insert marshal QuotedContent error") ∧ Q = []) ∧
  (∀ q c, quote = some q → Y.MarshalQuotedInfo q = Except.ok c → ∃ okQ : Bool,
    qres = Except.ok (if okQ = true then quotedInfoKey q c else 0) ∧
    Q = [Event.Lock,
          Event.Insert Table.QuotedInfo (Row.QuotedInfo
            { ID := quotedInfoKey q c, PrevID := q.PrevID,
              PrevGlobalID := q.PrevGlobalID, QuotedContent := B2S c }) okQ,
          Event.Unlock])

/-! ## Concrete inputs -/

/-- A sender attribute. -/
def sampleAttribute : db.StoredMessageAttribute :=
  { MessageSeq := 5, InternalID := 9, SenderUin := 10001, SenderName := [97, 108],
    Timestamp := 1700000000 }

/-- A quote reference. -/
def sampleQuote : db.QuotedInfo := { PrevID := [98], PrevGlobalID := 3 }

/-- A group message with an attribute and a quote. -/
def sampleGroupMessage : db.StoredGroupMessage :=
  { ID := 1, GlobalID := 7, Attribute := some sampleAttribute, QuotedInfo := some sampleQuote,
    GroupCode := 42 }

/-- A private message with an attribute and a quote. -/
def samplePrivateMessage : db.StoredPrivateMessage :=
  { ID := 2, GlobalID := 8, Attribute := some sampleAttribute, QuotedInfo := some sampleQuote,
    SessionUin := 10001, TargetUin := 10002 }

/-- A group message whose sender has `SenderUin = 0`, the `Uin` of the sentinel
UinInfo row that `Open` inserts. -/
def senderZeroMessage : db.StoredGroupMessage :=
  { ID := 1, GlobalID := 7,
    Attribute := some { MessageSeq := 5, InternalID := 9, SenderUin := 0, SenderName := [97, 108],
                        Timestamp := 1700000000 },
    QuotedInfo := some sampleQuote, GroupCode := 42 }

/-- The state `s` with the reference engine refusing every insert into the
tables of `deny`. -/
def denying (deny : List Table) (s : database Store) : database Store :=
  { s with db := { s.db with deny := deny } }

/-- An attribute engineered so that the ISO checksum of its encoding is `0`. -/
def zeroChecksumAttribute : db.StoredMessageAttribute :=
  { MessageSeq := 5, InternalID := 9, SenderUin := 10001,
    SenderName := [11, 13, 102, 125, 48, 158, 119, 177], Timestamp := 1700000000 }

/-- A group message carrying `zeroChecksumAttribute` and no quote. -/
def zeroChecksumMessage : db.StoredGroupMessage :=
  { ID := 3, GlobalID := 9, Attribute := some zeroChecksumAttribute, GroupCode := 42 }

/-- A group message with the quote of `samplePrivateMessage` and a nil attribute. -/
def quoteOnlyGroupMessage : db.StoredGroupMessage :=
  { ID := 4, GlobalID := 10, QuotedInfo := some sampleQuote, GroupCode := 42 }

/-- A store holding one group envelope (`GlobalID` 7) whose `AttributeID` and
`QuotedInfoID` reference rows that do not exist, and two private envelopes,
one with a `GlobalID` of its own (8) and one with the `GlobalID` of the group
envelope (7). -/
def danglingDatabase : database Store :=
  { db := { groupMessage := [{ GlobalID := 7, ID := 1, AttributeID := 55, QuotedInfoID := 66 }],
            privateMessage := [{ GlobalID := 8, ID := 2 }, { GlobalID := 7, ID := 5 }] },
    ttl := 0, trace := [] }

/-- An attribute with `MessageSeq = 0`. -/
def attrSeqLow : db.StoredMessageAttribute :=
  { MessageSeq := 0, InternalID := 9, SenderUin := 10001, SenderName := [97, 108], Timestamp := 1700000000 }

/-- The same attribute with `MessageSeq = 2^32`. -/
def attrSeqHigh : db.StoredMessageAttribute :=
  { MessageSeq := 4294967296, InternalID := 9, SenderUin := 10001, SenderName := [97, 108],
    Timestamp := 1700000000 }

end sqlite3

/-! ## The checksum -/

namespace crc64

theorem not64_lt (x : Nat) : not64 x < 18446744073709551616 := by
  unfold not64; omega

theorem not64_not64 (x : Nat) (hx : x < 18446744073709551616) : not64 (not64 x) = x := by
  unfold not64; omega

theorem shiftStep_lt (crc : Nat) (h : crc < 2 ^ 64) : shiftStep ISO crc < 2 ^ 64 := by
  unfold shiftStep
  have h1 : crc >>> 1 < 2 ^ 64 := by
    rw [Nat.shiftRight_eq_div_pow]; exact lt_of_le_of_lt (Nat.div_le_self _ _) h
  split
  · exact Nat.xor_lt_two_pow h1 (by unfold ISO; norm_num)
  · exact h1

theorem MakeTable_lt (i : Nat) (h : i < 2 ^ 64) : MakeTable ISO i < 2 ^ 64 := by
  unfold MakeTable
  repeat apply shiftStep_lt
  exact h

theorem loop_lt (p : List Byte) (crc : Nat) (h : crc < 2 ^ 64) :
    p.foldl (fun crc v => MakeTable ISO ((crc % 256) ^^^ v.val) ^^^ (crc >>> 8)) crc < 2 ^ 64 := by
  induction p generalizing crc with
  | nil => simpa using h
  | cons v p ih =>
    simp only [List.foldl_cons]
    apply ih
    have hidx : (crc % 256) ^^^ v.val < 2 ^ 64 := by
      have h8 : (crc % 256) ^^^ v.val < 2 ^ 8 :=
        Nat.xor_lt_two_pow (by have := Nat.mod_lt crc (show 256 > 0 by decide); omega)
          (by have := v.isLt; omega)
      exact lt_trans h8 (by norm_num)
    have hsh : crc >>> 8 < 2 ^ 64 := by
      rw [Nat.shiftRight_eq_div_pow]; exact lt_of_le_of_lt (Nat.div_le_self _ _) h
    exact Nat.xor_lt_two_pow (MakeTable_lt _ hidx) hsh

/-- Writing `p` and then `q` into a digest over the ISO table is writing `p ++ q`. -/
theorem update_append (crc : Nat) (p q : List Byte) :
    update (update crc (MakeTable ISO) p) (MakeTable ISO) q
      = update crc (MakeTable ISO) (p ++ q) := by
  unfold update
  rw [not64_not64, List.foldl_append]
  have := loop_lt p (not64 crc) (by have := not64_lt crc; norm_num; exact this)
  norm_num at this; exact this

theorem update_lt (crc : Nat) (tab : Nat → Nat) (p : List Byte) :
    update crc tab p < 18446744073709551616 := not64_lt _

end crc64

theorem int64_eq_zero_iff (u : Nat) (h : u < 18446744073709551616) : int64 u = 0 ↔ u = 0 := by
  unfold int64
  split <;> omega

/-- The key computed by `id := int64(h.Sum64()); if id == 0 { id++ }`. -/
theorem key_remap (u : Nat) (h : u < 18446744073709551616) :
    (if int64 u = 0 then int64 u + 1 else int64 u) = (if u = 0 then 1 else int64 u) := by
  by_cases hu : u = 0
  · subst hu; simp [int64]
  · have := (int64_eq_zero_iff u h).not.mpr hu
    simp [hu, this]

theorem key_ne_zero (u : Nat) (h : u < 18446744073709551616) :
    (if u = 0 then (1 : Int) else int64 u) ≠ 0 := by
  by_cases hu : u = 0
  · simp [hu]
  · have := (int64_eq_zero_iff u h).not.mpr hu
    simp [hu, this]

/-! ## The canonical encoding of an attribute -/

theorem byte_eq_iff (x y : Nat) : byte x = byte y ↔ x % 256 = y % 256 := by
  simp [byte, Fin.ext_iff]

theorem attributeHeader_eq (a : db.StoredMessageAttribute) :
    sqlite3.attributeHeader a =
      [byte (uint32 a.MessageSeq / 16777216), byte (uint32 a.MessageSeq / 65536),
       byte (uint32 a.MessageSeq / 256), byte (uint32 a.MessageSeq),
       byte (uint32 a.InternalID / 16777216), byte (uint32 a.InternalID / 65536),
       byte (uint32 a.InternalID / 256), byte (uint32 a.InternalID),
       byte (uint64 a.SenderUin / 72057594037927936), byte (uint64 a.SenderUin / 281474976710656),
       byte (uint64 a.SenderUin / 1099511627776), byte (uint64 a.SenderUin / 4294967296),
       byte (uint64 a.SenderUin / 16777216), byte (uint64 a.SenderUin / 65536),
       byte (uint64 a.SenderUin / 256), byte (uint64 a.SenderUin),
       byte (uint64 a.Timestamp / 72057594037927936), byte (uint64 a.Timestamp / 281474976710656),
       byte (uint64 a.Timestamp / 1099511627776), byte (uint64 a.Timestamp / 4294967296),
       byte (uint64 a.Timestamp / 16777216), byte (uint64 a.Timestamp / 65536),
       byte (uint64 a.Timestamp / 256), byte (uint64 a.Timestamp)] := by
  simp [sqlite3.attributeHeader, binary.NewBuilder, binary.Builder.WriteU32,
    binary.Builder.WriteU64, binary.Builder.ToBytes]

theorem attributeHeader_length (a : db.StoredMessageAttribute) :
    (sqlite3.attributeHeader a).length = 24 := by
  rw [attributeHeader_eq]; rfl

theorem u32_bytes_inj (v w : Nat) (hv : v < 4294967296) (hw : w < 4294967296)
    (h3 : (v / 16777216) % 256 = (w / 16777216) % 256)
    (h2 : (v / 65536) % 256 = (w / 65536) % 256)
    (h1 : (v / 256) % 256 = (w / 256) % 256) (h0 : v % 256 = w % 256) : v = w := by
  omega

theorem u64_bytes_inj (v w : Nat) (hv : v < 18446744073709551616) (hw : w < 18446744073709551616)
    (h7 : (v / 72057594037927936) % 256 = (w / 72057594037927936) % 256)
    (h6 : (v / 281474976710656) % 256 = (w / 281474976710656) % 256)
    (h5 : (v / 1099511627776) % 256 = (w / 1099511627776) % 256)
    (h4 : (v / 4294967296) % 256 = (w / 4294967296) % 256)
    (h3 : (v / 16777216) % 256 = (w / 16777216) % 256)
    (h2 : (v / 65536) % 256 = (w / 65536) % 256)
    (h1 : (v / 256) % 256 = (w / 256) % 256) (h0 : v % 256 = w % 256) : v = w := by
  omega

theorem uint32_lt (x : Int) : uint32 x < 4294967296 := by unfold uint32; omega

theorem uint64_lt (x : Int) : uint64 x < 18446744073709551616 := by unfold uint64; omega

theorem uint32_eq_iff (x y : Int) : uint32 x = uint32 y ↔ x % 4294967296 = y % 4294967296 := by
  unfold uint32; omega

theorem uint32_inj_int32 (x y : Int) (hx : isInt32 x) (hy : isInt32 y) :
    uint32 x = uint32 y ↔ x = y := by
  unfold isInt32 at hx hy; unfold uint32; omega

theorem uint64_inj_int64 (x y : Int) (hx : isInt64 x) (hy : isInt64 y) :
    uint64 x = uint64 y ↔ x = y := by
  unfold isInt64 at hx hy; unfold uint64; omega

theorem attributeHeader_eq_iff (a b : db.StoredMessageAttribute) :
    sqlite3.attributeHeader a = sqlite3.attributeHeader b ↔
      uint32 a.MessageSeq = uint32 b.MessageSeq ∧ uint32 a.InternalID = uint32 b.InternalID ∧
      uint64 a.SenderUin = uint64 b.SenderUin ∧ uint64 a.Timestamp = uint64 b.Timestamp := by
  constructor
  · intro h
    rw [attributeHeader_eq, attributeHeader_eq] at h
    simp only [List.cons.injEq, byte_eq_iff, and_true] at h
    obtain ⟨m3, m2, m1, m0, i3, i2, i1, i0, s7, s6, s5, s4, s3, s2, s1, s0,
      t7, t6, t5, t4, t3, t2, t1, t0⟩ := h
    exact ⟨u32_bytes_inj _ _ (uint32_lt _) (uint32_lt _) m3 m2 m1 m0,
      u32_bytes_inj _ _ (uint32_lt _) (uint32_lt _) i3 i2 i1 i0,
      u64_bytes_inj _ _ (uint64_lt _) (uint64_lt _) s7 s6 s5 s4 s3 s2 s1 s0,
      u64_bytes_inj _ _ (uint64_lt _) (uint64_lt _) t7 t6 t5 t4 t3 t2 t1 t0⟩
  · rintro ⟨h1, h2, h3, h4⟩
    rw [attributeHeader_eq, attributeHeader_eq, h1, h2, h3, h4]

/-- C4 (amended): the checksum an insert computes for an attribute is the ISO
checksum of `attributeBytes`, the concatenation of what it writes; and two
attribute tuples whose fields lie in the range of their Go types are fed to
the checksum as the same byte string exactly when they agree on `InternalID`,
`SenderUin`, `Timestamp`, `SenderName`, and on `MessageSeq` modulo `2^32`.  So
changing one field changes the bytes, except for a change of `MessageSeq` by a
multiple of `2^32`. -/
theorem attributeBytes_eq_iff (a b : db.StoredMessageAttribute) (ha : a.WF) (hb : b.WF) :
    (((crc64.New (crc64.MakeTable crc64.ISO)).Write (sqlite3.attributeHeader a)).Write
        (S2B a.SenderName)).Sum64
      = crc64.Checksum (sqlite3.attributeBytes a) (crc64.MakeTable crc64.ISO) ∧
    (sqlite3.attributeBytes a = sqlite3.attributeBytes b ↔
      a.MessageSeq % 4294967296 = b.MessageSeq % 4294967296 ∧ a.InternalID = b.InternalID ∧
      a.SenderUin = b.SenderUin ∧ a.Timestamp = b.Timestamp ∧ a.SenderName = b.SenderName) := by
  obtain ⟨_, hai, hau, hat⟩ := ha
  obtain ⟨_, hbi, hbu, hbt⟩ := hb
  refine ⟨?_, ?_⟩
  · simp only [crc64.New, crc64.digest.Write, crc64.digest.Sum64, crc64.update_append]
    rfl
  unfold sqlite3.attributeBytes S2B
  constructor
  · intro h
    have hl : (sqlite3.attributeHeader a).length = (sqlite3.attributeHeader b).length := by
      rw [attributeHeader_length, attributeHeader_length]
    obtain ⟨hh, hn⟩ := List.append_inj h hl
    obtain ⟨h1, h2, h3, h4⟩ := (attributeHeader_eq_iff a b).mp hh
    exact ⟨(uint32_eq_iff _ _).mp h1, (uint32_inj_int32 _ _ hai hbi).mp h2,
      (uint64_inj_int64 _ _ hau hbu).mp h3, (uint64_inj_int64 _ _ hat hbt).mp h4, hn⟩
  · rintro ⟨h1, h2, h3, h4, h5⟩
    rw [(attributeHeader_eq_iff a b).mpr ⟨(uint32_eq_iff _ _).mpr h1, by rw [h2], by rw [h3],
      by rw [h4]⟩, h5]

/-- Witness for C4 (amended): two well-formed attributes that differ in
`Timestamp` only are told apart by their bytes. -/
theorem attributeBytes_eq_iff_witness :
    sqlite3.attrSeqLow.WF ∧ ({ sqlite3.attrSeqLow with Timestamp := 1 } : db.StoredMessageAttribute).WF ∧
      sqlite3.attributeBytes sqlite3.attrSeqLow
        ≠ sqlite3.attributeBytes { sqlite3.attrSeqLow with Timestamp := 1 } :=
  ⟨by decide, by decide, fun h =>
    absurd ((attributeBytes_eq_iff sqlite3.attrSeqLow { sqlite3.attrSeqLow with Timestamp := 1 }
      (by decide) (by decide)).2.mp h).2.2.2.1 (by decide)⟩

set_option maxRecDepth 100000 in
/-- C4 (counterexample): two well-formed attribute tuples that differ in exactly
one field, `MessageSeq` (`0` and `2^32`), are fed to the checksum as the same
byte string, and so get the same key: the encoding is not injective. -/
theorem attributeBytes_not_injective :
    sqlite3.attrSeqLow.WF ∧ sqlite3.attrSeqHigh.WF ∧
      sqlite3.attrSeqLow.MessageSeq ≠ sqlite3.attrSeqHigh.MessageSeq ∧
      sqlite3.attrSeqLow.InternalID = sqlite3.attrSeqHigh.InternalID ∧
      sqlite3.attrSeqLow.SenderUin = sqlite3.attrSeqHigh.SenderUin ∧
      sqlite3.attrSeqLow.Timestamp = sqlite3.attrSeqHigh.Timestamp ∧
      sqlite3.attrSeqLow.SenderName = sqlite3.attrSeqHigh.SenderName ∧
      sqlite3.attributeBytes sqlite3.attrSeqLow = sqlite3.attributeBytes sqlite3.attrSeqHigh ∧
      sqlite3.attributeKey sqlite3.attrSeqLow = sqlite3.attributeKey sqlite3.attrSeqHigh := by
  decide

/-! ## The insert blocks -/

namespace sqlite3

variable {σ : Type}

theorem since_of_trace (s s' : database σ) (evs : List Event) (h : s'.trace = s.trace ++ evs) :
    s.since s' = evs := by
  simp [database.since, h]

theorem attribute_id_eq (a : db.StoredMessageAttribute) :
    (if int64 (((crc64.New (crc64.MakeTable crc64.ISO)).Write (attributeHeader a)).Write
          (S2B a.SenderName)).Sum64 = 0
      then int64 (((crc64.New (crc64.MakeTable crc64.ISO)).Write (attributeHeader a)).Write
          (S2B a.SenderName)).Sum64 + 1
      else int64 (((crc64.New (crc64.MakeTable crc64.ISO)).Write (attributeHeader a)).Write
          (S2B a.SenderName)).Sum64) = attributeKey a := by
  simp only [crc64.New, crc64.digest.Write, crc64.digest.Sum64, crc64.update_append]
  rw [key_remap _ (crc64.update_lt _ _ _)]
  rfl

theorem quotedInfo_id_eq (q : db.QuotedInfo) (content : List Byte) :
    (if int64 ((((crc64.New (crc64.MakeTable crc64.ISO)).Write (S2B q.PrevID)).Write
          (binary.NewBuilder.WriteU32 (uint32 q.PrevGlobalID)).ToBytes).Write content).Sum64 = 0
      then int64 ((((crc64.New (crc64.MakeTable crc64.ISO)).Write (S2B q.PrevID)).Write
          (binary.NewBuilder.WriteU32 (uint32 q.PrevGlobalID)).ToBytes).Write content).Sum64 + 1
      else int64 ((((crc64.New (crc64.MakeTable crc64.ISO)).Write (S2B q.PrevID)).Write
          (binary.NewBuilder.WriteU32 (uint32 q.PrevGlobalID)).ToBytes).Write content).Sum64)
      = quotedInfoKey q content := by
  simp only [crc64.New, crc64.digest.Write, crc64.digest.Sum64, crc64.update_append]
  rw [key_remap _ (crc64.update_lt _ _ _)]
  rfl

theorem attributeKey_ne_zero (a : db.StoredMessageAttribute) : attributeKey a ≠ 0 :=
  key_ne_zero _ (crc64.update_lt _ _ _)

theorem quotedInfoKey_ne_zero (q : db.QuotedInfo) (content : List Byte) :
    quotedInfoKey q content ≠ 0 :=
  key_ne_zero _ (crc64.update_lt _ _ _)

/-- The attribute block on a non-nil attribute, from a fresh digest. -/
theorem insertAttribute_some (E : Sqlite σ) (s : database σ) (a : db.StoredMessageAttribute) :
    ∃ okU okA : Bool,
      (insertAttribute E s (crc64.New (crc64.MakeTable crc64.ISO)) (some a)).1
          = (if okU = true ∧ okA = true then attributeKey a else 0) ∧
      (insertAttribute E s (crc64.New (crc64.MakeTable crc64.ISO)) (some a)).2.1
          = crc64.New (crc64.MakeTable crc64.ISO) ∧
      (insertAttribute E s (crc64.New (crc64.MakeTable crc64.ISO)) (some a)).2.2.ttl = s.ttl ∧
      (insertAttribute E s (crc64.New (crc64.MakeTable crc64.ISO)) (some a)).2.2.trace
          = s.trace ++ (Event.Lock ::
              Event.Insert Table.UinInfo (Row.UinInfo { Uin := a.SenderUin, Name := a.SenderName }) okU ::
              ((if okU = true then
                  [Event.Insert Table.MessageAttribute (Row.MessageAttribute
                    { ID := attributeKey a, MessageSeq := a.MessageSeq, InternalID := a.InternalID,
                      SenderUin := a.SenderUin, Timestamp := a.Timestamp }) okA]
                else []) ++ [Event.Unlock])) := by
  simp only [insertAttribute, attribute_id_eq, database.dbInsert, database.Lock, database.Unlock,
    Sqlite3UinInfoTableName, Sqlite3MessageAttributeTableName]
  rcases hU : (E.Insert s.db Table.UinInfo
      (Row.UinInfo { Uin := a.SenderUin, Name := a.SenderName })).1 with _ | e
  · rcases hA : (E.Insert (E.Insert s.db Table.UinInfo
        (Row.UinInfo { Uin := a.SenderUin, Name := a.SenderName })).2 Table.MessageAttribute
        (Row.MessageAttribute
          { ID := attributeKey a, MessageSeq := a.MessageSeq, InternalID := a.InternalID,
            SenderUin := a.SenderUin, Timestamp := a.Timestamp })).1 with _ | e
    · exact ⟨true, true, by simp [hA, crc64.digest.Reset, crc64.New, crc64.digest.Write]⟩
    · exact ⟨true, false, by simp [hA, crc64.digest.Reset, crc64.New, crc64.digest.Write]⟩
  · exact ⟨false, false, by simp [crc64.digest.Reset, crc64.New, crc64.digest.Write]⟩

/-- The quote block on a non-nil quote whose snapshot marshals, from a fresh digest. -/
theorem insertQuotedInfo_some (E : Sqlite σ) (Y : Yaml) (s : database σ) (q : db.QuotedInfo)
    (content : List Byte) (hc : Y.MarshalQuotedInfo q = Except.ok content) :
    ∃ okQ : Bool,
      (insertQuotedInfo E Y s (crc64.New (crc64.MakeTable crc64.ISO)) (some q)).1
          = Except.ok (if okQ = true then quotedInfoKey q content else 0) ∧
      (insertQuotedInfo E Y s (crc64.New (crc64.MakeTable crc64.ISO)) (some q)).2.ttl = s.ttl ∧
      (insertQuotedInfo E Y s (crc64.New (crc64.MakeTable crc64.ISO)) (some q)).2.trace
          = s.trace ++ [Event.Lock,
              Event.Insert Table.QuotedInfo (Row.QuotedInfo
                { ID := quotedInfoKey q content, PrevID := q.PrevID,
                  PrevGlobalID := q.PrevGlobalID, QuotedContent := B2S content }) okQ,
              Event.Unlock] := by
  simp only [insertQuotedInfo, hc, quotedInfo_id_eq, database.dbInsert, database.Lock,
    database.Unlock, Sqlite3QuotedInfoTableName]
  rcases hQ : (E.Insert s.db Table.QuotedInfo (Row.QuotedInfo
      { ID := quotedInfoKey q content, PrevID := q.PrevID, PrevGlobalID := q.PrevGlobalID,
        QuotedContent := B2S content })).1 with _ | e
  · exact ⟨true, by simp⟩
  · exact ⟨false, by simp⟩

/-- The quote block when the snapshot does not marshal: the wrapped error, and
nothing is logged. -/
theorem insertQuotedInfo_error (E : Sqlite σ) (Y : Yaml) (s : database σ) (h : crc64.digest)
    (q : db.QuotedInfo) (err : Err) (hc : Y.MarshalQuotedInfo q = Except.error err) :
    insertQuotedInfo E Y s h (some q)
      = (Except.error (errorsWrap err "insert marshal QuotedContent error"), s) := by
  simp only [insertQuotedInfo, hc]

/-- The digest handed to the quote block is a fresh one, whatever the attribute. -/
theorem insertAttribute_digest (E : Sqlite σ) (s : database σ)
    (attr : Option db.StoredMessageAttribute) :
    (insertAttribute E s (crc64.New (crc64.MakeTable crc64.ISO)) attr).2.1
      = crc64.New (crc64.MakeTable crc64.ISO) := by
  cases attr with
  | none => rfl
  | some a =>
    obtain ⟨_, _, _, h, _⟩ := insertAttribute_some E s a
    exact h

end sqlite3

namespace sqlite3

variable {σ : Type}

/-- Both sub-record blocks of an insert, run in sequence from a fresh digest: the
identifiers left for the envelope and the events logged. -/
theorem blocks_spec (E : Sqlite σ) (Y : Yaml) (s : database σ)
    (attr : Option db.StoredMessageAttribute) (quote : Option db.QuotedInfo) :
    ∃ (A Q : List Event) (aid : Int) (qres : Except Err Int),
      (insertAttribute E s (crc64.New (crc64.MakeTable crc64.ISO)) attr).1 = aid ∧
      (insertQuotedInfo E Y (insertAttribute E s (crc64.New (crc64.MakeTable crc64.ISO)) attr).2.2
        (insertAttribute E s (crc64.New (crc64.MakeTable crc64.ISO)) attr).2.1 quote).1 = qres ∧
      (insertQuotedInfo E Y (insertAttribute E s (crc64.New (crc64.MakeTable crc64.ISO)) attr).2.2
        (insertAttribute E s (crc64.New (crc64.MakeTable crc64.ISO)) attr).2.1 quote).2.trace
          = s.trace ++ (A ++ Q) ∧
      attributeBlock attr aid A ∧ quotedInfoBlock Y quote qres Q := by
  rw [insertAttribute_digest]
  have hA : ∃ (A : List Event) (aid : Int),
      (insertAttribute E s (crc64.New (crc64.MakeTable crc64.ISO)) attr).1 = aid ∧
      (insertAttribute E s (crc64.New (crc64.MakeTable crc64.ISO)) attr).2.2.trace
        = s.trace ++ A ∧ attributeBlock attr aid A := by
    cases attr with
    | none => exact ⟨[], 0, rfl, by simp [insertAttribute], by simp [attributeBlock]⟩
    | some a =>
      obtain ⟨okU, okA, h1, _, _, h4⟩ := insertAttribute_some E s a
      refine ⟨_, _, h1, h4, by simp, ?_⟩
      intro a' ha'
      cases ha'
      exact ⟨okU, okA, rfl, rfl⟩
  obtain ⟨A, aid, hA1, hA2, hA3⟩ := hA
  cases quote with
  | none =>
    refine ⟨A, [], aid, Except.ok 0, hA1, rfl, ?_, hA3, by simp [quotedInfoBlock]⟩
    simp [insertQuotedInfo, hA2]
  | some q =>
    rcases hc : Y.MarshalQuotedInfo q with err | c
    · refine ⟨A, [], aid, Except.error (errorsWrap err "insert marshal QuotedContent error"),
        hA1, ?_, ?_, hA3, ?_⟩
      · rw [insertQuotedInfo_error E Y _ _ q err hc]
      · rw [insertQuotedInfo_error E Y _ _ q err hc]; simp [hA2]
      · refine ⟨by simp, ?_, ?_⟩
        · intro q' err' hq' hc'
          cases hq'
          rw [hc] at hc'
          cases hc'
          exact ⟨rfl, rfl⟩
        · intro q' c' hq' hc'
          cases hq'
          rw [hc] at hc'
          cases hc'
    · obtain ⟨okQ, h1, _, h3⟩ := insertQuotedInfo_some E Y
        (insertAttribute E s (crc64.New (crc64.MakeTable crc64.ISO)) attr).2.2 q c hc
      refine ⟨A, [Event.Lock,
          Event.Insert Table.QuotedInfo (Row.QuotedInfo
            { ID := quotedInfoKey q c, PrevID := q.PrevID,
              PrevGlobalID := q.PrevGlobalID, QuotedContent := B2S c }) okQ,
          Event.Unlock], aid, _, hA1, h1, ?_, hA3, ?_⟩
      · rw [h3, hA2, List.append_assoc]
      · refine ⟨by simp, ?_, ?_⟩
        · intro q' err' hq' hc'
          cases hq'
          rw [hc] at hc'
          cases hc'
        · intro q' c' hq' hc'
          cases hq'
          rw [hc] at hc'
          cases hc'
          exact ⟨okQ, rfl, rfl⟩

/-- What `InsertGroupMessage` returns and logs. -/
theorem InsertGroupMessage_spec (E : Sqlite σ) (Y : Yaml) (s : database σ)
    (msg : db.StoredGroupMessage) :
    ∃ (A Q V : List Event) (aid : Int) (qres : Except Err Int),
      s.since (InsertGroupMessage E Y s msg).2 = A ++ Q ++ V ∧
      attributeBlock msg.Attribute aid A ∧ quotedInfoBlock Y msg.QuotedInfo qres Q ∧
      (∀ err, qres = Except.error err →
        V = [] ∧ (InsertGroupMessage E Y s msg).1 = some err) ∧
      (∀ qid err, qres = Except.ok qid → Y.MarshalGroupMessage msg = Except.error err →
        V = [] ∧
        (InsertGroupMessage E Y s msg).1 = some (errorsWrap err "insert marshal Content error")) ∧
      (∀ qid content, qres = Except.ok qid → Y.MarshalGroupMessage msg = Except.ok content →
        ∃ okE : Bool, (InsertGroupMessage E Y s msg).1.isNone = okE ∧
          V = [Event.Lock,
               Event.Insert Table.GroupMessage (Row.GroupMessage
                 { GlobalID := msg.GlobalID, ID := msg.ID, AttributeID := aid,
                   SubType := msg.SubType, QuotedInfoID := qid, GroupCode := msg.GroupCode,
                   AnonymousID := msg.AnonymousID, Content := B2S content }) okE,
               Event.Unlock]) := by
  obtain ⟨A, Q, aid, qres, h1, h2, h3, h4, h5⟩ :=
    blocks_spec E Y s msg.Attribute msg.QuotedInfo
  rcases qres with qerr | qid
  · refine ⟨A, Q, [], aid, _, ?_, h4, h5, ?_, by simp, by simp⟩
    · apply since_of_trace
      simp only [InsertGroupMessage, h2, h3, List.append_nil]
    · intro err he
      cases he
      simp only [InsertGroupMessage, h2, and_self]
  · rcases hm : Y.MarshalGroupMessage msg with merr | content
    · refine ⟨A, Q, [], aid, _, ?_, h4, h5, by simp, ?_, by simp⟩
      · apply since_of_trace
        simp only [InsertGroupMessage, h2, h3, hm, List.append_nil]
      · intro qid' err hq he
        cases he
        simp only [InsertGroupMessage, h2, hm, and_self]
    · refine ⟨A, Q, [Event.Lock,
          Event.Insert Table.GroupMessage (Row.GroupMessage
            { GlobalID := msg.GlobalID, ID := msg.ID, AttributeID := aid,
              SubType := msg.SubType, QuotedInfoID := qid, GroupCode := msg.GroupCode,
              AnonymousID := msg.AnonymousID, Content := B2S content })
            (InsertGroupMessage E Y s msg).1.isNone,
          Event.Unlock], aid, _, ?_, h4, h5, by simp, by simp, ?_⟩
      · apply since_of_trace
        simp only [InsertGroupMessage, h1, h2, hm, database.dbInsert, database.Lock,
          database.Unlock, h3, Sqlite3GroupMessageTableName]
        split <;> rename_i he <;> simp [he]
      · intro qid' content' hq hc
        cases hq
        cases hc
        exact ⟨_, rfl, rfl⟩

/-- What `InsertPrivateMessage` returns and logs. -/
theorem InsertPrivateMessage_spec (E : Sqlite σ) (Y : Yaml) (s : database σ)
    (msg : db.StoredPrivateMessage) :
    ∃ (A Q V : List Event) (aid : Int) (qres : Except Err Int),
      s.since (InsertPrivateMessage E Y s msg).2 = A ++ Q ++ V ∧
      attributeBlock msg.Attribute aid A ∧ quotedInfoBlock Y msg.QuotedInfo qres Q ∧
      (∀ err, qres = Except.error err →
        V = [] ∧ (InsertPrivateMessage E Y s msg).1 = some err) ∧
      (∀ qid err, qres = Except.ok qid → Y.MarshalPrivateMessage msg = Except.error err →
        V = [] ∧
        (InsertPrivateMessage E Y s msg).1 = some (errorsWrap err "insert marshal Content error")) ∧
      (∀ qid content, qres = Except.ok qid → Y.MarshalPrivateMessage msg = Except.ok content →
        ∃ okE : Bool, (InsertPrivateMessage E Y s msg).1.isNone = okE ∧
          V = [Event.Lock,
               Event.Insert Table.PrivateMessage (Row.PrivateMessage
                 { GlobalID := msg.GlobalID, ID := msg.ID, AttributeID := aid,
                   SubType := msg.SubType, QuotedInfoID := qid, SessionUin := msg.SessionUin,
                   TargetUin := msg.TargetUin, Content := B2S content }) okE,
               Event.Unlock]) := by
  obtain ⟨A, Q, aid, qres, h1, h2, h3, h4, h5⟩ :=
    blocks_spec E Y s msg.Attribute msg.QuotedInfo
  rcases qres with qerr | qid
  · refine ⟨A, Q, [], aid, _, ?_, h4, h5, ?_, by simp, by simp⟩
    · apply since_of_trace
      simp only [InsertPrivateMessage, h2, h3, List.append_nil]
    · intro err he
      cases he
      simp only [InsertPrivateMessage, h2, and_self]
  · rcases hm : Y.MarshalPrivateMessage msg with merr | content
    · refine ⟨A, Q, [], aid, _, ?_, h4, h5, by simp, ?_, by simp⟩
      · apply since_of_trace
        simp only [InsertPrivateMessage, h2, h3, hm, List.append_nil]
      · intro qid' err hq he
        cases he
        simp only [InsertPrivateMessage, h2, hm, and_self]
    · refine ⟨A, Q, [Event.Lock,
          Event.Insert Table.PrivateMessage (Row.PrivateMessage
            { GlobalID := msg.GlobalID, ID := msg.ID, AttributeID := aid,
              SubType := msg.SubType, QuotedInfoID := qid, SessionUin := msg.SessionUin,
              TargetUin := msg.TargetUin, Content := B2S content })
            (InsertPrivateMessage E Y s msg).1.isNone,
          Event.Unlock], aid, _, ?_, h4, h5, by simp, by simp, ?_⟩
      · apply since_of_trace
        simp only [InsertPrivateMessage, h1, h2, hm, database.dbInsert, database.Lock,
          database.Unlock, h3, Sqlite3PrivateMessageTableName]
        split <;> rename_i he <;> simp [he]
      · intro qid' content' hq hc
        cases hq
        cases hc
        exact ⟨_, rfl, rfl⟩

end sqlite3

namespace sqlite3

variable {σ : Type}

theorem attributeBlock_tables {attr : Option db.StoredMessageAttribute} {aid : Int}
    {A : List Event} (h : attributeBlock attr aid A) (t : Table) (r : Row) (o : Bool)
    (hm : Event.Insert t r o ∈ A) : t = Table.UinInfo ∨ t = Table.MessageAttribute := by
  cases attr with
  | none =>
    obtain ⟨_, hA⟩ := h.1 rfl
    subst hA
    simp at hm
  | some a =>
    obtain ⟨okU, okA, _, hA⟩ := h.2 a rfl
    subst hA
    cases okU
    · simp at hm
      exact Or.inl hm.1
    · simp at hm
      rcases hm with hm | hm
      · exact Or.inl hm.1
      · exact Or.inr hm.1

theorem quotedInfoBlock_tables {Y : Yaml} {quote : Option db.QuotedInfo} {qres : Except Err Int}
    {Q : List Event} (h : quotedInfoBlock Y quote qres Q) (t : Table) (r : Row) (o : Bool)
    (hm : Event.Insert t r o ∈ Q) : t = Table.QuotedInfo := by
  cases quote with
  | none =>
    obtain ⟨_, hQ⟩ := h.1 rfl
    subst hQ
    simp at hm
  | some q =>
    rcases hc : Y.MarshalQuotedInfo q with err | c
    · obtain ⟨_, hQ⟩ := h.2.1 q err rfl hc
      subst hQ
      simp at hm
    · obtain ⟨okQ, _, hQ⟩ := h.2.2 q c rfl hc
      subst hQ
      simp at hm
      exact hm.1

end sqlite3

namespace sqlite3

variable {σ : Type}

theorem attributeBlock_aid {a : db.StoredMessageAttribute} {aid : Int} {A : List Event}
    (h : attributeBlock (some a) aid A) : aid = attributeKey a ∨ aid = 0 := by
  obtain ⟨okU, okA, h1, _⟩ := h.2 a rfl
  rw [h1]
  split
  · exact Or.inl rfl
  · exact Or.inr rfl

theorem quotedInfoBlock_qid {Y : Yaml} {q : db.QuotedInfo} {c : List Byte} {qid : Int}
    {Q : List Event} (h : quotedInfoBlock Y (some q) (Except.ok qid) Q)
    (hc : Y.MarshalQuotedInfo q = Except.ok c) : qid = quotedInfoKey q c ∨ qid = 0 := by
  obtain ⟨okQ, h1, _⟩ := h.2.2 q c rfl hc
  cases h1
  split
  · exact Or.inl rfl
  · exact Or.inr rfl

/-! ## Logs that are exact records of the engine calls -/

theorem replay_append (E : Sqlite σ) (st : σ) (A B : List Event) :
    replay E st (A ++ B) = (replay E st A).bind fun st1 => replay E st1 B := by
  induction A generalizing st with
  | nil => simp [replay]
  | cons e A ih =>
    cases e <;> simp [replay, ih]
    split <;> simp

theorem Logged.refl (E : Sqlite σ) (s : database σ) : Logged E s s :=
  ⟨[], by simp, rfl⟩

theorem Logged.trans {E : Sqlite σ} {s s1 s2 : database σ} (h1 : Logged E s s1)
    (h2 : Logged E s1 s2) : Logged E s s2 := by
  obtain ⟨A, hA, rA⟩ := h1
  obtain ⟨B, hB, rB⟩ := h2
  exact ⟨A ++ B, by rw [hB, hA, List.append_assoc], by rw [replay_append, rA]; exact rB⟩

theorem Logged.Lock (E : Sqlite σ) (s : database σ) : Logged E s s.Lock :=
  ⟨[Event.Lock], rfl, rfl⟩

theorem Logged.Unlock (E : Sqlite σ) (s : database σ) : Logged E s s.Unlock :=
  ⟨[Event.Unlock], rfl, rfl⟩

theorem Logged.dbInsert (E : Sqlite σ) (s : database σ) (t : Table) (row : Row) :
    Logged E s (s.dbInsert E t row).2 :=
  ⟨[Event.Insert t row (E.Insert s.db t row).1.isNone], rfl, by simp [replay, database.dbInsert]⟩

theorem Logged.since {E : Sqlite σ} {s s1 : database σ} (h : Logged E s s1) :
    replay E s.db (s.since s1) = some s1.db := by
  obtain ⟨A, hA, rA⟩ := h
  rw [since_of_trace s s1 A hA]
  exact rA

theorem insertAttribute_logged (E : Sqlite σ) (s : database σ) (h : crc64.digest)
    (attr : Option db.StoredMessageAttribute) : Logged E s (insertAttribute E s h attr).2.2 := by
  cases attr with
  | none => exact Logged.refl E s
  | some a =>
    simp only [insertAttribute]
    refine Logged.trans (Logged.trans (Logged.Lock E s) ?_) (Logged.Unlock E _)
    split
    · exact Logged.trans (Logged.dbInsert E _ _ _) (Logged.dbInsert E _ _ _)
    · exact Logged.dbInsert E _ _ _

theorem insertQuotedInfo_logged (E : Sqlite σ) (Y : Yaml) (s : database σ) (h : crc64.digest)
    (quote : Option db.QuotedInfo) : Logged E s (insertQuotedInfo E Y s h quote).2 := by
  cases quote with
  | none => exact Logged.refl E s
  | some q =>
    simp only [insertQuotedInfo]
    split
    · exact Logged.refl E s
    · exact Logged.trans (Logged.trans (Logged.Lock E s) (Logged.dbInsert E _ _ _))
        (Logged.Unlock E _)

theorem InsertGroupMessage_logged (E : Sqlite σ) (Y : Yaml) (s : database σ)
    (msg : db.StoredGroupMessage) : Logged E s (InsertGroupMessage E Y s msg).2 := by
  have hb := Logged.trans
    (insertAttribute_logged E s (crc64.New (crc64.MakeTable crc64.ISO)) msg.Attribute)
    (insertQuotedInfo_logged E Y
      (insertAttribute E s (crc64.New (crc64.MakeTable crc64.ISO)) msg.Attribute).2.2
      (insertAttribute E s (crc64.New (crc64.MakeTable crc64.ISO)) msg.Attribute).2.1
      msg.QuotedInfo)
  simp only [InsertGroupMessage]
  split
  · exact hb
  · split
    · exact hb
    · split <;>
        exact Logged.trans (Logged.trans (Logged.trans hb (Logged.Lock E _))
          (Logged.dbInsert E _ _ _)) (Logged.Unlock E _)

theorem InsertPrivateMessage_logged (E : Sqlite σ) (Y : Yaml) (s : database σ)
    (msg : db.StoredPrivateMessage) : Logged E s (InsertPrivateMessage E Y s msg).2 := by
  have hb := Logged.trans
    (insertAttribute_logged E s (crc64.New (crc64.MakeTable crc64.ISO)) msg.Attribute)
    (insertQuotedInfo_logged E Y
      (insertAttribute E s (crc64.New (crc64.MakeTable crc64.ISO)) msg.Attribute).2.2
      (insertAttribute E s (crc64.New (crc64.MakeTable crc64.ISO)) msg.Attribute).2.1
      msg.QuotedInfo)
  simp only [InsertPrivateMessage]
  split
  · exact hb
  · split
    · exact hb
    · split <;>
        exact Logged.trans (Logged.trans (Logged.trans hb (Logged.Lock E _))
          (Logged.dbInsert E _ _ _)) (Logged.Unlock E _)

/-- A log starting with an insert replays only if the logged flag is the engine's
answer; the rest is then replayed on the state the engine returned. -/
theorem replay_insert {E : Sqlite σ} {st st1 : σ} {t : Table} {row : Row} {ok : Bool}
    {evs : List Event} (h : replay E st (Event.Insert t row ok :: evs) = some st1) :
    ok = (E.Insert st t row).1.isNone ∧ replay E (E.Insert st t row).2 evs = some st1 := by
  simp only [replay] at h
  split at h
  · rename_i he
    exact ⟨he.symm, h⟩
  · cases h

/-- A log that replays splits at any point into two logs that replay. -/
theorem replay_split {E : Sqlite σ} {st st1 : σ} {A B : List Event}
    (h : replay E st (A ++ B) = some st1) :
    ∃ mid, replay E st A = some mid ∧ replay E mid B = some st1 := by
  rw [replay_append] at h
  cases hA : replay E st A with
  | none => rw [hA] at h; cases h
  | some mid => rw [hA] at h; exact ⟨mid, rfl, h⟩

/-- The flags of an attribute block that replays are the engine's answers. -/
theorem attribute_flags {E : Sqlite σ} {st st1 : σ} {urow arow : Row} {okU okA : Bool}
    {rest : List Event}
    (h : replay E st (Event.Lock :: Event.Insert Table.UinInfo urow okU ::
      ((if okU = true then [Event.Insert Table.MessageAttribute arow okA] else []) ++ rest))
        = some st1) :
    okU = (E.Insert st Table.UinInfo urow).1.isNone ∧
    (okU = true →
      okA = (E.Insert (E.Insert st Table.UinInfo urow).2 Table.MessageAttribute arow).1.isNone) := by
  have h1 := replay_insert (show replay E st (Event.Insert Table.UinInfo urow okU ::
      ((if okU = true then [Event.Insert Table.MessageAttribute arow okA] else []) ++ rest))
        = some st1 from h)
  refine ⟨h1.1, fun ht => ?_⟩
  have h2 := h1.2
  rw [if_pos ht] at h2
  exact (replay_insert h2).1

/-- The last stage of `InsertGroupMessage` when the quote block returned a
`QuotedInfoID` and the message marshals: the envelope insert, run on the
state the two sub-record blocks left, and its answer wrapped. -/
theorem InsertGroupMessage_envelope (E : Sqlite σ) (Y : Yaml) (s : database σ)
    (msg : db.StoredGroupMessage) (content : List Byte) (qid : Int)
    (hq : (insertQuotedInfo E Y
        (insertAttribute E s (crc64.New (crc64.MakeTable crc64.ISO)) msg.Attribute).2.2
        (insertAttribute E s (crc64.New (crc64.MakeTable crc64.ISO)) msg.Attribute).2.1
        msg.QuotedInfo).1 = Except.ok qid)
    (hm : Y.MarshalGroupMessage msg = Except.ok content) (row : Row)
    (hrow : row = Row.GroupMessage
      { GlobalID := msg.GlobalID, ID := msg.ID,
        AttributeID :=
          (insertAttribute E s (crc64.New (crc64.MakeTable crc64.ISO)) msg.Attribute).1,
        SubType := msg.SubType, QuotedInfoID := qid, GroupCode := msg.GroupCode,
        AnonymousID := msg.AnonymousID, Content := B2S content })
    (sQ : database σ)
    (hsQ : sQ = (insertQuotedInfo E Y
        (insertAttribute E s (crc64.New (crc64.MakeTable crc64.ISO)) msg.Attribute).2.2
        (insertAttribute E s (crc64.New (crc64.MakeTable crc64.ISO)) msg.Attribute).2.1
        msg.QuotedInfo).2) :
    (InsertGroupMessage E Y s msg).1
      = (E.Insert sQ.db Table.GroupMessage row).1.map (fun err => errorsWrap err "insert error") ∧
    (InsertGroupMessage E Y s msg).2.db = (E.Insert sQ.db Table.GroupMessage row).2 ∧
    (InsertGroupMessage E Y s msg).2.trace = sQ.trace ++
      [Event.Lock,
       Event.Insert Table.GroupMessage row (E.Insert sQ.db Table.GroupMessage row).1.isNone,
       Event.Unlock] := by
  subst hrow hsQ
  simp only [InsertGroupMessage, hq, hm, database.dbInsert, database.Lock, database.Unlock,
    Sqlite3GroupMessageTableName]
  split <;> rename_i he <;> simp [he]

/-- The last stage of `InsertPrivateMessage` when the quote block returned a
`QuotedInfoID` and the message marshals: the envelope insert, run on the
state the two sub-record blocks left, and its answer wrapped. -/
theorem InsertPrivateMessage_envelope (E : Sqlite σ) (Y : Yaml) (s : database σ)
    (msg : db.StoredPrivateMessage) (content : List Byte) (qid : Int)
    (hq : (insertQuotedInfo E Y
        (insertAttribute E s (crc64.New (crc64.MakeTable crc64.ISO)) msg.Attribute).2.2
        (insertAttribute E s (crc64.New (crc64.MakeTable crc64.ISO)) msg.Attribute).2.1
        msg.QuotedInfo).1 = Except.ok qid)
    (hm : Y.MarshalPrivateMessage msg = Except.ok content) (row : Row)
    (hrow : row = Row.PrivateMessage
      { GlobalID := msg.GlobalID, ID := msg.ID,
        AttributeID :=
          (insertAttribute E s (crc64.New (crc64.MakeTable crc64.ISO)) msg.Attribute).1,
        SubType := msg.SubType, QuotedInfoID := qid, SessionUin := msg.SessionUin,
        TargetUin := msg.TargetUin, Content := B2S content })
    (sQ : database σ)
    (hsQ : sQ = (insertQuotedInfo E Y
        (insertAttribute E s (crc64.New (crc64.MakeTable crc64.ISO)) msg.Attribute).2.2
        (insertAttribute E s (crc64.New (crc64.MakeTable crc64.ISO)) msg.Attribute).2.1
        msg.QuotedInfo).2) :
    (InsertPrivateMessage E Y s msg).1
      = (E.Insert sQ.db Table.PrivateMessage row).1.map
          (fun err => errorsWrap err "insert error") ∧
    (InsertPrivateMessage E Y s msg).2.db = (E.Insert sQ.db Table.PrivateMessage row).2 ∧
    (InsertPrivateMessage E Y s msg).2.trace = sQ.trace ++
      [Event.Lock,
       Event.Insert Table.PrivateMessage row
         (E.Insert sQ.db Table.PrivateMessage row).1.isNone,
       Event.Unlock] := by
  subst hrow hsQ
  simp only [InsertPrivateMessage, hq, hm, database.dbInsert, database.Lock, database.Unlock,
    Sqlite3PrivateMessageTableName]
  split <;> rename_i he <;> simp [he]

/-- The two sub-record blocks of an insert, run in sequence: the log they leave is
an exact record of the engine calls. -/
theorem blocks_logged (E : Sqlite σ) (Y : Yaml) (s : database σ)
    (attr : Option db.StoredMessageAttribute) (quote : Option db.QuotedInfo) :
    Logged E s (insertQuotedInfo E Y
      (insertAttribute E s (crc64.New (crc64.MakeTable crc64.ISO)) attr).2.2
      (insertAttribute E s (crc64.New (crc64.MakeTable crc64.ISO)) attr).2.1 quote).2 :=
  Logged.trans (insertAttribute_logged E s _ attr) (insertQuotedInfo_logged E Y _ _ quote)

/-- What the two sub-record blocks leave for the envelope stage when the quote
serializes: the log `pre` of the blocks, the engine state `dbPre` it leads to,
and the two references. -/
theorem blocks_pre (E : Sqlite σ) (Y : Yaml) (s : database σ)
    (attr : Option db.StoredMessageAttribute) (quote : Option db.QuotedInfo)
    (hq : ∀ q, quote = some q → ∃ c, Y.MarshalQuotedInfo q = Except.ok c) :
    ∃ (pre : List Event) (qid : Int),
      (insertQuotedInfo E Y (insertAttribute E s (crc64.New (crc64.MakeTable crc64.ISO)) attr).2.2
        (insertAttribute E s (crc64.New (crc64.MakeTable crc64.ISO)) attr).2.1 quote).1
          = Except.ok qid ∧
      (insertQuotedInfo E Y (insertAttribute E s (crc64.New (crc64.MakeTable crc64.ISO)) attr).2.2
        (insertAttribute E s (crc64.New (crc64.MakeTable crc64.ISO)) attr).2.1 quote).2.trace
          = s.trace ++ pre ∧
      replay E s.db pre = some
        (insertQuotedInfo E Y
          (insertAttribute E s (crc64.New (crc64.MakeTable crc64.ISO)) attr).2.2
          (insertAttribute E s (crc64.New (crc64.MakeTable crc64.ISO)) attr).2.1 quote).2.db ∧
      (∀ t r o, Event.Insert t r o ∈ pre →
        t = Table.UinInfo ∨ t = Table.MessageAttribute ∨ t = Table.QuotedInfo) ∧
      (attr = none →
        (insertAttribute E s (crc64.New (crc64.MakeTable crc64.ISO)) attr).1 = 0) ∧
      (∀ a, attr = some a →
        (insertAttribute E s (crc64.New (crc64.MakeTable crc64.ISO)) attr).1 = attributeKey a ∨
        (insertAttribute E s (crc64.New (crc64.MakeTable crc64.ISO)) attr).1 = 0) ∧
      (quote = none → qid = 0) ∧
      (∀ q c, quote = some q → Y.MarshalQuotedInfo q = Except.ok c →
        qid = quotedInfoKey q c ∨ qid = 0) := by
  obtain ⟨A, Q, aid, qres, h1, h2, h3, hA, hQ⟩ := blocks_spec E Y s attr quote
  have hres : ∃ qid, qres = Except.ok qid := by
    cases hquote : quote with
    | none => exact ⟨0, (hQ.1 hquote).1⟩
    | some q =>
      obtain ⟨c, hc⟩ := hq q hquote
      obtain ⟨okQ, h, _⟩ := hQ.2.2 q c hquote hc
      exact ⟨_, h⟩
  obtain ⟨qid, hqid⟩ := hres
  subst hqid
  obtain ⟨pre, hp1, hp2⟩ := blocks_logged E Y s attr quote
  have hpre : pre = A ++ Q := List.append_cancel_left (hp1.symm.trans h3)
  refine ⟨pre, qid, h2, hp1, hp2, ?_, ?_, ?_, ?_, ?_⟩
  · intro t r o hmem
    rw [hpre] at hmem
    rcases List.mem_append.mp hmem with h | h
    · rcases attributeBlock_tables hA t r o h with h | h
      · exact Or.inl h
      · exact Or.inr (Or.inl h)
    · exact Or.inr (Or.inr (quotedInfoBlock_tables hQ t r o h))
  · intro hn
    rw [h1]
    exact (hA.1 hn).1
  · intro a ha
    rw [h1]
    rw [ha] at hA
    exact attributeBlock_aid hA
  · intro hn
    have := (hQ.1 hn).1
    cases this
    rfl
  · intro q c hq' hc
    rw [hq'] at hQ
    exact quotedInfoBlock_qid hQ hc

end sqlite3

/-- C2: when the payload serializes, `InsertGroupMessage` (and likewise
`InsertPrivateMessage`) runs the sub-record blocks, whose log `pre` holds
inserts into the UinInfo, MessageAttribute and QuotedInfo tables only and,
handed to the engine again, leads to the engine state `dbPre`; then, whatever
the engine answered to those inserts, it hands the envelope row to the engine
in one exclusive section.  What the call returns is the engine's answer
`E.Insert dbPre table row` to that one insert: no error if the engine gave
none, otherwise the engine's error wrapped with "insert error"; the state left
is the one the engine returned. -/
theorem insert_error_iff_envelope_insert_fails {σ : Type} (E : sqlite3.Sqlite σ)
    (Y : sqlite3.Yaml) (s : sqlite3.database σ) :
    (∀ (msg : db.StoredGroupMessage) (content : List Byte),
      Y.MarshalGroupMessage msg = Except.ok content →
      (∀ q, msg.QuotedInfo = some q → ∃ c, Y.MarshalQuotedInfo q = Except.ok c) →
      ∃ (pre : List sqlite3.Event) (dbPre : σ) (aid qid : Int) (row : sqlite3.Row),
        row = sqlite3.Row.GroupMessage
          { GlobalID := msg.GlobalID, ID := msg.ID, AttributeID := aid,
            SubType := msg.SubType, QuotedInfoID := qid, GroupCode := msg.GroupCode,
            AnonymousID := msg.AnonymousID, Content := B2S content } ∧
        (msg.Attribute = none → aid = 0) ∧
        (∀ a, msg.Attribute = some a → aid = sqlite3.attributeKey a ∨ aid = 0) ∧
        (msg.QuotedInfo = none → qid = 0) ∧
        (∀ q c, msg.QuotedInfo = some q → Y.MarshalQuotedInfo q = Except.ok c →
          qid = sqlite3.quotedInfoKey q c ∨ qid = 0) ∧
        sqlite3.replay E s.db pre = some dbPre ∧
        (∀ t r o, sqlite3.Event.Insert t r o ∈ pre →
          t = sqlite3.Table.UinInfo ∨ t = sqlite3.Table.MessageAttribute ∨
          t = sqlite3.Table.QuotedInfo) ∧
        s.since (sqlite3.InsertGroupMessage E Y s msg).2 = pre ++
          [sqlite3.Event.Lock,
           sqlite3.Event.Insert sqlite3.Table.GroupMessage row
             (E.Insert dbPre sqlite3.Table.GroupMessage row).1.isNone,
           sqlite3.Event.Unlock] ∧
        (sqlite3.InsertGroupMessage E Y s msg).1
          = (E.Insert dbPre sqlite3.Table.GroupMessage row).1.map
              (fun err => errorsWrap err "insert error") ∧
        (sqlite3.InsertGroupMessage E Y s msg).2.db
          = (E.Insert dbPre sqlite3.Table.GroupMessage row).2 ∧
        ((sqlite3.InsertGroupMessage E Y s msg).1 ≠ none ↔
          (E.Insert dbPre sqlite3.Table.GroupMessage row).1 ≠ none)) ∧
    (∀ (msg : db.StoredPrivateMessage) (content : List Byte),
      Y.MarshalPrivateMessage msg = Except.ok content →
      (∀ q, msg.QuotedInfo = some q → ∃ c, Y.MarshalQuotedInfo q = Except.ok c) →
      ∃ (pre : List sqlite3.Event) (dbPre : σ) (aid qid : Int) (row : sqlite3.Row),
        row = sqlite3.Row.PrivateMessage
          { GlobalID := msg.GlobalID, ID := msg.ID, AttributeID := aid,
            SubType := msg.SubType, QuotedInfoID := qid, SessionUin := msg.SessionUin,
            TargetUin := msg.TargetUin, Content := B2S content } ∧
        (msg.Attribute = none → aid = 0) ∧
        (∀ a, msg.Attribute = some a → aid = sqlite3.attributeKey a ∨ aid = 0) ∧
        (msg.QuotedInfo = none → qid = 0) ∧
        (∀ q c, msg.QuotedInfo = some q → Y.MarshalQuotedInfo q = Except.ok c →
          qid = sqlite3.quotedInfoKey q c ∨ qid = 0) ∧
        sqlite3.replay E s.db pre = some dbPre ∧
        (∀ t r o, sqlite3.Event.Insert t r o ∈ pre →
          t = sqlite3.Table.UinInfo ∨ t = sqlite3.Table.MessageAttribute ∨
          t = sqlite3.Table.QuotedInfo) ∧
        s.since (sqlite3.InsertPrivateMessage E Y s msg).2 = pre ++
          [sqlite3.Event.Lock,
           sqlite3.Event.Insert sqlite3.Table.PrivateMessage row
             (E.Insert dbPre sqlite3.Table.PrivateMessage row).1.isNone,
           sqlite3.Event.Unlock] ∧
        (sqlite3.InsertPrivateMessage E Y s msg).1
          = (E.Insert dbPre sqlite3.Table.PrivateMessage row).1.map
              (fun err => errorsWrap err "insert error") ∧
        (sqlite3.InsertPrivateMessage E Y s msg).2.db
          = (E.Insert dbPre sqlite3.Table.PrivateMessage row).2 ∧
        ((sqlite3.InsertPrivateMessage E Y s msg).1 ≠ none ↔
          (E.Insert dbPre sqlite3.Table.PrivateMessage row).1 ≠ none)) := by
  constructor
  · intro msg content hm hq
    obtain ⟨pre, qid, h2, hp1, hp2, htab, ha0, ha1, hq0, hq1⟩ :=
      sqlite3.blocks_pre E Y s msg.Attribute msg.QuotedInfo hq
    obtain ⟨e1, e2, e3⟩ :=
      sqlite3.InsertGroupMessage_envelope E Y s msg content qid h2 hm _ rfl _ rfl
    refine ⟨pre, _, _, qid, _, rfl, ha0, ha1, hq0, hq1, hp2, htab, ?_, e1, e2, ?_⟩
    · apply sqlite3.since_of_trace
      rw [e3, hp1, List.append_assoc]
    · rw [e1]
      cases (E.Insert _ sqlite3.Table.GroupMessage _).1 <;> simp
  · intro msg content hm hq
    obtain ⟨pre, qid, h2, hp1, hp2, htab, ha0, ha1, hq0, hq1⟩ :=
      sqlite3.blocks_pre E Y s msg.Attribute msg.QuotedInfo hq
    obtain ⟨e1, e2, e3⟩ :=
      sqlite3.InsertPrivateMessage_envelope E Y s msg content qid h2 hm _ rfl _ rfl
    refine ⟨pre, _, _, qid, _, rfl, ha0, ha1, hq0, hq1, hp2, htab, ?_, e1, e2, ?_⟩
    · apply sqlite3.since_of_trace
      rw [e3, hp1, List.append_assoc]
    · rw [e1]
      cases (E.Insert _ sqlite3.Table.PrivateMessage _).1 <;> simp

set_option maxRecDepth 100000 in
/-- Witness for C2: `sampleGroupMessage` serializes under `plainYaml`.  On the
reference engine refusing every UinInfo and QuotedInfo insert the call returns
no error; on the reference engine refusing the envelope insert only, it
returns that insert's error, wrapped; and the theorem applies to the first. -/
theorem insert_error_iff_envelope_insert_fails_witness :
    (sqlite3.plainYaml.MarshalGroupMessage sqlite3.sampleGroupMessage = Except.ok [] ∧
      ∀ q, sqlite3.sampleGroupMessage.QuotedInfo = some q →
        ∃ c, sqlite3.plainYaml.MarshalQuotedInfo q = Except.ok c) ∧
    (sqlite3.InsertGroupMessage (sqlite3.listEngine sqlite3.firstMatch) sqlite3.plainYaml
      (sqlite3.denying [sqlite3.Table.UinInfo, sqlite3.Table.QuotedInfo]
        (sqlite3.freshDatabase sqlite3.firstMatch 0)) sqlite3.sampleGroupMessage).1 = none ∧
    (sqlite3.InsertGroupMessage (sqlite3.listEngine sqlite3.firstMatch) sqlite3.plainYaml
      (sqlite3.denying [sqlite3.Table.GroupMessage]
        (sqlite3.freshDatabase sqlite3.firstMatch 0)) sqlite3.sampleGroupMessage).1
      = some "insert error: constraint failed" ∧
    ∃ (pre : List sqlite3.Event) (dbPre : sqlite3.Store) (aid qid : Int) (row : sqlite3.Row),
      row = sqlite3.Row.GroupMessage
        { GlobalID := sqlite3.sampleGroupMessage.GlobalID, ID := sqlite3.sampleGroupMessage.ID,
          AttributeID := aid, SubType := sqlite3.sampleGroupMessage.SubType,
          QuotedInfoID := qid, GroupCode := sqlite3.sampleGroupMessage.GroupCode,
          AnonymousID := sqlite3.sampleGroupMessage.AnonymousID, Content := B2S [] } ∧
      (sqlite3.sampleGroupMessage.Attribute = none → aid = 0) ∧
      (∀ a, sqlite3.sampleGroupMessage.Attribute = some a →
        aid = sqlite3.attributeKey a ∨ aid = 0) ∧
      (sqlite3.sampleGroupMessage.QuotedInfo = none → qid = 0) ∧
      (∀ q c, sqlite3.sampleGroupMessage.QuotedInfo = some q →
        sqlite3.plainYaml.MarshalQuotedInfo q = Except.ok c →
        qid = sqlite3.quotedInfoKey q c ∨ qid = 0) ∧
      sqlite3.replay (sqlite3.listEngine sqlite3.firstMatch)
        (sqlite3.denying [sqlite3.Table.UinInfo, sqlite3.Table.QuotedInfo]
          (sqlite3.freshDatabase sqlite3.firstMatch 0)).db pre = some dbPre ∧
      (∀ t r o, sqlite3.Event.Insert t r o ∈ pre →
        t = sqlite3.Table.UinInfo ∨ t = sqlite3.Table.MessageAttribute ∨
        t = sqlite3.Table.QuotedInfo) ∧
      (sqlite3.denying [sqlite3.Table.UinInfo, sqlite3.Table.QuotedInfo]
          (sqlite3.freshDatabase sqlite3.firstMatch 0)).since
        (sqlite3.InsertGroupMessage (sqlite3.listEngine sqlite3.firstMatch) sqlite3.plainYaml
          (sqlite3.denying [sqlite3.Table.UinInfo, sqlite3.Table.QuotedInfo]
            (sqlite3.freshDatabase sqlite3.firstMatch 0)) sqlite3.sampleGroupMessage).2 = pre ++
        [sqlite3.Event.Lock,
         sqlite3.Event.Insert sqlite3.Table.GroupMessage row
           ((sqlite3.listEngine sqlite3.firstMatch).Insert dbPre
             sqlite3.Table.GroupMessage row).1.isNone,
         sqlite3.Event.Unlock] ∧
      (sqlite3.InsertGroupMessage (sqlite3.listEngine sqlite3.firstMatch) sqlite3.plainYaml
          (sqlite3.denying [sqlite3.Table.UinInfo, sqlite3.Table.QuotedInfo]
            (sqlite3.freshDatabase sqlite3.firstMatch 0)) sqlite3.sampleGroupMessage).1
        = ((sqlite3.listEngine sqlite3.firstMatch).Insert dbPre
            sqlite3.Table.GroupMessage row).1.map (fun err => errorsWrap err "insert error") ∧
      (sqlite3.InsertGroupMessage (sqlite3.listEngine sqlite3.firstMatch) sqlite3.plainYaml
          (sqlite3.denying [sqlite3.Table.UinInfo, sqlite3.Table.QuotedInfo]
            (sqlite3.freshDatabase sqlite3.firstMatch 0)) sqlite3.sampleGroupMessage).2.db
        = ((sqlite3.listEngine sqlite3.firstMatch).Insert dbPre
            sqlite3.Table.GroupMessage row).2 ∧
      ((sqlite3.InsertGroupMessage (sqlite3.listEngine sqlite3.firstMatch) sqlite3.plainYaml
          (sqlite3.denying [sqlite3.Table.UinInfo, sqlite3.Table.QuotedInfo]
            (sqlite3.freshDatabase sqlite3.firstMatch 0)) sqlite3.sampleGroupMessage).1 ≠ none ↔
        ((sqlite3.listEngine sqlite3.firstMatch).Insert dbPre
          sqlite3.Table.GroupMessage row).1 ≠ none) :=
  ⟨⟨rfl, fun _ _ => ⟨[], rfl⟩⟩, by decide, by decide,
   (insert_error_iff_envelope_insert_fails (sqlite3.listEngine sqlite3.firstMatch)
      sqlite3.plainYaml
      (sqlite3.denying [sqlite3.Table.UinInfo, sqlite3.Table.QuotedInfo]
        (sqlite3.freshDatabase sqlite3.firstMatch 0))).1
      sqlite3.sampleGroupMessage [] rfl (fun _ _ => ⟨[], rfl⟩)⟩

namespace sqlite3

variable {σ : Type}

theorem attributeBlock_mem {a : db.StoredMessageAttribute} {aid : Int} {A : List Event}
    (h : attributeBlock (some a) aid A) (e : Event) (he : e ∈ A) :
    e = Event.Lock ∨ e = Event.Unlock ∨
    (∃ ok, e = Event.Insert Table.UinInfo
      (Row.UinInfo { Uin := a.SenderUin, Name := a.SenderName }) ok) ∨
    (∃ ok, e = Event.Insert Table.MessageAttribute (Row.MessageAttribute
      { ID := attributeKey a, MessageSeq := a.MessageSeq, InternalID := a.InternalID,
        SenderUin := a.SenderUin, Timestamp := a.Timestamp }) ok) := by
  obtain ⟨okU, okA, _, hA⟩ := h.2 a rfl
  subst hA
  cases okU
  · simp at he
    rcases he with he | he | he
    · exact Or.inl he
    · exact Or.inr (Or.inr (Or.inl ⟨_, he⟩))
    · exact Or.inr (Or.inl he)
  · simp at he
    rcases he with he | he | he | he
    · exact Or.inl he
    · exact Or.inr (Or.inr (Or.inl ⟨_, he⟩))
    · exact Or.inr (Or.inr (Or.inr ⟨_, he⟩))
    · exact Or.inr (Or.inl he)

theorem quotedInfoBlock_mem {Y : Yaml} {q : db.QuotedInfo} {c : List Byte}
    {qres : Except Err Int} {Q : List Event} (h : quotedInfoBlock Y (some q) qres Q)
    (hc : Y.MarshalQuotedInfo q = Except.ok c) (e : Event) (he : e ∈ Q) :
    e = Event.Lock ∨ e = Event.Unlock ∨
    (∃ ok, e = Event.Insert Table.QuotedInfo (Row.QuotedInfo
      { ID := quotedInfoKey q c, PrevID := q.PrevID, PrevGlobalID := q.PrevGlobalID,
        QuotedContent := B2S c }) ok) := by
  obtain ⟨okQ, _, hQ⟩ := h.2.2 q c rfl hc
  subst hQ
  simp at he
  rcases he with he | he | he
  · exact Or.inl he
  · exact Or.inr (Or.inr ⟨_, he⟩)
  · exact Or.inr (Or.inl he)

/-- The events of `InsertGroupMessage`: the two sub-record blocks, then either
nothing or the exclusive section of the envelope insert. -/
theorem InsertGroupMessage_shape (E : Sqlite σ) (Y : Yaml) (s : database σ)
    (msg : db.StoredGroupMessage) :
    ∃ (A Q V : List Event) (aid : Int) (qres : Except Err Int),
      s.since (InsertGroupMessage E Y s msg).2 = A ++ Q ++ V ∧
      attributeBlock msg.Attribute aid A ∧ quotedInfoBlock Y msg.QuotedInfo qres Q ∧
      (V = [] ∨ ∃ qid content okE, qres = Except.ok qid ∧
        Y.MarshalGroupMessage msg = Except.ok content ∧
        V = [Event.Lock,
             Event.Insert Table.GroupMessage (Row.GroupMessage
               { GlobalID := msg.GlobalID, ID := msg.ID, AttributeID := aid,
                 SubType := msg.SubType, QuotedInfoID := qid, GroupCode := msg.GroupCode,
                 AnonymousID := msg.AnonymousID, Content := B2S content }) okE,
             Event.Unlock]) := by
  obtain ⟨A, Q, V, aid, qres, h1, hA, hQ, hV1, hV2, hV3⟩ := InsertGroupMessage_spec E Y s msg
  refine ⟨A, Q, V, aid, qres, h1, hA, hQ, ?_⟩
  rcases qres with err | qid
  · exact Or.inl (hV1 err rfl).1
  · rcases hm : Y.MarshalGroupMessage msg with err | content
    · exact Or.inl (hV2 qid err rfl hm).1
    · obtain ⟨okE, _, hV⟩ := hV3 qid content rfl hm
      exact Or.inr ⟨qid, content, okE, rfl, rfl, hV⟩

/-- The events of `InsertPrivateMessage`: the two sub-record blocks, then either
nothing or the exclusive section of the envelope insert. -/
theorem InsertPrivateMessage_shape (E : Sqlite σ) (Y : Yaml) (s : database σ)
    (msg : db.StoredPrivateMessage) :
    ∃ (A Q V : List Event) (aid : Int) (qres : Except Err Int),
      s.since (InsertPrivateMessage E Y s msg).2 = A ++ Q ++ V ∧
      attributeBlock msg.Attribute aid A ∧ quotedInfoBlock Y msg.QuotedInfo qres Q ∧
      (V = [] ∨ ∃ qid content okE, qres = Except.ok qid ∧
        Y.MarshalPrivateMessage msg = Except.ok content ∧
        V = [Event.Lock,
             Event.Insert Table.PrivateMessage (Row.PrivateMessage
               { GlobalID := msg.GlobalID, ID := msg.ID, AttributeID := aid,
                 SubType := msg.SubType, QuotedInfoID := qid, SessionUin := msg.SessionUin,
                 TargetUin := msg.TargetUin, Content := B2S content }) okE,
             Event.Unlock]) := by
  obtain ⟨A, Q, V, aid, qres, h1, hA, hQ, hV1, hV2, hV3⟩ := InsertPrivateMessage_spec E Y s msg
  refine ⟨A, Q, V, aid, qres, h1, hA, hQ, ?_⟩
  rcases qres with err | qid
  · exact Or.inl (hV1 err rfl).1
  · rcases hm : Y.MarshalPrivateMessage msg with err | content
    · exact Or.inl (hV2 qid err rfl hm).1
    · obtain ⟨okE, _, hV⟩ := hV3 qid content rfl hm
      exact Or.inr ⟨qid, content, okE, rfl, rfl, hV⟩

end sqlite3

namespace sqlite3

variable {σ : Type}

theorem attributeBlock_mem_any {attr : Option db.StoredMessageAttribute} {aid : Int}
    {A : List Event} (h : attributeBlock attr aid A) (e : Event) (he : e ∈ A) :
    e = Event.Lock ∨ e = Event.Unlock ∨
    (∃ a ok, attr = some a ∧ e = Event.Insert Table.UinInfo
      (Row.UinInfo { Uin := a.SenderUin, Name := a.SenderName }) ok) ∨
    (∃ a ok, attr = some a ∧ e = Event.Insert Table.MessageAttribute (Row.MessageAttribute
      { ID := attributeKey a, MessageSeq := a.MessageSeq, InternalID := a.InternalID,
        SenderUin := a.SenderUin, Timestamp := a.Timestamp }) ok) := by
  cases attr with
  | none =>
    obtain ⟨_, hA⟩ := h.1 rfl
    subst hA
    simp at he
  | some a =>
    rcases attributeBlock_mem h e he with h | h | ⟨ok, h⟩ | ⟨ok, h⟩
    · exact Or.inl h
    · exact Or.inr (Or.inl h)
    · exact Or.inr (Or.inr (Or.inl ⟨a, ok, rfl, h⟩))
    · exact Or.inr (Or.inr (Or.inr ⟨a, ok, rfl, h⟩))

theorem quotedInfoBlock_mem_any {Y : Yaml} {quote : Option db.QuotedInfo}
    {qres : Except Err Int} {Q : List Event} (h : quotedInfoBlock Y quote qres Q)
    (e : Event) (he : e ∈ Q) :
    e = Event.Lock ∨ e = Event.Unlock ∨
    (∃ q c ok, quote = some q ∧ Y.MarshalQuotedInfo q = Except.ok c ∧
      e = Event.Insert Table.QuotedInfo (Row.QuotedInfo
        { ID := quotedInfoKey q c, PrevID := q.PrevID, PrevGlobalID := q.PrevGlobalID,
          QuotedContent := B2S c }) ok) := by
  cases quote with
  | none =>
    obtain ⟨_, hQ⟩ := h.1 rfl
    subst hQ
    simp at he
  | some q =>
    rcases hc : Y.MarshalQuotedInfo q with err | c
    · obtain ⟨_, hQ⟩ := h.2.1 q err rfl hc
      subst hQ
      simp at he
    · rcases quotedInfoBlock_mem h hc e he with h | h | ⟨ok, h⟩
      · exact Or.inl h
      · exact Or.inr (Or.inl h)
      · exact Or.inr (Or.inr ⟨q, c, ok, rfl, hc, h⟩)

/-- Every event of one `InsertGroupMessage` call is a lock operation, a sub-record
insert carrying the content-derived key, or the envelope insert, whose two
references are each the key of the sub-record or `0`. -/
theorem InsertGroupMessage_mem (E : Sqlite σ) (Y : Yaml) (s : database σ)
    (msg : db.StoredGroupMessage) (e : Event)
    (he : e ∈ s.since (InsertGroupMessage E Y s msg).2) :
    e = Event.Lock ∨ e = Event.Unlock ∨
    (∃ a ok, msg.Attribute = some a ∧ e = Event.Insert Table.UinInfo
      (Row.UinInfo { Uin := a.SenderUin, Name := a.SenderName }) ok) ∨
    (∃ a ok, msg.Attribute = some a ∧ e = Event.Insert Table.MessageAttribute
      (Row.MessageAttribute
        { ID := attributeKey a, MessageSeq := a.MessageSeq, InternalID := a.InternalID,
          SenderUin := a.SenderUin, Timestamp := a.Timestamp }) ok) ∨
    (∃ q c ok, msg.QuotedInfo = some q ∧ Y.MarshalQuotedInfo q = Except.ok c ∧
      e = Event.Insert Table.QuotedInfo (Row.QuotedInfo
        { ID := quotedInfoKey q c, PrevID := q.PrevID, PrevGlobalID := q.PrevGlobalID,
          QuotedContent := B2S c }) ok) ∨
    (∃ r ok, e = Event.Insert Table.GroupMessage (Row.GroupMessage r) ok ∧
      (msg.Attribute = none → r.AttributeID = 0) ∧
      (∀ a, msg.Attribute = some a → r.AttributeID = attributeKey a ∨ r.AttributeID = 0) ∧
      (msg.QuotedInfo = none → r.QuotedInfoID = 0) ∧
      (∀ q c, msg.QuotedInfo = some q → Y.MarshalQuotedInfo q = Except.ok c →
        r.QuotedInfoID = quotedInfoKey q c ∨ r.QuotedInfoID = 0)) := by
  obtain ⟨A, Q, V, aid, qres, h1, hA, hQ, hV⟩ := InsertGroupMessage_shape E Y s msg
  rw [h1] at he
  rcases List.mem_append.mp he with he | he
  · rcases List.mem_append.mp he with he | he
    · rcases attributeBlock_mem_any hA e he with h | h | h | h
      · exact Or.inl h
      · exact Or.inr (Or.inl h)
      · exact Or.inr (Or.inr (Or.inl h))
      · exact Or.inr (Or.inr (Or.inr (Or.inl h)))
    · rcases quotedInfoBlock_mem_any hQ e he with h | h | h
      · exact Or.inl h
      · exact Or.inr (Or.inl h)
      · exact Or.inr (Or.inr (Or.inr (Or.inr (Or.inl h))))
  · rcases hV with hV | ⟨qid, content, okE, hqres, _, hV⟩
    · subst hV
      simp at he
    · subst hV
      subst hqres
      simp at he
      rcases he with he | he | he
      · exact Or.inl he
      · refine Or.inr (Or.inr (Or.inr (Or.inr (Or.inr ⟨_, _, he, ?_, ?_, ?_, ?_⟩))))
        · intro hn
          exact (hA.1 hn).1
        · intro a ha
          rw [ha] at hA
          exact attributeBlock_aid hA
        · intro hn
          have := (hQ.1 hn).1
          cases this
          rfl
        · intro q c hq hc
          rw [hq] at hQ
          exact quotedInfoBlock_qid hQ hc
      · exact Or.inr (Or.inl he)

/-- Every event of one `InsertPrivateMessage` call is a lock operation, a
sub-record insert carrying the content-derived key, or the envelope insert,
whose two references are each the key of the sub-record or `0`. -/
theorem InsertPrivateMessage_mem (E : Sqlite σ) (Y : Yaml) (s : database σ)
    (msg : db.StoredPrivateMessage) (e : Event)
    (he : e ∈ s.since (InsertPrivateMessage E Y s msg).2) :
    e = Event.Lock ∨ e = Event.Unlock ∨
    (∃ a ok, msg.Attribute = some a ∧ e = Event.Insert Table.UinInfo
      (Row.UinInfo { Uin := a.SenderUin, Name := a.SenderName }) ok) ∨
    (∃ a ok, msg.Attribute = some a ∧ e = Event.Insert Table.MessageAttribute
      (Row.MessageAttribute
        { ID := attributeKey a, MessageSeq := a.MessageSeq, InternalID := a.InternalID,
          SenderUin := a.SenderUin, Timestamp := a.Timestamp }) ok) ∨
    (∃ q c ok, msg.QuotedInfo = some q ∧ Y.MarshalQuotedInfo q = Except.ok c ∧
      e = Event.Insert Table.QuotedInfo (Row.QuotedInfo
        { ID := quotedInfoKey q c, PrevID := q.PrevID, PrevGlobalID := q.PrevGlobalID,
          QuotedContent := B2S c }) ok) ∨
    (∃ r ok, e = Event.Insert Table.PrivateMessage (Row.PrivateMessage r) ok ∧
      (msg.Attribute = none → r.AttributeID = 0) ∧
      (∀ a, msg.Attribute = some a → r.AttributeID = attributeKey a ∨ r.AttributeID = 0) ∧
      (msg.QuotedInfo = none → r.QuotedInfoID = 0) ∧
      (∀ q c, msg.QuotedInfo = some q → Y.MarshalQuotedInfo q = Except.ok c →
        r.QuotedInfoID = quotedInfoKey q c ∨ r.QuotedInfoID = 0)) := by
  obtain ⟨A, Q, V, aid, qres, h1, hA, hQ, hV⟩ := InsertPrivateMessage_shape E Y s msg
  rw [h1] at he
  rcases List.mem_append.mp he with he | he
  · rcases List.mem_append.mp he with he | he
    · rcases attributeBlock_mem_any hA e he with h | h | h | h
      · exact Or.inl h
      · exact Or.inr (Or.inl h)
      · exact Or.inr (Or.inr (Or.inl h))
      · exact Or.inr (Or.inr (Or.inr (Or.inl h)))
    · rcases quotedInfoBlock_mem_any hQ e he with h | h | h
      · exact Or.inl h
      · exact Or.inr (Or.inl h)
      · exact Or.inr (Or.inr (Or.inr (Or.inr (Or.inl h))))
  · rcases hV with hV | ⟨qid, content, okE, hqres, _, hV⟩
    · subst hV
      simp at he
    · subst hV
      subst hqres
      simp at he
      rcases he with he | he | he
      · exact Or.inl he
      · refine Or.inr (Or.inr (Or.inr (Or.inr (Or.inr ⟨_, _, he, ?_, ?_, ?_, ?_⟩))))
        · intro hn
          exact (hA.1 hn).1
        · intro a ha
          rw [ha] at hA
          exact attributeBlock_aid hA
        · intro hn
          have := (hQ.1 hn).1
          cases this
          rfl
        · intro q c hq hc
          rw [hq] at hQ
          exact quotedInfoBlock_qid hQ hc
      · exact Or.inr (Or.inl he)

end sqlite3

open sqlite3

/-- C3: the surrogate key `k` that `InsertGroupMessage` and `InsertPrivateMessage`
store is never `0`: it is `1` when the ISO checksum of the encoded content is
`0` and otherwise that checksum read as a signed 64-bit integer.

For a message with a non-nil `Attribute`, the call opens with one exclusive
section that hands the engine the UinInfo row and, if the engine accepted it,
the MessageAttribute row with `ID = k` (`okU` and `okA` are the engine's
answers); every MessageAttribute row of the call has `ID = k`, every envelope
row has `AttributeID = k` or `0`, and when the payload serializes the call
ends with the envelope insert, with `AttributeID = k` if the engine accepted
both rows and `0` otherwise.

For a message with a non-nil `QuotedInfo` whose snapshot marshals to `c`,
after the attribute block (log `pre`, leading to the engine state `dbPre`)
the call hands the engine the QuotedInfo row with `ID = k` in one exclusive
section (`okQ` is the engine's answer); every QuotedInfo row of the call has
`ID = k`, every envelope row has `QuotedInfoID = k` or `0`, and when the
message marshals the call ends with the envelope insert, with
`QuotedInfoID = k` if the engine accepted the row and `0` otherwise.

In every call the log is an exact record of the inserts the engine received
and of its answers. -/
theorem surrogate_key_never_zero {σ : Type} (E : Sqlite σ) (Y : Yaml) (s : database σ) :
    (∀ (msg : db.StoredGroupMessage) (a : db.StoredMessageAttribute), msg.Attribute = some a →
      ∃ (k : Int) (urow arow : Row) (okU okA : Bool) (post : List Event),
        k ≠ 0 ∧
        k = (if crc64.Checksum (attributeBytes a) (crc64.MakeTable crc64.ISO) = 0 then 1
             else int64 (crc64.Checksum (attributeBytes a) (crc64.MakeTable crc64.ISO))) ∧
        urow = Row.UinInfo { Uin := a.SenderUin, Name := a.SenderName } ∧
        arow = Row.MessageAttribute
          { ID := k, MessageSeq := a.MessageSeq, InternalID := a.InternalID,
            SenderUin := a.SenderUin, Timestamp := a.Timestamp } ∧
        okU = (E.Insert s.db Table.UinInfo urow).1.isNone ∧
        okA = (E.Insert (E.Insert s.db Table.UinInfo urow).2 Table.MessageAttribute arow).1.isNone ∧
        s.since (InsertGroupMessage E Y s msg).2 =
          Event.Lock :: Event.Insert Table.UinInfo urow okU ::
            ((if okU = true then [Event.Insert Table.MessageAttribute arow okA] else []) ++
              Event.Unlock :: post) ∧
        (∀ t r ok, Event.Insert t (Row.MessageAttribute r) ok
            ∈ s.since (InsertGroupMessage E Y s msg).2 → r.ID = k) ∧
        (∀ t r ok, Event.Insert t (Row.GroupMessage r) ok
            ∈ s.since (InsertGroupMessage E Y s msg).2 →
          r.AttributeID = k ∨ r.AttributeID = 0) ∧
        (∀ content, Y.MarshalGroupMessage msg = Except.ok content →
          (∀ q, msg.QuotedInfo = some q → ∃ c, Y.MarshalQuotedInfo q = Except.ok c) →
          ∃ (mid : List Event) (qid : Int) (ok : Bool),
            post = mid ++ [Event.Lock,
              Event.Insert Table.GroupMessage (Row.GroupMessage
                { GlobalID := msg.GlobalID, ID := msg.ID,
                  AttributeID := if okU = true ∧ okA = true then k else 0,
                  SubType := msg.SubType, QuotedInfoID := qid, GroupCode := msg.GroupCode,
                  AnonymousID := msg.AnonymousID, Content := B2S content }) ok,
              Event.Unlock])) ∧
    (∀ (msg : db.StoredGroupMessage) (q : db.QuotedInfo) (c : List Byte),
      msg.QuotedInfo = some q → Y.MarshalQuotedInfo q = Except.ok c →
      ∃ (k : Int) (qrow : Row) (okQ : Bool) (pre post : List Event) (dbPre : σ),
        k ≠ 0 ∧
        k = (if crc64.Checksum (quotedInfoBytes q c) (crc64.MakeTable crc64.ISO) = 0 then 1
             else int64 (crc64.Checksum (quotedInfoBytes q c) (crc64.MakeTable crc64.ISO))) ∧
        qrow = Row.QuotedInfo
          { ID := k, PrevID := q.PrevID, PrevGlobalID := q.PrevGlobalID,
            QuotedContent := B2S c } ∧
        replay E s.db pre = some dbPre ∧
        (∀ t r o, Event.Insert t r o ∈ pre → t = Table.UinInfo ∨ t = Table.MessageAttribute) ∧
        okQ = (E.Insert dbPre Table.QuotedInfo qrow).1.isNone ∧
        s.since (InsertGroupMessage E Y s msg).2 =
          pre ++ Event.Lock :: Event.Insert Table.QuotedInfo qrow okQ :: Event.Unlock :: post ∧
        (∀ t r ok, Event.Insert t (Row.QuotedInfo r) ok
            ∈ s.since (InsertGroupMessage E Y s msg).2 → r.ID = k) ∧
        (∀ t r ok, Event.Insert t (Row.GroupMessage r) ok
            ∈ s.since (InsertGroupMessage E Y s msg).2 →
          r.QuotedInfoID = k ∨ r.QuotedInfoID = 0) ∧
        (∀ content, Y.MarshalGroupMessage msg = Except.ok content →
          ∃ (aid : Int) (ok : Bool),
            post = [Event.Lock,
              Event.Insert Table.GroupMessage (Row.GroupMessage
                { GlobalID := msg.GlobalID, ID := msg.ID, AttributeID := aid,
                  SubType := msg.SubType, QuotedInfoID := if okQ = true then k else 0,
                  GroupCode := msg.GroupCode, AnonymousID := msg.AnonymousID,
                  Content := B2S content }) ok,
              Event.Unlock])) ∧
    (∀ (msg : db.StoredPrivateMessage) (a : db.StoredMessageAttribute), msg.Attribute = some a →
      ∃ (k : Int) (urow arow : Row) (okU okA : Bool) (post : List Event),
        k ≠ 0 ∧
        k = (if crc64.Checksum (attributeBytes a) (crc64.MakeTable crc64.ISO) = 0 then 1
             else int64 (crc64.Checksum (attributeBytes a) (crc64.MakeTable crc64.ISO))) ∧
        urow = Row.UinInfo { Uin := a.SenderUin, Name := a.SenderName } ∧
        arow = Row.MessageAttribute
          { ID := k, MessageSeq := a.MessageSeq, InternalID := a.InternalID,
            SenderUin := a.SenderUin, Timestamp := a.Timestamp } ∧
        okU = (E.Insert s.db Table.UinInfo urow).1.isNone ∧
        okA = (E.Insert (E.Insert s.db Table.UinInfo urow).2 Table.MessageAttribute arow).1.isNone ∧
        s.since (InsertPrivateMessage E Y s msg).2 =
          Event.Lock :: Event.Insert Table.UinInfo urow okU ::
            ((if okU = true then [Event.Insert Table.MessageAttribute arow okA] else []) ++
              Event.Unlock :: post) ∧
        (∀ t r ok, Event.Insert t (Row.MessageAttribute r) ok
            ∈ s.since (InsertPrivateMessage E Y s msg).2 → r.ID = k) ∧
        (∀ t r ok, Event.Insert t (Row.PrivateMessage r) ok
            ∈ s.since (InsertPrivateMessage E Y s msg).2 →
          r.AttributeID = k ∨ r.AttributeID = 0) ∧
        (∀ content, Y.MarshalPrivateMessage msg = Except.ok content →
          (∀ q, msg.QuotedInfo = some q → ∃ c, Y.MarshalQuotedInfo q = Except.ok c) →
          ∃ (mid : List Event) (qid : Int) (ok : Bool),
            post = mid ++ [Event.Lock,
              Event.Insert Table.PrivateMessage (Row.PrivateMessage
                { GlobalID := msg.GlobalID, ID := msg.ID,
                  AttributeID := if okU = true ∧ okA = true then k else 0,
                  SubType := msg.SubType, QuotedInfoID := qid, SessionUin := msg.SessionUin,
                  TargetUin := msg.TargetUin, Content := B2S content }) ok,
              Event.Unlock])) ∧
    (∀ (msg : db.StoredPrivateMessage) (q : db.QuotedInfo) (c : List Byte),
      msg.QuotedInfo = some q → Y.MarshalQuotedInfo q = Except.ok c →
      ∃ (k : Int) (qrow : Row) (okQ : Bool) (pre post : List Event) (dbPre : σ),
        k ≠ 0 ∧
        k = (if crc64.Checksum (quotedInfoBytes q c) (crc64.MakeTable crc64.ISO) = 0 then 1
             else int64 (crc64.Checksum (quotedInfoBytes q c) (crc64.MakeTable crc64.ISO))) ∧
        qrow = Row.QuotedInfo
          { ID := k, PrevID := q.PrevID, PrevGlobalID := q.PrevGlobalID,
            QuotedContent := B2S c } ∧
        replay E s.db pre = some dbPre ∧
        (∀ t r o, Event.Insert t r o ∈ pre → t = Table.UinInfo ∨ t = Table.MessageAttribute) ∧
        okQ = (E.Insert dbPre Table.QuotedInfo qrow).1.isNone ∧
        s.since (InsertPrivateMessage E Y s msg).2 =
          pre ++ Event.Lock :: Event.Insert Table.QuotedInfo qrow okQ :: Event.Unlock :: post ∧
        (∀ t r ok, Event.Insert t (Row.QuotedInfo r) ok
            ∈ s.since (InsertPrivateMessage E Y s msg).2 → r.ID = k) ∧
        (∀ t r ok, Event.Insert t (Row.PrivateMessage r) ok
            ∈ s.since (InsertPrivateMessage E Y s msg).2 →
          r.QuotedInfoID = k ∨ r.QuotedInfoID = 0) ∧
        (∀ content, Y.MarshalPrivateMessage msg = Except.ok content →
          ∃ (aid : Int) (ok : Bool),
            post = [Event.Lock,
              Event.Insert Table.PrivateMessage (Row.PrivateMessage
                { GlobalID := msg.GlobalID, ID := msg.ID, AttributeID := aid,
                  SubType := msg.SubType, QuotedInfoID := if okQ = true then k else 0,
                  SessionUin := msg.SessionUin, TargetUin := msg.TargetUin,
                  Content := B2S content }) ok,
              Event.Unlock])) ∧
    (∀ msg : db.StoredGroupMessage,
      replay E s.db (s.since (InsertGroupMessage E Y s msg).2)
        = some (InsertGroupMessage E Y s msg).2.db) ∧
    (∀ msg : db.StoredPrivateMessage,
      replay E s.db (s.since (InsertPrivateMessage E Y s msg).2)
        = some (InsertPrivateMessage E Y s msg).2.db) := by
  refine ⟨?_, ?_, ?_, ?_, fun msg => (InsertGroupMessage_logged E Y s msg).since,
    fun msg => (InsertPrivateMessage_logged E Y s msg).since⟩
  · intro msg a ha
    obtain ⟨A, Q, V, aid, qres, h1, hA, hQ, _, _, hV3⟩ := InsertGroupMessage_spec E Y s msg
    have hlog := (InsertGroupMessage_logged E Y s msg).since
    obtain ⟨okU, okA, haid, hAeq⟩ := hA.2 a ha
    rw [h1, hAeq] at hlog
    simp only [List.cons_append, List.append_assoc] at hlog
    obtain ⟨hU, hAflag⟩ := attribute_flags hlog
    refine ⟨attributeKey a, _, _, okU,
      (E.Insert (E.Insert s.db Table.UinInfo
        (Row.UinInfo { Uin := a.SenderUin, Name := a.SenderName })).2 Table.MessageAttribute
        (Row.MessageAttribute
          { ID := attributeKey a, MessageSeq := a.MessageSeq, InternalID := a.InternalID,
            SenderUin := a.SenderUin, Timestamp := a.Timestamp })).1.isNone,
      Q ++ V, attributeKey_ne_zero a, rfl, rfl, rfl, hU, rfl, ?_, ?_, ?_, ?_⟩
    · rw [h1, hAeq]
      cases okU
      · simp
      · simp [← hAflag rfl]
    · intro t r ok he
      rcases InsertGroupMessage_mem E Y s msg _ he with h | h | ⟨_, _, _, h⟩ | ⟨a', _, ha', h⟩ |
        ⟨_, _, _, _, _, h⟩ | ⟨_, _, h, _⟩ <;> cases h
      rw [ha] at ha'
      cases ha'
      rfl
    · intro t r ok he
      rcases InsertGroupMessage_mem E Y s msg _ he with h | h | ⟨_, _, _, h⟩ | ⟨_, _, _, h⟩ |
        ⟨_, _, _, _, _, h⟩ | ⟨_, _, h, _, h2, _⟩ <;> cases h
      exact h2 a ha
    · intro content hm hq
      have hres : ∃ qid, qres = Except.ok qid := by
        cases hquote : msg.QuotedInfo with
        | none => exact ⟨0, (hQ.1 hquote).1⟩
        | some q =>
          obtain ⟨c, hc⟩ := hq q hquote
          obtain ⟨okQ, h, _⟩ := hQ.2.2 q c hquote hc
          exact ⟨_, h⟩
      obtain ⟨qid, hqid⟩ := hres
      obtain ⟨okE, _, hV⟩ := hV3 qid content hqid hm
      refine ⟨Q, qid, okE, ?_⟩
      rw [hV, haid]
      cases okU
      · simp
      · simp [← hAflag rfl]
  · intro msg q c hq hc
    obtain ⟨A, Q, V, aid, qres, h1, hA, hQ, _, _, hV3⟩ := InsertGroupMessage_spec E Y s msg
    have hlog := (InsertGroupMessage_logged E Y s msg).since
    obtain ⟨okQ, hqres, hQeq⟩ := hQ.2.2 q c hq hc
    rw [h1, hQeq, List.append_assoc] at hlog
    obtain ⟨dbPre, hpre, hrest⟩ := replay_split hlog
    have hflag := (replay_insert hrest).1
    refine ⟨quotedInfoKey q c, _, okQ, A, V, dbPre, quotedInfoKey_ne_zero q c, rfl, rfl, hpre,
      fun t r o hm => attributeBlock_tables hA t r o hm, hflag, ?_, ?_, ?_, ?_⟩
    · rw [h1, hQeq]
      simp
    · intro t r ok he
      rcases InsertGroupMessage_mem E Y s msg _ he with h | h | ⟨_, _, _, h⟩ | ⟨_, _, _, h⟩ |
        ⟨q', c', _, hq', hc', h⟩ | ⟨_, _, h, _⟩ <;> cases h
      rw [hq] at hq'
      cases hq'
      rw [hc] at hc'
      cases hc'
      rfl
    · intro t r ok he
      rcases InsertGroupMessage_mem E Y s msg _ he with h | h | ⟨_, _, _, h⟩ | ⟨_, _, _, h⟩ |
        ⟨_, _, _, _, _, h⟩ | ⟨_, _, h, _, _, _, h2⟩ <;> cases h
      exact h2 q c hq hc
    · intro content hm
      obtain ⟨okE, _, hV⟩ := hV3 _ content hqres hm
      exact ⟨aid, okE, hV⟩
  · intro msg a ha
    obtain ⟨A, Q, V, aid, qres, h1, hA, hQ, _, _, hV3⟩ := InsertPrivateMessage_spec E Y s msg
    have hlog := (InsertPrivateMessage_logged E Y s msg).since
    obtain ⟨okU, okA, haid, hAeq⟩ := hA.2 a ha
    rw [h1, hAeq] at hlog
    simp only [List.cons_append, List.append_assoc] at hlog
    obtain ⟨hU, hAflag⟩ := attribute_flags hlog
    refine ⟨attributeKey a, _, _, okU,
      (E.Insert (E.Insert s.db Table.UinInfo
        (Row.UinInfo { Uin := a.SenderUin, Name := a.SenderName })).2 Table.MessageAttribute
        (Row.MessageAttribute
          { ID := attributeKey a, MessageSeq := a.MessageSeq, InternalID := a.InternalID,
            SenderUin := a.SenderUin, Timestamp := a.Timestamp })).1.isNone,
      Q ++ V, attributeKey_ne_zero a, rfl, rfl, rfl, hU, rfl, ?_, ?_, ?_, ?_⟩
    · rw [h1, hAeq]
      cases okU
      · simp
      · simp [← hAflag rfl]
    · intro t r ok he
      rcases InsertPrivateMessage_mem E Y s msg _ he with h | h | ⟨_, _, _, h⟩ | ⟨a', _, ha', h⟩ |
        ⟨_, _, _, _, _, h⟩ | ⟨_, _, h, _⟩ <;> cases h
      rw [ha] at ha'
      cases ha'
      rfl
    · intro t r ok he
      rcases InsertPrivateMessage_mem E Y s msg _ he with h | h | ⟨_, _, _, h⟩ | ⟨_, _, _, h⟩ |
        ⟨_, _, _, _, _, h⟩ | ⟨_, _, h, _, h2, _⟩ <;> cases h
      exact h2 a ha
    · intro content hm hq
      have hres : ∃ qid, qres = Except.ok qid := by
        cases hquote : msg.QuotedInfo with
        | none => exact ⟨0, (hQ.1 hquote).1⟩
        | some q =>
          obtain ⟨c, hc⟩ := hq q hquote
          obtain ⟨okQ, h, _⟩ := hQ.2.2 q c hquote hc
          exact ⟨_, h⟩
      obtain ⟨qid, hqid⟩ := hres
      obtain ⟨okE, _, hV⟩ := hV3 qid content hqid hm
      refine ⟨Q, qid, okE, ?_⟩
      rw [hV, haid]
      cases okU
      · simp
      · simp [← hAflag rfl]
  · intro msg q c hq hc
    obtain ⟨A, Q, V, aid, qres, h1, hA, hQ, _, _, hV3⟩ := InsertPrivateMessage_spec E Y s msg
    have hlog := (InsertPrivateMessage_logged E Y s msg).since
    obtain ⟨okQ, hqres, hQeq⟩ := hQ.2.2 q c hq hc
    rw [h1, hQeq, List.append_assoc] at hlog
    obtain ⟨dbPre, hpre, hrest⟩ := replay_split hlog
    have hflag := (replay_insert hrest).1
    refine ⟨quotedInfoKey q c, _, okQ, A, V, dbPre, quotedInfoKey_ne_zero q c, rfl, rfl, hpre,
      fun t r o hm => attributeBlock_tables hA t r o hm, hflag, ?_, ?_, ?_, ?_⟩
    · rw [h1, hQeq]
      simp
    · intro t r ok he
      rcases InsertPrivateMessage_mem E Y s msg _ he with h | h | ⟨_, _, _, h⟩ | ⟨_, _, _, h⟩ |
        ⟨q', c', _, hq', hc', h⟩ | ⟨_, _, h, _⟩ <;> cases h
      rw [hq] at hq'
      cases hq'
      rw [hc] at hc'
      cases hc'
      rfl
    · intro t r ok he
      rcases InsertPrivateMessage_mem E Y s msg _ he with h | h | ⟨_, _, _, h⟩ | ⟨_, _, _, h⟩ |
        ⟨_, _, _, _, _, h⟩ | ⟨_, _, h, _, _, _, h2⟩ <;> cases h
      exact h2 q c hq hc
    · intro content hm
      obtain ⟨okE, _, hV⟩ := hV3 _ content hqres hm
      exact ⟨aid, okE, hV⟩

set_option maxRecDepth 100000 in
/-- Witness for C3: `zeroChecksumAttribute` encodes to bytes whose checksum is `0`.
Inserting `zeroChecksumMessage` into the freshly opened reference store hands
the engine the attribute row with `ID = 1` and the envelope row with
`AttributeID = 1`, both are stored, and the lookup by `GlobalID` returns the
attribute; the theorem applies to this call. -/
theorem surrogate_key_never_zero_witness :
    zeroChecksumMessage.Attribute = some zeroChecksumAttribute ∧
    crc64.Checksum (attributeBytes zeroChecksumAttribute) (crc64.MakeTable crc64.ISO) = 0 ∧
    (freshDatabase firstMatch 0).since
        (InsertGroupMessage (listEngine firstMatch) plainYaml (freshDatabase firstMatch 0)
          zeroChecksumMessage).2
      = [Event.Lock,
         Event.Insert Table.UinInfo (Row.UinInfo
           { Uin := 10001, Name := [11, 13, 102, 125, 48, 158, 119, 177] }) true,
         Event.Insert Table.MessageAttribute (Row.MessageAttribute
           { ID := 1, MessageSeq := 5, InternalID := 9, SenderUin := 10001,
             Timestamp := 1700000000 }) true,
         Event.Unlock,
         Event.Lock,
         Event.Insert Table.GroupMessage (Row.GroupMessage
           { GlobalID := 9, ID := 3, AttributeID := 1, QuotedInfoID := 0, GroupCode := 42 }) true,
         Event.Unlock] ∧
    (InsertGroupMessage (listEngine firstMatch) plainYaml (freshDatabase firstMatch 0)
        zeroChecksumMessage).2.db.messageAttribute
      = [{}, { ID := 1, MessageSeq := 5, InternalID := 9, SenderUin := 10001,
               Timestamp := 1700000000 }] ∧
    ((GetGroupMessageByGlobalID (listEngine firstMatch) plainYaml
        (InsertGroupMessage (listEngine firstMatch) plainYaml (freshDatabase firstMatch 0)
          zeroChecksumMessage).2 9).1.toOption.map fun r => r.Attribute)
      = some (some zeroChecksumAttribute) ∧
    ∃ (k : Int) (urow arow : Row) (okU okA : Bool) (post : List Event),
      k ≠ 0 ∧
      k = (if crc64.Checksum (attributeBytes zeroChecksumAttribute)
              (crc64.MakeTable crc64.ISO) = 0 then 1
           else int64 (crc64.Checksum (attributeBytes zeroChecksumAttribute)
              (crc64.MakeTable crc64.ISO))) ∧
      urow = Row.UinInfo
        { Uin := zeroChecksumAttribute.SenderUin, Name := zeroChecksumAttribute.SenderName } ∧
      arow = Row.MessageAttribute
        { ID := k, MessageSeq := zeroChecksumAttribute.MessageSeq,
          InternalID := zeroChecksumAttribute.InternalID,
          SenderUin := zeroChecksumAttribute.SenderUin,
          Timestamp := zeroChecksumAttribute.Timestamp } ∧
      okU = ((listEngine firstMatch).Insert (freshDatabase firstMatch 0).db
        Table.UinInfo urow).1.isNone ∧
      okA = ((listEngine firstMatch).Insert
        ((listEngine firstMatch).Insert (freshDatabase firstMatch 0).db Table.UinInfo urow).2
        Table.MessageAttribute arow).1.isNone ∧
      (freshDatabase firstMatch 0).since
          (InsertGroupMessage (listEngine firstMatch) plainYaml (freshDatabase firstMatch 0)
            zeroChecksumMessage).2 =
        Event.Lock :: Event.Insert Table.UinInfo urow okU ::
          ((if okU = true then [Event.Insert Table.MessageAttribute arow okA] else []) ++
            Event.Unlock :: post) :=
  ⟨rfl, by decide, by decide, by decide, by decide,
   match (surrogate_key_never_zero (listEngine firstMatch) plainYaml
      (freshDatabase firstMatch 0)).1 zeroChecksumMessage zeroChecksumAttribute rfl with
   | ⟨k, urow, arow, okU, okA, post, h1, h2, h3, h4, h5, h6, h7, _⟩ =>
     ⟨k, urow, arow, okU, okA, post, h1, h2, h3, h4, h5, h6, h7⟩⟩

/-- The quote row is handed to the engine in every `InsertGroupMessage` call on a
message whose quote is non-nil and marshals. -/
theorem InsertGroupMessage_quote_row {σ : Type} (E : Sqlite σ) (Y : Yaml) (s : database σ)
    (msg : db.StoredGroupMessage) (q : db.QuotedInfo) (c : List Byte)
    (hq : msg.QuotedInfo = some q) (hc : Y.MarshalQuotedInfo q = Except.ok c) :
    ∃ ok, Event.Insert Table.QuotedInfo (Row.QuotedInfo
        { ID := quotedInfoKey q c, PrevID := q.PrevID, PrevGlobalID := q.PrevGlobalID,
          QuotedContent := B2S c }) ok ∈ s.since (InsertGroupMessage E Y s msg).2 := by
  obtain ⟨A, Q, V, aid, qres, h1, _, hQ, _⟩ := InsertGroupMessage_shape E Y s msg
  obtain ⟨okQ, _, hQ'⟩ := hQ.2.2 q c hq hc
  refine ⟨okQ, ?_⟩
  rw [h1, hQ']
  simp

/-- The quote row is handed to the engine in every `InsertPrivateMessage` call on a
message whose quote is non-nil and marshals. -/
theorem InsertPrivateMessage_quote_row {σ : Type} (E : Sqlite σ) (Y : Yaml) (s : database σ)
    (msg : db.StoredPrivateMessage) (q : db.QuotedInfo) (c : List Byte)
    (hq : msg.QuotedInfo = some q) (hc : Y.MarshalQuotedInfo q = Except.ok c) :
    ∃ ok, Event.Insert Table.QuotedInfo (Row.QuotedInfo
        { ID := quotedInfoKey q c, PrevID := q.PrevID, PrevGlobalID := q.PrevGlobalID,
          QuotedContent := B2S c }) ok ∈ s.since (InsertPrivateMessage E Y s msg).2 := by
  obtain ⟨A, Q, V, aid, qres, h1, _, hQ, _⟩ := InsertPrivateMessage_shape E Y s msg
  obtain ⟨okQ, _, hQ'⟩ := hQ.2.2 q c hq hc
  refine ⟨okQ, ?_⟩
  rw [h1, hQ']
  simp

/-- Every quote row of an `InsertGroupMessage` call carries the key of the quote. -/
theorem InsertGroupMessage_quote_key {σ : Type} (E : Sqlite σ) (Y : Yaml) (s : database σ)
    (msg : db.StoredGroupMessage) (t : Table) (r : QuotedInfo) (ok : Bool)
    (he : Event.Insert t (Row.QuotedInfo r) ok ∈ s.since (InsertGroupMessage E Y s msg).2) :
    ∃ q c, msg.QuotedInfo = some q ∧ Y.MarshalQuotedInfo q = Except.ok c ∧
      r.ID = quotedInfoKey q c := by
  rcases InsertGroupMessage_mem E Y s msg _ he with h | h | ⟨_, _, _, h⟩ | ⟨_, _, _, h⟩ |
    ⟨q, c, _, hq, hc, h⟩ | ⟨_, _, h, _⟩ <;> cases h
  exact ⟨q, c, hq, hc, rfl⟩

/-- Every quote row of an `InsertPrivateMessage` call carries the key of the quote. -/
theorem InsertPrivateMessage_quote_key {σ : Type} (E : Sqlite σ) (Y : Yaml) (s : database σ)
    (msg : db.StoredPrivateMessage) (t : Table) (r : QuotedInfo) (ok : Bool)
    (he : Event.Insert t (Row.QuotedInfo r) ok ∈ s.since (InsertPrivateMessage E Y s msg).2) :
    ∃ q c, msg.QuotedInfo = some q ∧ Y.MarshalQuotedInfo q = Except.ok c ∧
      r.ID = quotedInfoKey q c := by
  rcases InsertPrivateMessage_mem E Y s msg _ he with h | h | ⟨_, _, _, h⟩ | ⟨_, _, _, h⟩ |
    ⟨q, c, _, hq, hc, h⟩ | ⟨_, _, h, _⟩ <;> cases h
  exact ⟨q, c, hq, hc, rfl⟩

/-- C5: the QuotedInfo key of an insert depends on the quote only.  Whenever the
quote `q` of a message is non-nil and marshals to `c`, `InsertGroupMessage` and
`InsertPrivateMessage` hand the engine a QuotedInfo row whose `ID` is
`quotedInfoKey q c`, the key of the checksum of `PrevID`, `PrevGlobalID` and
`c` from a fresh accumulator; any two calls (group or private, on any
engines and states, with any attributes) on messages with equal `QuotedInfo`
put the same `ID` on their QuotedInfo rows; and that key is a function of
`PrevID`, `PrevGlobalID` and the snapshot only. -/
theorem quotedInfo_key_independent_of_attribute {σ : Type} (Y : Yaml) :
    (∀ (E : Sqlite σ) (s : database σ) (msg : db.StoredGroupMessage) (q : db.QuotedInfo)
        (c : List Byte), msg.QuotedInfo = some q → Y.MarshalQuotedInfo q = Except.ok c →
      ∃ ok, Event.Insert Table.QuotedInfo (Row.QuotedInfo
          { ID := quotedInfoKey q c, PrevID := q.PrevID, PrevGlobalID := q.PrevGlobalID,
            QuotedContent := B2S c }) ok ∈ s.since (InsertGroupMessage E Y s msg).2) ∧
    (∀ (E : Sqlite σ) (s : database σ) (msg : db.StoredPrivateMessage) (q : db.QuotedInfo)
        (c : List Byte), msg.QuotedInfo = some q → Y.MarshalQuotedInfo q = Except.ok c →
      ∃ ok, Event.Insert Table.QuotedInfo (Row.QuotedInfo
          { ID := quotedInfoKey q c, PrevID := q.PrevID, PrevGlobalID := q.PrevGlobalID,
            QuotedContent := B2S c }) ok ∈ s.since (InsertPrivateMessage E Y s msg).2) ∧
    (∀ (E₁ E₂ : Sqlite σ) (s₁ s₂ : database σ) (m₁ m₂ : db.StoredGroupMessage),
      m₁.QuotedInfo = m₂.QuotedInfo →
      ∀ t₁ r₁ ok₁ t₂ r₂ ok₂,
        Event.Insert t₁ (Row.QuotedInfo r₁) ok₁ ∈ s₁.since (InsertGroupMessage E₁ Y s₁ m₁).2 →
        Event.Insert t₂ (Row.QuotedInfo r₂) ok₂ ∈ s₂.since (InsertGroupMessage E₂ Y s₂ m₂).2 →
        r₁.ID = r₂.ID) ∧
    (∀ (E₁ E₂ : Sqlite σ) (s₁ s₂ : database σ) (m₁ m₂ : db.StoredPrivateMessage),
      m₁.QuotedInfo = m₂.QuotedInfo →
      ∀ t₁ r₁ ok₁ t₂ r₂ ok₂,
        Event.Insert t₁ (Row.QuotedInfo r₁) ok₁ ∈ s₁.since (InsertPrivateMessage E₁ Y s₁ m₁).2 →
        Event.Insert t₂ (Row.QuotedInfo r₂) ok₂ ∈ s₂.since (InsertPrivateMessage E₂ Y s₂ m₂).2 →
        r₁.ID = r₂.ID) ∧
    (∀ (E₁ E₂ : Sqlite σ) (s₁ s₂ : database σ) (m₁ : db.StoredGroupMessage)
        (m₂ : db.StoredPrivateMessage),
      m₁.QuotedInfo = m₂.QuotedInfo →
      ∀ t₁ r₁ ok₁ t₂ r₂ ok₂,
        Event.Insert t₁ (Row.QuotedInfo r₁) ok₁ ∈ s₁.since (InsertGroupMessage E₁ Y s₁ m₁).2 →
        Event.Insert t₂ (Row.QuotedInfo r₂) ok₂ ∈ s₂.since (InsertPrivateMessage E₂ Y s₂ m₂).2 →
        r₁.ID = r₂.ID) ∧
    (∀ (q q' : db.QuotedInfo) (c : List Byte), q.PrevID = q'.PrevID →
      q.PrevGlobalID = q'.PrevGlobalID → quotedInfoKey q c = quotedInfoKey q' c) := by
  refine ⟨fun E s msg q c hq hc => InsertGroupMessage_quote_row E Y s msg q c hq hc,
    fun E s msg q c hq hc => InsertPrivateMessage_quote_row E Y s msg q c hq hc, ?_, ?_, ?_,
    fun q q' c h1 h2 => by simp only [quotedInfoKey, quotedInfoBytes, h1, h2]⟩
  · intro E₁ E₂ s₁ s₂ m₁ m₂ heq t₁ r₁ ok₁ t₂ r₂ ok₂ h₁ h₂
    obtain ⟨q₁, c₁, hq₁, hc₁, hk₁⟩ := InsertGroupMessage_quote_key E₁ Y s₁ m₁ t₁ r₁ ok₁ h₁
    obtain ⟨q₂, c₂, hq₂, hc₂, hk₂⟩ := InsertGroupMessage_quote_key E₂ Y s₂ m₂ t₂ r₂ ok₂ h₂
    rw [heq, hq₂] at hq₁
    cases hq₁
    rw [hc₁] at hc₂
    cases hc₂
    rw [hk₁, hk₂]
  · intro E₁ E₂ s₁ s₂ m₁ m₂ heq t₁ r₁ ok₁ t₂ r₂ ok₂ h₁ h₂
    obtain ⟨q₁, c₁, hq₁, hc₁, hk₁⟩ := InsertPrivateMessage_quote_key E₁ Y s₁ m₁ t₁ r₁ ok₁ h₁
    obtain ⟨q₂, c₂, hq₂, hc₂, hk₂⟩ := InsertPrivateMessage_quote_key E₂ Y s₂ m₂ t₂ r₂ ok₂ h₂
    rw [heq, hq₂] at hq₁
    cases hq₁
    rw [hc₁] at hc₂
    cases hc₂
    rw [hk₁, hk₂]
  · intro E₁ E₂ s₁ s₂ m₁ m₂ heq t₁ r₁ ok₁ t₂ r₂ ok₂ h₁ h₂
    obtain ⟨q₁, c₁, hq₁, hc₁, hk₁⟩ := InsertGroupMessage_quote_key E₁ Y s₁ m₁ t₁ r₁ ok₁ h₁
    obtain ⟨q₂, c₂, hq₂, hc₂, hk₂⟩ := InsertPrivateMessage_quote_key E₂ Y s₂ m₂ t₂ r₂ ok₂ h₂
    rw [heq, hq₂] at hq₁
    cases hq₁
    rw [hc₁] at hc₂
    cases hc₂
    rw [hk₁, hk₂]

set_option maxRecDepth 100000 in
/-- Witness for C5: a group message with a nil attribute and a private message
with an attribute carry the same quote; both inserts hand the engine a
QuotedInfo row, and the two rows have the same `ID`. -/
theorem quotedInfo_key_independent_of_attribute_witness :
    quoteOnlyGroupMessage.QuotedInfo = samplePrivateMessage.QuotedInfo ∧
    quoteOnlyGroupMessage.Attribute = none ∧ samplePrivateMessage.Attribute ≠ none ∧
    (∃ r ok, Event.Insert Table.QuotedInfo (Row.QuotedInfo r) ok
      ∈ (freshDatabase firstMatch 0).since (InsertGroupMessage (listEngine firstMatch) plainYaml
          (freshDatabase firstMatch 0) quoteOnlyGroupMessage).2) ∧
    (∃ r ok, Event.Insert Table.QuotedInfo (Row.QuotedInfo r) ok
      ∈ (freshDatabase firstMatch 0).since (InsertPrivateMessage (listEngine firstMatch) plainYaml
          (freshDatabase firstMatch 0) samplePrivateMessage).2) ∧
    (∀ t₁ r₁ ok₁ t₂ r₂ ok₂,
      Event.Insert t₁ (Row.QuotedInfo r₁) ok₁
        ∈ (freshDatabase firstMatch 0).since (InsertGroupMessage (listEngine firstMatch) plainYaml
            (freshDatabase firstMatch 0) quoteOnlyGroupMessage).2 →
      Event.Insert t₂ (Row.QuotedInfo r₂) ok₂
        ∈ (freshDatabase firstMatch 0).since (InsertPrivateMessage (listEngine firstMatch)
            plainYaml (freshDatabase firstMatch 0) samplePrivateMessage).2 →
      r₁.ID = r₂.ID) :=
  ⟨rfl, rfl, by decide,
   ⟨_, _, ((quotedInfo_key_independent_of_attribute plainYaml).1 (listEngine firstMatch)
      (freshDatabase firstMatch 0) quoteOnlyGroupMessage sampleQuote [] rfl rfl).choose_spec⟩,
   ⟨_, _, ((quotedInfo_key_independent_of_attribute plainYaml).2.1 (listEngine firstMatch)
      (freshDatabase firstMatch 0) samplePrivateMessage sampleQuote [] rfl rfl).choose_spec⟩,
   (quotedInfo_key_independent_of_attribute plainYaml).2.2.2.2.1 (listEngine firstMatch)
      (listEngine firstMatch) (freshDatabase firstMatch 0) (freshDatabase firstMatch 0)
      quoteOnlyGroupMessage samplePrivateMessage rfl⟩

namespace sqlite3

variable {σ : Type}

/-- The attribute join logs lookups on the MessageAttribute and UinInfo tables only,
and none at all for a zero `AttributeID`; it leaves the engine state alone. -/
theorem joinAttribute_spec (E : Sqlite σ) (s : database σ) (attributeID : Int) :
    (joinAttribute E s attributeID).2.db = s.db ∧
    ∃ evs, (joinAttribute E s attributeID).2.trace = s.trace ++ evs ∧
      (attributeID = 0 → evs = []) ∧
      (∀ t w ok, Event.Find t w ok ∈ evs → t = Table.MessageAttribute ∨ t = Table.UinInfo) := by
  unfold joinAttribute
  by_cases h0 : attributeID = 0
  · simp [h0]
  · simp only [ne_eq, h0, not_false_eq_true, if_true, database.RLock, database.RUnlock,
      database.logFind, Sqlite3MessageAttributeTableName, Sqlite3UinInfoTableName]
    rcases hA : E.FindMessageAttribute s.db { column := Column.ID, value := attributeID }
      with e | attr
    · refine ⟨rfl, _, by simp only [List.append_assoc]; rfl, by simp [h0], ?_⟩
      intro t w ok hm
      simp at hm
      exact Or.inl hm.1
    · simp only []
      rcases hU : E.FindUinInfo s.db { column := Column.Uin, value := attr.SenderUin }
        with e | uin
      · refine ⟨rfl, _, by simp only [List.append_assoc]; rfl, by simp [h0], ?_⟩
        intro t w ok hm
        simp at hm
        rcases hm with hm | hm
        · exact Or.inl hm.1
        · exact Or.inr hm.1
      · refine ⟨rfl, _, by simp only [List.append_assoc]; rfl, by simp [h0], ?_⟩
        intro t w ok hm
        simp at hm
        rcases hm with hm | hm
        · exact Or.inl hm.1
        · exact Or.inr hm.1

/-- The quote join logs lookups on the QuotedInfo table only, and none at all for
a zero `QuotedInfoID`; it leaves the engine state alone. -/
theorem joinQuotedInfo_spec (E : Sqlite σ) (Y : Yaml) (s : database σ) (quotedInfoID : Int) :
    (joinQuotedInfo E Y s quotedInfoID).2.db = s.db ∧
    ∃ evs, (joinQuotedInfo E Y s quotedInfoID).2.trace = s.trace ++ evs ∧
      (quotedInfoID = 0 → evs = []) ∧
      (∀ t w ok, Event.Find t w ok ∈ evs → t = Table.QuotedInfo) := by
  unfold joinQuotedInfo
  by_cases h0 : quotedInfoID = 0
  · simp [h0]
  · simp only [ne_eq, h0, not_false_eq_true, if_true, database.RLock, database.RUnlock,
      database.logFind, Sqlite3QuotedInfoTableName]
    rcases hQ : E.FindQuotedInfo s.db { column := Column.ID, value := quotedInfoID }
      with e | quoinf
    · refine ⟨rfl, _, by simp only [List.append_assoc]; rfl, by simp [h0], ?_⟩
      intro t w ok hm
      simp at hm
      exact hm.1
    · refine ⟨rfl, _, by simp only [List.append_assoc]; rfl, by simp [h0], ?_⟩
      intro t w ok hm
      simp at hm
      exact hm.1

end sqlite3

namespace sqlite3

variable {σ : Type}

/-- The value of the attribute join, as a function of the engine state. -/
theorem joinAttribute_fst (E : Sqlite σ) (s : database σ) (attributeID : Int) :
    (joinAttribute E s attributeID).1 =
      if attributeID = 0 then none
      else match E.FindMessageAttribute s.db { column := Column.ID, value := attributeID } with
        | Except.ok attr =>
          match E.FindUinInfo s.db { column := Column.Uin, value := attr.SenderUin } with
          | Except.ok uin =>
            some { MessageSeq := attr.MessageSeq, InternalID := attr.InternalID,
                   SenderUin := attr.SenderUin, SenderName := uin.Name,
                   Timestamp := attr.Timestamp }
          | Except.error _ => none
        | Except.error _ => none := by
  unfold joinAttribute
  by_cases h0 : attributeID = 0
  · simp [h0]
  · simp only [ne_eq, h0, not_false_eq_true, if_true, if_false, database.RLock,
      database.RUnlock, database.logFind]
    rcases hA : E.FindMessageAttribute s.db { column := Column.ID, value := attributeID }
      with e | attr
    · rfl
    · simp only []
      rcases hU : E.FindUinInfo s.db { column := Column.Uin, value := attr.SenderUin }
        with e | uin <;> rfl

/-- The value of the quote join, as a function of the engine state. -/
theorem joinQuotedInfo_fst (E : Sqlite σ) (Y : Yaml) (s : database σ) (quotedInfoID : Int) :
    (joinQuotedInfo E Y s quotedInfoID).1 =
      if quotedInfoID = 0 then none
      else match E.FindQuotedInfo s.db { column := Column.ID, value := quotedInfoID } with
        | Except.ok quoinf =>
          Y.UnmarshalQuotedInfo (S2B quoinf.QuotedContent)
            { PrevID := quoinf.PrevID, PrevGlobalID := quoinf.PrevGlobalID }
        | Except.error _ => none := by
  unfold joinQuotedInfo
  by_cases h0 : quotedInfoID = 0
  · simp [h0]
  · simp only [ne_eq, h0, not_false_eq_true, if_true, if_false, database.RLock,
      database.RUnlock, database.logFind]
    rcases hQ : E.FindQuotedInfo s.db { column := Column.ID, value := quotedInfoID }
      with e | quoinf <;> rfl

theorem UnmarshalGroupMessage_fields (Y : Yaml) (b : List Byte) (ret : db.StoredGroupMessage) :
    (Y.UnmarshalGroupMessage b ret).ID = ret.ID ∧
    (Y.UnmarshalGroupMessage b ret).GlobalID = ret.GlobalID ∧
    (Y.UnmarshalGroupMessage b ret).Attribute = ret.Attribute ∧
    (Y.UnmarshalGroupMessage b ret).SubType = ret.SubType ∧
    (Y.UnmarshalGroupMessage b ret).QuotedInfo = ret.QuotedInfo ∧
    (Y.UnmarshalGroupMessage b ret).GroupCode = ret.GroupCode ∧
    (Y.UnmarshalGroupMessage b ret).AnonymousID = ret.AnonymousID := by
  unfold Yaml.UnmarshalGroupMessage
  cases Y.DecodeContent b <;> simp

theorem UnmarshalPrivateMessage_fields (Y : Yaml) (b : List Byte)
    (ret : db.StoredPrivateMessage) :
    (Y.UnmarshalPrivateMessage b ret).ID = ret.ID ∧
    (Y.UnmarshalPrivateMessage b ret).GlobalID = ret.GlobalID ∧
    (Y.UnmarshalPrivateMessage b ret).Attribute = ret.Attribute ∧
    (Y.UnmarshalPrivateMessage b ret).SubType = ret.SubType ∧
    (Y.UnmarshalPrivateMessage b ret).QuotedInfo = ret.QuotedInfo ∧
    (Y.UnmarshalPrivateMessage b ret).SessionUin = ret.SessionUin ∧
    (Y.UnmarshalPrivateMessage b ret).TargetUin = ret.TargetUin := by
  unfold Yaml.UnmarshalPrivateMessage
  cases Y.DecodeContent b <;> simp

theorem UnmarshalQuotedInfo_fields (Y : Yaml) (b : List Byte) (ret : db.QuotedInfo)
    (hnull : Y.IsNull b = false) :
    ∃ r, Y.UnmarshalQuotedInfo b ret = some r ∧ r.PrevID = ret.PrevID ∧
      r.PrevGlobalID = ret.PrevGlobalID := by
  unfold Yaml.UnmarshalQuotedInfo
  cases Y.DecodeQuotedContent b <;> simp [hnull]

/-- Result of `GetGroupMessageByGlobalID` when the envelope lookup fails. -/
theorem GetGroupMessageByGlobalID_error (E : Sqlite σ) (Y : Yaml) (s : database σ) (id : Int)
    (err : Err)
    (h : E.FindGroupMessage s.db { column := Column.GlobalID, value := id } = Except.error err) :
    (GetGroupMessageByGlobalID E Y s id).1 = Except.error (errorsWrap err "query error") ∧
    (GetGroupMessageByGlobalID E Y s id).2.db = s.db := by
  simp only [GetGroupMessageByGlobalID, database.RLock, database.RUnlock, database.logFind, h,
    and_self]

/-- Result of `GetGroupMessageByGlobalID` when the envelope is found: the fields of the
value returned. -/
theorem GetGroupMessageByGlobalID_ok (E : Sqlite σ) (Y : Yaml) (s : database σ) (id : Int)
    (g : StoredGroupMessage)
    (h : E.FindGroupMessage s.db { column := Column.GlobalID, value := id } = Except.ok g) :
    (GetGroupMessageByGlobalID E Y s id).2.db = s.db ∧
    ∃ ret, (GetGroupMessageByGlobalID E Y s id).1 = Except.ok ret ∧
      ret.ID = g.ID ∧ ret.GlobalID = g.GlobalID ∧ ret.SubType = g.SubType ∧
      ret.GroupCode = g.GroupCode ∧ ret.AnonymousID = g.AnonymousID ∧
      ret.Attribute = (joinAttribute E s g.AttributeID).1 ∧
      ret.QuotedInfo = (joinQuotedInfo E Y s g.QuotedInfoID).1 := by
  obtain ⟨u1, u2, u3, u4, u5, u6, u7⟩ := UnmarshalGroupMessage_fields Y (S2B g.Content)
    { ID := g.ID, GlobalID := g.GlobalID, SubType := g.SubType, GroupCode := g.GroupCode,
      AnonymousID := g.AnonymousID }
  simp only [GetGroupMessageByGlobalID, database.RLock, database.RUnlock, database.logFind, h]
  refine ⟨by rw [(joinQuotedInfo_spec E Y _ _).1, (joinAttribute_spec E _ _).1], _, rfl, ?_⟩
  rw [joinQuotedInfo_fst, joinAttribute_fst, joinQuotedInfo_fst, joinAttribute_fst,
    (joinAttribute_spec E _ _).1]
  simp only []
  split <;> split <;> simp_all

/-- Result of `GetPrivateMessageByGlobalID` when the envelope lookup fails. -/
theorem GetPrivateMessageByGlobalID_error (E : Sqlite σ) (Y : Yaml) (s : database σ) (id : Int)
    (err : Err)
    (h : E.FindPrivateMessage s.db { column := Column.GlobalID, value := id } = Except.error err) :
    (GetPrivateMessageByGlobalID E Y s id).1 = Except.error (errorsWrap err "query error") ∧
    (GetPrivateMessageByGlobalID E Y s id).2.db = s.db := by
  simp only [GetPrivateMessageByGlobalID, database.RLock, database.RUnlock, database.logFind, h,
    and_self]

/-- Result of `GetPrivateMessageByGlobalID` when the envelope is found: the fields of the
value returned. -/
theorem GetPrivateMessageByGlobalID_ok (E : Sqlite σ) (Y : Yaml) (s : database σ) (id : Int)
    (g : StoredPrivateMessage)
    (h : E.FindPrivateMessage s.db { column := Column.GlobalID, value := id } = Except.ok g) :
    (GetPrivateMessageByGlobalID E Y s id).2.db = s.db ∧
    ∃ ret, (GetPrivateMessageByGlobalID E Y s id).1 = Except.ok ret ∧
      ret.ID = g.ID ∧ ret.GlobalID = g.GlobalID ∧ ret.SubType = g.SubType ∧
      ret.SessionUin = g.SessionUin ∧ ret.TargetUin = g.TargetUin ∧
      ret.Attribute = (joinAttribute E s g.AttributeID).1 ∧
      ret.QuotedInfo = (joinQuotedInfo E Y s g.QuotedInfoID).1 := by
  obtain ⟨u1, u2, u3, u4, u5, u6, u7⟩ := UnmarshalPrivateMessage_fields Y (S2B g.Content)
    { ID := g.ID, GlobalID := g.GlobalID, SubType := g.SubType, SessionUin := g.SessionUin,
      TargetUin := g.TargetUin }
  simp only [GetPrivateMessageByGlobalID, database.RLock, database.RUnlock, database.logFind, h]
  refine ⟨by rw [(joinQuotedInfo_spec E Y _ _).1, (joinAttribute_spec E _ _).1], _, rfl, ?_⟩
  rw [joinQuotedInfo_fst, joinAttribute_fst, joinQuotedInfo_fst, joinAttribute_fst,
    (joinAttribute_spec E _ _).1]
  simp only []
  split <;> split <;> simp_all

end sqlite3

namespace sqlite3

variable {σ : Type}

/-- The value `GetPrivateMessageByGlobalID` returns depends on the engine state only. -/
theorem GetPrivateMessageByGlobalID_congr (E : Sqlite σ) (Y : Yaml) (s s' : database σ)
    (id : Int) (h : s'.db = s.db) :
    (GetPrivateMessageByGlobalID E Y s' id).1 = (GetPrivateMessageByGlobalID E Y s id).1 := by
  simp only [GetPrivateMessageByGlobalID, database.RLock, database.RUnlock, database.logFind, h]
  rcases hf : E.FindPrivateMessage s.db { column := Column.GlobalID, value := id } with e | g
  · rfl
  · simp only [joinAttribute_fst, joinQuotedInfo_fst, (joinAttribute_spec E _ _).1]

end sqlite3

namespace sqlite3

variable {σ : Type}

/-- A group lookup leaves the engine state alone. -/
theorem GetGroupMessageByGlobalID_db (E : Sqlite σ) (Y : Yaml) (s : database σ) (id : Int) :
    (GetGroupMessageByGlobalID E Y s id).2.db = s.db := by
  rcases h : E.FindGroupMessage s.db { column := Column.GlobalID, value := id } with e | g
  · exact (GetGroupMessageByGlobalID_error E Y s id e h).2
  · exact (GetGroupMessageByGlobalID_ok E Y s id g h).1

/-- The function `GetMessageByGlobalID` in terms of the two typed lookups. -/
theorem GetMessageByGlobalID_fst (E : Sqlite σ) (Y : Yaml) (s : database σ) (id : Int) :
    (∀ r, (GetGroupMessageByGlobalID E Y s id).1 = Except.ok r →
      (GetMessageByGlobalID E Y s id).1 = Except.ok (db.StoredMessage.ofGroup r)) ∧
    (∀ err, (GetGroupMessageByGlobalID E Y s id).1 = Except.error err →
      (GetMessageByGlobalID E Y s id).1
        = (GetPrivateMessageByGlobalID E Y s id).1.map db.StoredMessage.ofPrivate) := by
  have hdb := GetGroupMessageByGlobalID_db E Y s id
  unfold GetMessageByGlobalID
  rcases hG : GetGroupMessageByGlobalID E Y s id with ⟨e | r, s'⟩
  · rw [hG] at hdb
    refine ⟨fun r h => ?_, fun err _ => ?_⟩
    · cases h
    · simp only [GetPrivateMessageByGlobalID_congr E Y s s' id hdb]
  · refine ⟨fun r' h => ?_, fun err h => ?_⟩
    · cases h
      rfl
    · cases h

end sqlite3

/-- C8: `GetMessageByGlobalID` returns the group message without error whenever
the group lookup succeeds (whatever the private table holds), and otherwise
exactly the result of the private lookup, value or error.  So an id whose
envelope is found in the group table yields the group message; an id found
only in the private table yields the private message without error; an id
found in neither yields the (wrapped) error of the private lookup. -/
theorem dual_kind_fallback {σ : Type} (E : Sqlite σ) (Y : Yaml) (s : database σ) (id : Int) :
    (∀ r, (GetGroupMessageByGlobalID E Y s id).1 = Except.ok r →
      (GetMessageByGlobalID E Y s id).1 = Except.ok (db.StoredMessage.ofGroup r)) ∧
    (∀ err, (GetGroupMessageByGlobalID E Y s id).1 = Except.error err →
      (GetMessageByGlobalID E Y s id).1
        = (GetPrivateMessageByGlobalID E Y s id).1.map db.StoredMessage.ofPrivate) ∧
    (∀ g, E.FindGroupMessage s.db { column := Column.GlobalID, value := id } = Except.ok g →
      ∃ r, (GetMessageByGlobalID E Y s id).1 = Except.ok (db.StoredMessage.ofGroup r) ∧
        r.GlobalID = g.GlobalID ∧ r.ID = g.ID) ∧
    (∀ err p,
      E.FindGroupMessage s.db { column := Column.GlobalID, value := id } = Except.error err →
      E.FindPrivateMessage s.db { column := Column.GlobalID, value := id } = Except.ok p →
      ∃ r, (GetMessageByGlobalID E Y s id).1 = Except.ok (db.StoredMessage.ofPrivate r) ∧
        r.GlobalID = p.GlobalID ∧ r.ID = p.ID) ∧
    (∀ err err',
      E.FindGroupMessage s.db { column := Column.GlobalID, value := id } = Except.error err →
      E.FindPrivateMessage s.db { column := Column.GlobalID, value := id } = Except.error err' →
      (GetMessageByGlobalID E Y s id).1 = Except.error (errorsWrap err' "query error")) := by
  obtain ⟨hok, herr⟩ := GetMessageByGlobalID_fst E Y s id
  refine ⟨hok, herr, ?_, ?_, ?_⟩
  · intro g hg
    obtain ⟨_, ret, hret, h1, h2, _⟩ := GetGroupMessageByGlobalID_ok E Y s id g hg
    exact ⟨ret, hok ret hret, h2, h1⟩
  · intro err p hg hp
    obtain ⟨_, ret, hret, h1, h2, _⟩ := GetPrivateMessageByGlobalID_ok E Y s id p hp
    refine ⟨ret, ?_, h2, h1⟩
    rw [herr _ (GetGroupMessageByGlobalID_error E Y s id err hg).1, hret]
    rfl
  · intro err err' hg hp
    rw [herr _ (GetGroupMessageByGlobalID_error E Y s id err hg).1,
      (GetPrivateMessageByGlobalID_error E Y s id err' hp).1]
    rfl

/-- Witness for C8: in `danglingDatabase` the id 8 is in the private table only and
yields the private message; the id 7, in both tables, yields the group
message; the id 9, in neither table, yields an error. -/
theorem dual_kind_fallback_witness :
    (∃ r, (GetMessageByGlobalID (listEngine firstMatch) plainYaml danglingDatabase 8).1
        = Except.ok (db.StoredMessage.ofPrivate r) ∧ r.GlobalID = 8 ∧ r.ID = 2) ∧
    (∃ r, (GetMessageByGlobalID (listEngine firstMatch) plainYaml danglingDatabase 7).1
        = Except.ok (db.StoredMessage.ofGroup r) ∧ r.GlobalID = 7 ∧ r.ID = 1) ∧
    (GetMessageByGlobalID (listEngine firstMatch) plainYaml danglingDatabase 9).1
        = Except.error (errorsWrap "sql: no rows in result set" "query error") :=
  ⟨(dual_kind_fallback (listEngine firstMatch) plainYaml danglingDatabase 8).2.2.2.1
      "sql: no rows in result set" { GlobalID := 8, ID := 2 } rfl rfl,
   (dual_kind_fallback (listEngine firstMatch) plainYaml danglingDatabase 7).2.2.1
      { GlobalID := 7, ID := 1, AttributeID := 55, QuotedInfoID := 66 } rfl,
   (dual_kind_fallback (listEngine firstMatch) plainYaml danglingDatabase 9).2.2.2.2
      "sql: no rows in result set" "sql: no rows in result set" rfl rfl⟩

namespace sqlite3

variable {σ : Type}

end sqlite3

namespace sqlite3

variable {σ : Type}

/-- The shape and the lock count of the events of an insert whose payload
serializes, from the shapes of its three blocks. -/
theorem lock_sections_of_blocks {attr : Option db.StoredMessageAttribute}
    {quote : Option db.QuotedInfo} {Y : Yaml} {aid : Int} {qres : Except Err Int}
    {A Q : List Event} (env : Event) (henv : env ≠ Event.Lock ∧ env ≠ Event.Unlock)
    (hA : attributeBlock attr aid A) (hQ : quotedInfoBlock Y quote qres Q)
    (hq : ∀ q, quote = some q → ∃ c, Y.MarshalQuotedInfo q = Except.ok c) :
    (attr = none → A = []) ∧
    (∀ a, attr = some a → ∃ ru okU ra okA,
      A = [Event.Lock, Event.Insert Table.UinInfo ru okU, Event.Unlock] ∨
      A = [Event.Lock, Event.Insert Table.UinInfo ru okU,
           Event.Insert Table.MessageAttribute ra okA, Event.Unlock]) ∧
    (quote = none → Q = []) ∧
    (∀ q, quote = some q → ∃ rq okQ,
      Q = [Event.Lock, Event.Insert Table.QuotedInfo rq okQ, Event.Unlock]) ∧
    (A ++ Q ++ [Event.Lock, env, Event.Unlock]).count Event.Lock
      = 1 + (if attr.isSome then 1 else 0) + (if quote.isSome then 1 else 0) ∧
    (A ++ Q ++ [Event.Lock, env, Event.Unlock]).count Event.Unlock
      = 1 + (if attr.isSome then 1 else 0) + (if quote.isSome then 1 else 0) := by
  obtain ⟨he1, he2⟩ := henv
  have hA' : (attr = none ∧ A = []) ∨ (∃ a ru okU ra okA, attr = some a ∧
      (A = [Event.Lock, Event.Insert Table.UinInfo ru okU, Event.Unlock] ∨
       A = [Event.Lock, Event.Insert Table.UinInfo ru okU,
            Event.Insert Table.MessageAttribute ra okA, Event.Unlock])) := by
    cases attr with
    | none => exact Or.inl ⟨rfl, (hA.1 rfl).2⟩
    | some a =>
      obtain ⟨okU, okA, _, h⟩ := hA.2 a rfl
      refine Or.inr ⟨a, Row.UinInfo { Uin := a.SenderUin, Name := a.SenderName }, okU,
        Row.MessageAttribute
        { ID := attributeKey a, MessageSeq := a.MessageSeq, InternalID := a.InternalID,
          SenderUin := a.SenderUin, Timestamp := a.Timestamp }, okA, rfl, ?_⟩
      cases okU
      · exact Or.inl (by rw [h]; rfl)
      · exact Or.inr (by rw [h]; rfl)
  have hQ' : (quote = none ∧ Q = []) ∨ (∃ q rq okQ, quote = some q ∧
      Q = [Event.Lock, Event.Insert Table.QuotedInfo rq okQ, Event.Unlock]) := by
    cases quote with
    | none => exact Or.inl ⟨rfl, (hQ.1 rfl).2⟩
    | some q =>
      obtain ⟨c, hc⟩ := hq q rfl
      obtain ⟨okQ, _, h⟩ := hQ.2.2 q c rfl hc
      exact Or.inr ⟨q, Row.QuotedInfo
        { ID := quotedInfoKey q c, PrevID := q.PrevID, PrevGlobalID := q.PrevGlobalID,
          QuotedContent := B2S c }, okQ, rfl, h⟩
  have e1 : (env == Event.Lock) = false := by simpa using he1
  have e2 : (env == Event.Unlock) = false := by simpa using he2
  rcases hA' with ⟨ha, hAe⟩ | ⟨a, ru, okU, ra, okA, ha, hAe | hAe⟩ <;>
    rcases hQ' with ⟨hq', hQe⟩ | ⟨q, rq, okQ, hq', hQe⟩ <;>
    subst ha <;> subst hq' <;> subst hAe <;> subst hQe <;>
    refine ⟨by simp, ?_, by simp, ?_, ?_, ?_⟩ <;>
    first
      | (intro a' ha'; cases ha'; done)
      | exact fun _ _ => ⟨ru, okU, ra, okA, Or.inl rfl⟩
      | exact fun _ _ => ⟨ru, okU, ra, okA, Or.inr rfl⟩
      | exact fun _ _ => ⟨rq, okQ, rfl⟩
      | simp [List.count_cons, e1, e2]

end sqlite3

/-- C9 (amended): when the payload serializes, the events of one
`InsertGroupMessage` or `InsertPrivateMessage` call are one exclusive section
per block: `[Lock, UinInfo insert, Unlock]` or `[Lock, UinInfo insert,
MessageAttribute insert, Unlock]` when `Attribute` is non-nil, `[Lock,
QuotedInfo insert, Unlock]` when `QuotedInfo` is non-nil, and then `[Lock,
envelope insert, Unlock]`.  The call acquires the exclusive lock once plus
once per non-nil sub-record, releases it as often, makes every insert with the
lock held, and releases the lock between each parent-row section and the
envelope insert. -/
theorem insert_lock_sections {σ : Type} (E : Sqlite σ) (Y : Yaml) (s : database σ) :
    (∀ (msg : db.StoredGroupMessage) (content : List Byte),
      Y.MarshalGroupMessage msg = Except.ok content →
      (∀ q, msg.QuotedInfo = some q → ∃ c, Y.MarshalQuotedInfo q = Except.ok c) →
      ∃ (A Q : List Event) (row : StoredGroupMessage) (ok : Bool),
        s.since (InsertGroupMessage E Y s msg).2 = A ++ Q ++
          [Event.Lock, Event.Insert Table.GroupMessage (Row.GroupMessage row) ok,
           Event.Unlock] ∧
        (msg.Attribute = none → A = []) ∧
        (∀ a, msg.Attribute = some a → ∃ ru okU ra okA,
          A = [Event.Lock, Event.Insert Table.UinInfo ru okU, Event.Unlock] ∨
          A = [Event.Lock, Event.Insert Table.UinInfo ru okU,
               Event.Insert Table.MessageAttribute ra okA, Event.Unlock]) ∧
        (msg.QuotedInfo = none → Q = []) ∧
        (∀ q, msg.QuotedInfo = some q → ∃ rq okQ,
          Q = [Event.Lock, Event.Insert Table.QuotedInfo rq okQ, Event.Unlock]) ∧
        (s.since (InsertGroupMessage E Y s msg).2).count Event.Lock
          = 1 + (if msg.Attribute.isSome then 1 else 0)
              + (if msg.QuotedInfo.isSome then 1 else 0) ∧
        (s.since (InsertGroupMessage E Y s msg).2).count Event.Unlock
          = 1 + (if msg.Attribute.isSome then 1 else 0)
              + (if msg.QuotedInfo.isSome then 1 else 0)) ∧
    (∀ (msg : db.StoredPrivateMessage) (content : List Byte),
      Y.MarshalPrivateMessage msg = Except.ok content →
      (∀ q, msg.QuotedInfo = some q → ∃ c, Y.MarshalQuotedInfo q = Except.ok c) →
      ∃ (A Q : List Event) (row : StoredPrivateMessage) (ok : Bool),
        s.since (InsertPrivateMessage E Y s msg).2 = A ++ Q ++
          [Event.Lock, Event.Insert Table.PrivateMessage (Row.PrivateMessage row) ok,
           Event.Unlock] ∧
        (msg.Attribute = none → A = []) ∧
        (∀ a, msg.Attribute = some a → ∃ ru okU ra okA,
          A = [Event.Lock, Event.Insert Table.UinInfo ru okU, Event.Unlock] ∨
          A = [Event.Lock, Event.Insert Table.UinInfo ru okU,
               Event.Insert Table.MessageAttribute ra okA, Event.Unlock]) ∧
        (msg.QuotedInfo = none → Q = []) ∧
        (∀ q, msg.QuotedInfo = some q → ∃ rq okQ,
          Q = [Event.Lock, Event.Insert Table.QuotedInfo rq okQ, Event.Unlock]) ∧
        (s.since (InsertPrivateMessage E Y s msg).2).count Event.Lock
          = 1 + (if msg.Attribute.isSome then 1 else 0)
              + (if msg.QuotedInfo.isSome then 1 else 0) ∧
        (s.since (InsertPrivateMessage E Y s msg).2).count Event.Unlock
          = 1 + (if msg.Attribute.isSome then 1 else 0)
              + (if msg.QuotedInfo.isSome then 1 else 0)) := by
  constructor
  · intro msg content hm hq
    obtain ⟨A, Q, V, aid, qres, h1, hA, hQ, _, _, hV3⟩ := InsertGroupMessage_spec E Y s msg
    have hres : ∃ qid, qres = Except.ok qid := by
      cases hquote : msg.QuotedInfo with
      | none => exact ⟨0, (hQ.1 hquote).1⟩
      | some q =>
        obtain ⟨c, hc⟩ := hq q hquote
        obtain ⟨okQ, h, _⟩ := hQ.2.2 q c hquote hc
        exact ⟨_, h⟩
    obtain ⟨qid, hqid⟩ := hres
    obtain ⟨okE, _, hV⟩ := hV3 qid content hqid hm
    rw [hV] at h1
    obtain ⟨b1, b2, b3, b4, b5, b6⟩ := lock_sections_of_blocks
      (Event.Insert Table.GroupMessage (Row.GroupMessage
        { GlobalID := msg.GlobalID, ID := msg.ID, AttributeID := aid, SubType := msg.SubType,
          QuotedInfoID := qid, GroupCode := msg.GroupCode, AnonymousID := msg.AnonymousID,
          Content := B2S content }) okE) ⟨by simp, by simp⟩ hA hQ hq
    exact ⟨A, Q, _, okE, h1, b1, b2, b3, b4, by rw [h1]; exact b5, by rw [h1]; exact b6⟩
  · intro msg content hm hq
    obtain ⟨A, Q, V, aid, qres, h1, hA, hQ, _, _, hV3⟩ := InsertPrivateMessage_spec E Y s msg
    have hres : ∃ qid, qres = Except.ok qid := by
      cases hquote : msg.QuotedInfo with
      | none => exact ⟨0, (hQ.1 hquote).1⟩
      | some q =>
        obtain ⟨c, hc⟩ := hq q hquote
        obtain ⟨okQ, h, _⟩ := hQ.2.2 q c hquote hc
        exact ⟨_, h⟩
    obtain ⟨qid, hqid⟩ := hres
    obtain ⟨okE, _, hV⟩ := hV3 qid content hqid hm
    rw [hV] at h1
    obtain ⟨b1, b2, b3, b4, b5, b6⟩ := lock_sections_of_blocks
      (Event.Insert Table.PrivateMessage (Row.PrivateMessage
        { GlobalID := msg.GlobalID, ID := msg.ID, AttributeID := aid, SubType := msg.SubType,
          QuotedInfoID := qid, SessionUin := msg.SessionUin, TargetUin := msg.TargetUin,
          Content := B2S content }) okE) ⟨by simp, by simp⟩ hA hQ hq
    exact ⟨A, Q, _, okE, h1, b1, b2, b3, b4, by rw [h1]; exact b5, by rw [h1]; exact b6⟩

/-- Witness for C9 (amended): the hypotheses hold for `sampleGroupMessage` under
`plainYaml`; the call on the freshly opened reference store acquires the
exclusive lock three times and releases it three times. -/
theorem insert_lock_sections_witness :
    (plainYaml.MarshalGroupMessage sampleGroupMessage = Except.ok [] ∧
      ∀ q, sampleGroupMessage.QuotedInfo = some q →
        ∃ c, plainYaml.MarshalQuotedInfo q = Except.ok c) ∧
    ((freshDatabase firstMatch 0).since (InsertGroupMessage (listEngine firstMatch) plainYaml
        (freshDatabase firstMatch 0) sampleGroupMessage).2).count Event.Lock = 3 ∧
    ((freshDatabase firstMatch 0).since (InsertGroupMessage (listEngine firstMatch) plainYaml
        (freshDatabase firstMatch 0) sampleGroupMessage).2).count Event.Unlock = 3 := by
  obtain ⟨_, _, _, _, _, _, _, _, _, h5, h6⟩ :=
    (insert_lock_sections (listEngine firstMatch) plainYaml (freshDatabase firstMatch 0)).1
      sampleGroupMessage [] rfl (fun _ _ => ⟨[], rfl⟩)
  exact ⟨⟨rfl, fun _ _ => ⟨[], rfl⟩⟩, h5, h6⟩

set_option maxRecDepth 100000 in
/-- C9 (counterexample): one `InsertGroupMessage` call on a message with an
attribute and a quote acquires the exclusive lock three times, not once, and
releases it after the MessageAttribute insert and again after the QuotedInfo
insert, before the envelope insert that references both rows. -/
theorem insert_takes_lock_three_times :
    (freshDatabase firstMatch 0).since (InsertGroupMessage (listEngine firstMatch) plainYaml
        (freshDatabase firstMatch 0) sampleGroupMessage).2 =
      [Event.Lock,
       Event.Insert Table.UinInfo (Row.UinInfo { Uin := 10001, Name := [97, 108] }) true,
       Event.Insert Table.MessageAttribute (Row.MessageAttribute
         { ID := 6621438808480188745, MessageSeq := 5, InternalID := 9, SenderUin := 10001,
           Timestamp := 1700000000 }) true,
       Event.Unlock,
       Event.Lock,
       Event.Insert Table.QuotedInfo (Row.QuotedInfo
         { ID := 7867788547522035712, PrevID := [98], PrevGlobalID := 3, QuotedContent := [] }) true,
       Event.Unlock,
       Event.Lock,
       Event.Insert Table.GroupMessage (Row.GroupMessage
         { GlobalID := 7, ID := 1, AttributeID := 6621438808480188745, SubType := [],
           QuotedInfoID := 7867788547522035712, GroupCode := 42, AnonymousID := [],
           Content := [] }) true,
       Event.Unlock] ∧
    ((freshDatabase firstMatch 0).since (InsertGroupMessage (listEngine firstMatch) plainYaml
        (freshDatabase firstMatch 0) sampleGroupMessage).2).count Event.Lock = 3 := by
  decide

namespace sqlite3

variable {σ : Type}

end sqlite3

namespace sqlite3

theorem Write_Reset (d : crc64.digest) (p : List Byte) : (d.Write p).Reset = d.Reset := rfl

theorem New_Reset (tab : Nat → Nat) : (crc64.New tab).Reset = crc64.New tab := rfl

theorem selectRow_singleton {α : Type} (pick : Nat → Nat) (hpick : ∀ n, 0 < n → pick n < n)
    (x : α) : selectRow pick [x] = Except.ok x := by
  have h := hpick 1 (by decide)
  have h0 : pick 1 = 0 := by omega
  simp [selectRow, h0]

/-- The rows of the freshly opened reference store: one sentinel row in each of the
four parent tables, none in the envelope tables. -/
theorem freshDatabase_db (pick : Nat → Nat) (ttl : Nat) :
    (freshDatabase pick ttl).db =
      { uinInfo := [{ Uin := 0, Name := nullString }],
        tinyInfo := [{ ID := 0, Name := nullString }],
        messageAttribute := [{}],
        quotedInfo := [{ QuotedContent := nullString }],
        groupMessage := [], privateMessage := [], deny := [] } := rfl

/-- The rows of the reference store after a group message with an attribute and a
quote was inserted into the freshly opened store: the sender's UinInfo row
has replaced the sentinel if it has the sentinel's `Uin`. -/
theorem InsertGroupMessage_fresh (pick : Nat → Nat) (Y : Yaml) (ttl : Nat)
    (m : db.StoredGroupMessage) (a : db.StoredMessageAttribute) (q : db.QuotedInfo)
    (content qcontent : List Byte) (ha : m.Attribute = some a) (hq : m.QuotedInfo = some q)
    (hmq : Y.MarshalQuotedInfo q = Except.ok qcontent)
    (hmm : Y.MarshalGroupMessage m = Except.ok content) :
    (InsertGroupMessage (listEngine pick) Y (freshDatabase pick ttl) m).1 = none ∧
    (InsertGroupMessage (listEngine pick) Y (freshDatabase pick ttl) m).2.db =
      { uinInfo := (if a.SenderUin = 0 then [] else [{ Uin := 0, Name := nullString }]) ++
                    [{ Uin := a.SenderUin, Name := a.SenderName }],
        tinyInfo := [{ ID := 0, Name := nullString }],
        messageAttribute := [{},
          { ID := attributeKey a, MessageSeq := a.MessageSeq, InternalID := a.InternalID,
            SenderUin := a.SenderUin, Timestamp := a.Timestamp }],
        quotedInfo := [{ QuotedContent := nullString },
          { ID := quotedInfoKey q qcontent, PrevID := q.PrevID, PrevGlobalID := q.PrevGlobalID,
            QuotedContent := qcontent }],
        groupMessage := [{ GlobalID := m.GlobalID, ID := m.ID, AttributeID := attributeKey a,
                           SubType := m.SubType, QuotedInfoID := quotedInfoKey q qcontent,
                           GroupCode := m.GroupCode, AnonymousID := m.AnonymousID,
                           Content := content }],
        privateMessage := [], deny := [] } := by
  have hdb := freshDatabase_db pick ttl
  have hka := attributeKey_ne_zero a
  have hkq := quotedInfoKey_ne_zero q qcontent
  generalize freshDatabase pick ttl = s at hdb ⊢
  simp only [InsertGroupMessage, insertAttribute, insertQuotedInfo, ha, hq, hmq, hmm,
    Write_Reset, New_Reset, attribute_id_eq, quotedInfo_id_eq, database.dbInsert,
    database.Lock, database.Unlock, listEngine, Store.insert, hdb, Sqlite3UinInfoTableName,
    Sqlite3MessageAttributeTableName, Sqlite3QuotedInfoTableName, Sqlite3GroupMessageTableName,
    B2S]
  by_cases h0 : a.SenderUin = 0
  · simp [h0, hka.symm, hkq.symm]
  · simp [h0, Ne.symm h0, hka.symm, hkq.symm]

end sqlite3

/-- C1 (amended): on the freshly opened reference store (every insert succeeds, a
lookup returns a row matching its filter, whichever the policy `pick` selects),
for any codec: for every group message `m` with a non-nil `Attribute` and a
non-nil `QuotedInfo` whose payload serializes, `InsertGroupMessage m` returns
no error and `GetGroupMessageByGlobalID m.GlobalID` then returns without error
a value whose `Attribute` has the `SenderName`, `SenderUin`, `MessageSeq`,
`InternalID` and `Timestamp` of `m.Attribute` and whose `QuotedInfo` has the
`PrevID` and `PrevGlobalID` of `m.QuotedInfo`. -/
theorem insert_get_round_trip (pick : Nat → Nat) (hpick : ∀ n, 0 < n → pick n < n) (Y : Yaml)
    (ttl : Nat) (m : db.StoredGroupMessage) (a : db.StoredMessageAttribute)
    (q : db.QuotedInfo) (content qcontent : List Byte)
    (ha : m.Attribute = some a) (hq : m.QuotedInfo = some q)
    (hmq : Y.MarshalQuotedInfo q = Except.ok qcontent)
    (hmm : Y.MarshalGroupMessage m = Except.ok content) :
    (Open (listEngine pick) (closedDatabase ttl)).1 = none ∧
    (InsertGroupMessage (listEngine pick) Y (freshDatabase pick ttl) m).1 = none ∧
    ∃ r a' q',
      (GetGroupMessageByGlobalID (listEngine pick) Y
        (InsertGroupMessage (listEngine pick) Y (freshDatabase pick ttl) m).2 m.GlobalID).1
          = Except.ok r ∧
      r.GlobalID = m.GlobalID ∧
      r.Attribute = some a' ∧ a'.SenderName = a.SenderName ∧ a'.SenderUin = a.SenderUin ∧
      a'.MessageSeq = a.MessageSeq ∧ a'.InternalID = a.InternalID ∧
      a'.Timestamp = a.Timestamp ∧
      r.QuotedInfo = some q' ∧ q'.PrevID = q.PrevID ∧ q'.PrevGlobalID = q.PrevGlobalID := by
  obtain ⟨hins, hdb⟩ := InsertGroupMessage_fresh pick Y ttl m a q content qcontent ha hq hmq hmm
  refine ⟨rfl, hins, ?_⟩
  generalize (InsertGroupMessage (listEngine pick) Y (freshDatabase pick ttl) m).2 = s1 at hdb ⊢
  have hka := attributeKey_ne_zero a
  have hkq := quotedInfoKey_ne_zero q qcontent
  have hfind : (listEngine pick).FindGroupMessage s1.db
      { column := Column.GlobalID, value := m.GlobalID } =
      Except.ok { GlobalID := m.GlobalID, ID := m.ID, AttributeID := attributeKey a,
                  SubType := m.SubType, QuotedInfoID := quotedInfoKey q qcontent,
                  GroupCode := m.GroupCode, AnonymousID := m.AnonymousID,
                  Content := content } := by
    rw [hdb]
    simp [listEngine, StoredGroupMessage.col, selectRow_singleton pick hpick]
  have hfa : (listEngine pick).FindMessageAttribute s1.db
      { column := Column.ID, value := attributeKey a } =
      Except.ok { ID := attributeKey a, MessageSeq := a.MessageSeq, InternalID := a.InternalID,
                  SenderUin := a.SenderUin, Timestamp := a.Timestamp } := by
    rw [hdb]
    simp [listEngine, StoredMessageAttribute.col, selectRow_singleton pick hpick, hka.symm]
  have hfu : (listEngine pick).FindUinInfo s1.db
      { column := Column.Uin, value := a.SenderUin } =
      Except.ok { Uin := a.SenderUin, Name := a.SenderName } := by
    rw [hdb]
    by_cases h0 : a.SenderUin = 0
    · simp [listEngine, UinInfo.col, selectRow_singleton pick hpick, h0]
    · simp [listEngine, UinInfo.col, selectRow_singleton pick hpick, h0, Ne.symm h0]
  have hfq : (listEngine pick).FindQuotedInfo s1.db
      { column := Column.ID, value := quotedInfoKey q qcontent } =
      Except.ok { ID := quotedInfoKey q qcontent, PrevID := q.PrevID,
                  PrevGlobalID := q.PrevGlobalID, QuotedContent := qcontent } := by
    rw [hdb]
    simp [listEngine, QuotedInfo.col, selectRow_singleton pick hpick, hkq.symm]
  obtain ⟨_, ret, hret, _, hg, _, _, _, hattr, hquote⟩ :=
    GetGroupMessageByGlobalID_ok (listEngine pick) Y s1 m.GlobalID _ hfind
  rw [joinAttribute_fst] at hattr
  rw [joinQuotedInfo_fst] at hquote
  simp only [hka, hkq, if_false, hfa, hfu, hfq] at hattr hquote
  obtain ⟨q', hq', u1, u2⟩ := UnmarshalQuotedInfo_fields Y (S2B qcontent)
    { PrevID := q.PrevID, PrevGlobalID := q.PrevGlobalID }
    (Y.marshalQuotedInfo_not_null q qcontent hmq)
  rw [hq'] at hquote
  exact ⟨ret, _, q', hret, hg, hattr, rfl, rfl, rfl, rfl, rfl, hquote, u1, u2⟩

set_option maxRecDepth 100000 in
/-- Witness for C1 (amended): `senderZeroMessage`, whose sender has the `Uin` of the
sentinel UinInfo row, makes the round trip on the reference store: the
lookup returns the sender name "al". -/
theorem insert_get_round_trip_witness :
    (∀ n, 0 < n → firstMatch n < n) ∧
    senderZeroMessage.Attribute.map (fun a => a.SenderName) = some [97, 108] ∧
    ((GetGroupMessageByGlobalID (listEngine firstMatch) plainYaml
        (InsertGroupMessage (listEngine firstMatch) plainYaml (freshDatabase firstMatch 0)
          senderZeroMessage).2 7).1.toOption.map fun r => r.Attribute.map fun a => a.SenderName)
      = some (some [97, 108]) ∧
    ∃ r a' q',
      (GetGroupMessageByGlobalID (listEngine firstMatch) plainYaml
        (InsertGroupMessage (listEngine firstMatch) plainYaml (freshDatabase firstMatch 0)
          senderZeroMessage).2 senderZeroMessage.GlobalID).1 = Except.ok r ∧
      r.GlobalID = senderZeroMessage.GlobalID ∧
      r.Attribute = some a' ∧ a'.SenderName = [97, 108] ∧
      a'.SenderUin = 0 ∧ a'.MessageSeq = 5 ∧
      a'.InternalID = 9 ∧ a'.Timestamp = 1700000000 ∧
      r.QuotedInfo = some q' ∧ q'.PrevID = sampleQuote.PrevID ∧
      q'.PrevGlobalID = sampleQuote.PrevGlobalID :=
  ⟨fun _ h => h, rfl, by decide,
   (insert_get_round_trip firstMatch (fun _ h => h) plainYaml 0 senderZeroMessage
      { MessageSeq := 5, InternalID := 9, SenderUin := 0, SenderName := [97, 108],
        Timestamp := 1700000000 } sampleQuote [] [] rfl rfl rfl rfl).2.2⟩

set_option maxRecDepth 100000 in
/-- C1 (counterexample): `sampleGroupMessage` has a non-nil attribute and a non-nil
quote; with a codec on which `Marshal` fails, on the freshly opened reference
store where every insert issued succeeds, `InsertGroupMessage` returns the
marshalling error after the two attribute inserts, no envelope row is written,
and `GetGroupMessageByGlobalID` on its `GlobalID` returns an error. -/
theorem round_trip_fails_when_payload_does_not_serialize :
    sampleGroupMessage.Attribute ≠ none ∧ sampleGroupMessage.QuotedInfo ≠ none ∧
    (Open (listEngine firstMatch) (closedDatabase 0)).1 = none ∧
    (freshDatabase firstMatch 0).since
      (InsertGroupMessage (listEngine firstMatch) failingYaml (freshDatabase firstMatch 0)
        sampleGroupMessage).2
      = [Event.Lock,
         Event.Insert Table.UinInfo (Row.UinInfo { Uin := 10001, Name := [97, 108] }) true,
         Event.Insert Table.MessageAttribute (Row.MessageAttribute
           { ID := 6621438808480188745, MessageSeq := 5, InternalID := 9, SenderUin := 10001,
             Timestamp := 1700000000 }) true,
         Event.Unlock] ∧
    (InsertGroupMessage (listEngine firstMatch) failingYaml (freshDatabase firstMatch 0)
      sampleGroupMessage).1
      = some "insert marshal QuotedContent error: yaml: cannot marshal" ∧
    (InsertGroupMessage (listEngine firstMatch) failingYaml (freshDatabase firstMatch 0)
      sampleGroupMessage).2.db.groupMessage = [] ∧
    (GetGroupMessageByGlobalID (listEngine firstMatch) failingYaml
        (InsertGroupMessage (listEngine firstMatch) failingYaml (freshDatabase firstMatch 0)
          sampleGroupMessage).2 7).1.toOption = none := by
  decide
